import Mathlib

/-!
# Peafowl multi-core pipeline (src/src/worker.cpp)

A shallow embedding of the five pipeline stages of worker.cpp
(L3_L4 emitter, L3_L4 worker, L7 emitter, L7 worker, L7 collector and the
collapsed emitter) together with the properties the specification states
about them.

Modelling conventions.

* A task batch (mc_dpi_task_t) is a union of three slot arrays of
  DPI_MULTIPROCESSOR_DEFAULT_GRAIN_SIZE entries.  It is embedded as a record
  of the three readings of that memory; each slot array is a total map from
  slot index to slot, of which only the indices below the grain size are
  looked at by the loops.  A stage writes through one member only; what the
  other members read afterwards depends on the memory layout and is never
  relied upon: every statement quantifies over arbitrary previous contents.
* The grain size, the status codes and DPI_IP_VERSION_4 are macros and
  enumerators of headers that are not part of the sources; they are
  parameters (dpi_constants).
* The dissector entry points (extract, hashers, flow table, classifier) are
  collaborators declared elsewhere; they are parameters (dpi_library)
  acting on an abstract library state.
* Arrays indexed by worker id are lists with checked accesses: an access
  outside the array or a failed assert is a fault.
* The build modelled is the one with DPI_MULTIPROCESSOR_USE_TASKS_POOL set
  and without DPI_NUMA_AWARE: the other branch of dpi_L7_collector::svc calls
  dpi_free_task with two arguments and does not compile.
* The packet reading callback is the sequence of its return values: cb n is
  what its n-th invocation returns, and the emitter counts its invocations.
-/

namespace dpi

/-- Macros and enumerators used by worker.cpp whose definitions live in
headers outside the sources. -/
structure dpi_constants where
  DPI_MULTIPROCESSOR_DEFAULT_GRAIN_SIZE : Nat
  DPI_MULTIPROCESSOR_TASKS_POOL_SIZE : Nat
  DPI_IP_VERSION_4 : Nat
  DPI_STATUS_OK : Int
  DPI_STATUS_IP_FRAGMENT : Int
  DPI_STATUS_IP_LAST_FRAGMENT : Int
  DPI_STATUS_TCP_CONNECTION_TERMINATED : Int
  DPI_ERROR_TRANSPORT_PROTOCOL_NOTSUPPORTED : Int
  DPI_ERROR_MAX_FLOWS : Int

/-- IPPROTO_TCP of netinet/in.h. -/
def IPPROTO_TCP : Nat := 6

/-- IPPROTO_UDP of netinet/in.h. -/
def IPPROTO_UDP : Nat := 17

/-- The parsed packet record (dpi_pkt_infos_t): the fields worker.cpp reads
(ip_version, l4prot, pkt, l7offset) and the remaining ones as one value. -/
structure dpi_pkt_infos_t where
  ip_version : Nat
  l4prot : Nat
  pkt : Nat
  l7offset : Nat
  others : Nat
deriving DecidableEq, Repr, Inhabited

/-- What the packet reading callback returns; pkt = 0 is the null packet. -/
structure mc_dpi_packet_reading_result_t where
  pkt : Nat
  length : Nat
  current_time : Nat
  user_pointer : Nat
deriving DecidableEq, Repr, Inhabited

/-- One slot of an L3_L4 input batch. -/
structure L3_L4_input_task_struct where
  pkt : Nat
  length : Nat
  current_time : Nat
  user_pointer : Nat
deriving DecidableEq, Repr, Inhabited

/-- One slot of an L3_L4 output batch.  The struct is declared in a header
outside the sources; its fields hold the values worker.cpp assigns to them.
Where worker.cpp itself narrows a value (the u_int16_t local
destination_worker of dpi_L7_emitter::svc) the narrowing is modelled there. -/
structure L3_L4_output_task_struct where
  status : Int
  pkt_infos : dpi_pkt_infos_t
  hash_result : Nat
  destination_worker : Nat
  user_pointer : Nat
deriving DecidableEq, Repr, Inhabited

/-- The classifier verdict (dpi_identification_result_t): its status and the
rest of the record as one value. -/
structure dpi_identification_result_t where
  status : Int
  protocol : Nat
deriving DecidableEq, Repr, Inhabited

/-- One slot of an L7 output batch. -/
structure L7_output_task_struct where
  result : dpi_identification_result_t
  user_pointer : Nat
deriving DecidableEq, Repr, Inhabited

/-- What the processing result callback receives. -/
structure mc_dpi_processing_result_t where
  result : dpi_identification_result_t
  user_pointer : Nat
deriving DecidableEq, Repr, Inhabited

/-- A task batch: the union input_output_task_t read through each of its
three members. -/
structure mc_dpi_task_t where
  L3_L4_input_task_t : Nat → L3_L4_input_task_struct
  L3_L4_output_task_t : Nat → L3_L4_output_task_struct
  L7_output_task_t : Nat → L7_output_task_struct

instance : Inhabited mc_dpi_task_t :=
  ⟨⟨fun _ => default, fun _ => default, fun _ => default⟩⟩

/-- Assignment to one element of a slot array. -/
def store {α : Type} (a : Nat → α) (i : Nat) (v : α) : Nat → α :=
  fun j => if j = i then v else a j

/-- The memcpy of the first n elements of src over dst. -/
def memcpy {α : Type} (dst src : Nat → α) (n : Nat) : Nat → α :=
  fun j => if j < n then src j else dst j

/-- The first n slots of a slot array, in index order. -/
def slots {α : Type} (a : Nat → α) (n : Nat) : List α :=
  (List.range n).map a

/-- The dissector and flow-table entry points called by worker.cpp, acting on
a library state of type σ; ρ is the type of flow rows.  The routines that
receive a pointer to the parsed record return the record as they leave it; a
find-or-create that returns none is the one that yields no flow row. -/
structure dpi_library (σ ρ : Type) where
  mc_dpi_extract_packet_infos :
    σ → Nat → Nat → dpi_pkt_infos_t → Nat → Nat → Int × dpi_pkt_infos_t × σ
  dpi_compute_v4_hash_function : σ → dpi_pkt_infos_t → Nat
  dpi_compute_v6_hash_function : σ → dpi_pkt_infos_t → Nat
  mc_dpi_flow_table_find_or_create_flow_v4 :
    σ → Nat → Nat → dpi_pkt_infos_t → Option ρ × dpi_pkt_infos_t × σ
  mc_dpi_flow_table_find_or_create_flow_v6 :
    σ → Nat → Nat → dpi_pkt_infos_t → Option ρ × dpi_pkt_infos_t × σ
  dpi_stateless_get_app_protocol :
    σ → ρ → dpi_pkt_infos_t → dpi_identification_result_t × dpi_pkt_infos_t × σ
  mc_dpi_flow_table_delete_flow_v4 : σ → Nat → ρ → σ
  mc_dpi_flow_table_delete_flow_v6 : σ → Nat → ρ → σ

/-! ## L3_L4 worker -/

/-- The members of dpi_L3_L4_worker that svc reads. -/
structure dpi_L3_L4_worker where
  v4_worker_table_size : Nat
  v6_worker_table_size : Nat
  worker_id : Nat
deriving DecidableEq, Repr, Inhabited

/-- The loop state of dpi_L3_L4_worker::svc: the library state, the local
pkt_infos (declared outside the loop) and the batch being rewritten. -/
structure L3_L4_loop (σ : Type) where
  state : σ
  pkt_infos : dpi_pkt_infos_t
  real_task : mc_dpi_task_t

/-- The mapping from flow hash to worker id: the division of lines 243 and
251. -/
def hash_to_worker (hash_result rows_per_worker : Nat) : Nat :=
  hash_result / rows_per_worker

/-- One iteration (slot i) of the loop of dpi_L3_L4_worker::svc; inp is the
scratch copy of the input slots. -/
def dpi_L3_L4_worker.svc_slot {σ ρ : Type} (K : dpi_constants)
    (lib : dpi_library σ ρ) (w : dpi_L3_L4_worker)
    (inp : Nat → L3_L4_input_task_struct)
    (s : L3_L4_loop σ) (i : Nat) : L3_L4_loop σ :=
  let r := lib.mc_dpi_extract_packet_infos s.state (inp i).pkt (inp i).length
    s.pkt_infos (inp i).current_time w.worker_id
  let status := r.1
  let pkt_infos := r.2.1
  let o : L3_L4_output_task_struct :=
    { s.real_task.L3_L4_output_task_t i with
      status := status, hash_result := 0, destination_worker := 0,
      user_pointer := (inp i).user_pointer }
  let put (o : L3_L4_output_task_struct) : L3_L4_loop σ :=
    { state := r.2.2, pkt_infos := pkt_infos,
      real_task := { s.real_task with
        L3_L4_output_task_t := store s.real_task.L3_L4_output_task_t i o } }
  if 0 ≤ status then
    if pkt_infos.l4prot ≠ IPPROTO_TCP ∧ pkt_infos.l4prot ≠ IPPROTO_UDP then
      put { o with status := K.DPI_ERROR_TRANSPORT_PROTOCOL_NOTSUPPORTED }
    else if status ≠ K.DPI_STATUS_IP_FRAGMENT then
      if pkt_infos.ip_version = K.DPI_IP_VERSION_4 then
        let h := lib.dpi_compute_v4_hash_function r.2.2 pkt_infos
        put { o with pkt_infos := pkt_infos, hash_result := h,
                     destination_worker := hash_to_worker h w.v4_worker_table_size }
      else
        let h := lib.dpi_compute_v6_hash_function r.2.2 pkt_infos
        put { o with pkt_infos := pkt_infos, hash_result := h,
                     destination_worker := hash_to_worker h w.v6_worker_table_size }
    else put o
  else put o

/-- The loop of dpi_L3_L4_worker::svc over the first n slots. -/
def dpi_L3_L4_worker.svc_loop {σ ρ : Type} (K : dpi_constants)
    (lib : dpi_library σ ρ) (w : dpi_L3_L4_worker)
    (inp : Nat → L3_L4_input_task_struct) (s : L3_L4_loop σ) (n : Nat) :
    L3_L4_loop σ :=
  (List.range n).foldl (dpi_L3_L4_worker.svc_slot K lib w inp) s

/-- The scratch array in of dpi_L3_L4_worker::svc after the memcpy of line
196: the input slots of the batch. -/
def dpi_L3_L4_worker.scratch (K : dpi_constants) (task : mc_dpi_task_t) :
    Nat → L3_L4_input_task_struct :=
  memcpy (fun _ => default) task.L3_L4_input_task_t
    K.DPI_MULTIPROCESSOR_DEFAULT_GRAIN_SIZE

/-- The function dpi_L3_L4_worker::svc: copy the input slots aside, rewrite
the batch in place, return it.  pkt_infos0 is the indeterminate initial value
of the local pkt_infos. -/
def dpi_L3_L4_worker.svc {σ ρ : Type} (K : dpi_constants)
    (lib : dpi_library σ ρ) (w : dpi_L3_L4_worker) (state : σ)
    (pkt_infos0 : dpi_pkt_infos_t) (task : mc_dpi_task_t) : mc_dpi_task_t × σ :=
  let s := dpi_L3_L4_worker.svc_loop K lib w (dpi_L3_L4_worker.scratch K task)
    ⟨state, pkt_infos0, task⟩ K.DPI_MULTIPROCESSOR_DEFAULT_GRAIN_SIZE
  (s.real_task, s.state)

/-- What mc_dpi_extract_packet_infos returns for slot i during
dpi_L3_L4_worker::svc: the parse status, the parsed record and the library
state, the call being made in the state the earlier slots left. -/
def dpi_L3_L4_worker.parse {σ ρ : Type} (K : dpi_constants)
    (lib : dpi_library σ ρ) (w : dpi_L3_L4_worker) (state : σ)
    (pkt_infos0 : dpi_pkt_infos_t) (task : mc_dpi_task_t) (i : Nat) :
    Int × dpi_pkt_infos_t × σ :=
  let inp := dpi_L3_L4_worker.scratch K task
  let s := dpi_L3_L4_worker.svc_loop K lib w inp ⟨state, pkt_infos0, task⟩ i
  lib.mc_dpi_extract_packet_infos s.state (inp i).pkt (inp i).length
    s.pkt_infos (inp i).current_time w.worker_id

/-- The flow hash H_v of a parsed record: the v4 hasher when ip_version is
DPI_IP_VERSION_4, the v6 hasher otherwise. -/
def flow_hash {σ ρ : Type} (K : dpi_constants) (lib : dpi_library σ ρ)
    (p : Int × dpi_pkt_infos_t × σ) : Nat :=
  if p.2.1.ip_version = K.DPI_IP_VERSION_4 then
    lib.dpi_compute_v4_hash_function p.2.2 p.2.1
  else lib.dpi_compute_v6_hash_function p.2.2 p.2.1

/-- The per-worker table size that goes with a parsed record. -/
def rows_per_worker (K : dpi_constants) (w : dpi_L3_L4_worker)
    (infos : dpi_pkt_infos_t) : Nat :=
  if infos.ip_version = K.DPI_IP_VERSION_4 then w.v4_worker_table_size
  else w.v6_worker_table_size

/-- A slot is routed when its parse status is non-negative, its transport
protocol is TCP or UDP and its status is not DPI_STATUS_IP_FRAGMENT. -/
def routed (K : dpi_constants) {σ : Type} (p : Int × dpi_pkt_infos_t × σ) : Prop :=
  0 ≤ p.1 ∧ (p.2.1.l4prot = IPPROTO_TCP ∨ p.2.1.l4prot = IPPROTO_UDP) ∧
    p.1 ≠ K.DPI_STATUS_IP_FRAGMENT

/-! ## L3_L4 emitter -/

/-- The members of dpi_L3_L4_emitter that svc reads and writes: the shared
flags behind freeze_flag and terminating, the task pool (oldest entry first),
and the number of times the packet reading callback has been invoked. -/
structure dpi_L3_L4_emitter where
  freeze_flag : Nat
  terminating : Nat
  tasks_pool : List mc_dpi_task_t
  reads : Nat

/-- The slot the emitter fills from a packet (lines 142 to 149). -/
def input_slot (packet : mc_dpi_packet_reading_result_t) : L3_L4_input_task_struct :=
  { pkt := packet.pkt, length := packet.length, current_time := packet.current_time,
    user_pointer := packet.user_pointer }

/-- The loop of dpi_L3_L4_emitter::svc from slot i on, with n slots left to
fill.  The result is none when the step returns FF_EOS. -/
def dpi_L3_L4_emitter.svc_loop (cb : Nat → mc_dpi_packet_reading_result_t) :
    Nat → Nat → dpi_L3_L4_emitter → mc_dpi_task_t →
      Option mc_dpi_task_t × dpi_L3_L4_emitter
  | 0, _, em, r => (some r, em)
  | n + 1, i, em, r =>
    let packet := cb em.reads
    let em1 : dpi_L3_L4_emitter := { em with reads := em.reads + 1 }
    if packet.pkt = 0 then
      (none, { em1 with terminating := 1 })
    else
      dpi_L3_L4_emitter.svc_loop cb n (i + 1) em1
        { r with L3_L4_input_task_t := store r.L3_L4_input_task_t i (input_slot packet) }

/-- The function dpi_L3_L4_emitter::svc.  fresh is the batch dpi_allocate_task
would return (indeterminate contents); the result is none for FF_EOS. -/
def dpi_L3_L4_emitter.svc (K : dpi_constants)
    (cb : Nat → mc_dpi_packet_reading_result_t) (fresh : mc_dpi_task_t)
    (em : dpi_L3_L4_emitter) : Option mc_dpi_task_t × dpi_L3_L4_emitter :=
  if em.freeze_flag ≠ 0 then (none, em)
  else
    match em.tasks_pool with
    | r :: rest =>
      dpi_L3_L4_emitter.svc_loop cb K.DPI_MULTIPROCESSOR_DEFAULT_GRAIN_SIZE 0
        { em with tasks_pool := rest } r
    | [] =>
      dpi_L3_L4_emitter.svc_loop cb K.DPI_MULTIPROCESSOR_DEFAULT_GRAIN_SIZE 0 em fresh

/-! ## L7 emitter -/

/-- The ways a step can go wrong: a failed assert, or an access outside one of
the arrays indexed by worker id. -/
inductive fault where
  | assertion_failed
  | out_of_bounds
deriving DecidableEq, Repr

/-- The members of dpi_L7_emitter that svc reads and writes, and the record of
what it handed to the scheduler: sent lists, oldest first, each batch passed to
ff_send_out with the victim set just before by lb->set_victim. -/
structure dpi_L7_emitter where
  partially_filled_sizes : List Nat
  partially_filled : List mc_dpi_task_t
  waiting_tasks : List mc_dpi_task_t
  waiting_tasks_size : Nat
  sent : List (Nat × mc_dpi_task_t)

/-- The constructor dpi_L7_emitter::dpi_L7_emitter (num_L7_workers is a
u_int16_t): sizes and partial batches zeroed, a 2W-entry waiting_tasks array
whose first W entries are freshly allocated batches (alloc i is the i-th
allocation, of indeterminate contents). -/
def dpi_L7_emitter.constructor (alloc : Nat → mc_dpi_task_t) (num_L7_workers : Nat) :
    dpi_L7_emitter :=
  { partially_filled_sizes := List.replicate num_L7_workers 0
    partially_filled := List.replicate num_L7_workers default
    waiting_tasks := (List.range num_L7_workers).map alloc ++
      List.replicate num_L7_workers default
    waiting_tasks_size := num_L7_workers
    sent := [] }

/-- One iteration (slot i) of the loop of dpi_L7_emitter::svc.  G is
DPI_MULTIPROCESSOR_DEFAULT_GRAIN_SIZE; the local destination_worker is a
u_int16_t. -/
def dpi_L7_emitter.svc_slot (G : Nat) (real_task : mc_dpi_task_t)
    (e : dpi_L7_emitter) (i : Nat) : Except fault dpi_L7_emitter :=
  let destination_worker := (real_task.L3_L4_output_task_t i).destination_worker % 65536
  match e.partially_filled_sizes[destination_worker]?,
        e.partially_filled[destination_worker]? with
  | some pfs, some pf =>
    if pfs + 1 = G then
      if e.waiting_tasks_size = 0 then .error .assertion_failed
      else
        match e.waiting_tasks[e.waiting_tasks_size - 1]? with
        | some out =>
          let out1 : mc_dpi_task_t := { out with
            L3_L4_output_task_t :=
              memcpy out.L3_L4_output_task_t pf.L3_L4_output_task_t (G - 1) }
          let out2 : mc_dpi_task_t := { out1 with
            L3_L4_output_task_t :=
              store out1.L3_L4_output_task_t (G - 1) (real_task.L3_L4_output_task_t i) }
          .ok { e with
            waiting_tasks_size := e.waiting_tasks_size - 1
            sent := e.sent ++ [(destination_worker, out2)]
            partially_filled_sizes := e.partially_filled_sizes.set destination_worker 0 }
        | none => .error .out_of_bounds
    else
      let pf1 : mc_dpi_task_t := { pf with
        L3_L4_output_task_t :=
          store pf.L3_L4_output_task_t pfs (real_task.L3_L4_output_task_t i) }
      .ok { e with
        partially_filled := e.partially_filled.set destination_worker pf1
        partially_filled_sizes := e.partially_filled_sizes.set destination_worker (pfs + 1) }
  | _, _ => .error .out_of_bounds

/-- The loop of dpi_L7_emitter::svc over the first n slots of the inbound
batch. -/
def dpi_L7_emitter.svc_loop (G : Nat) (real_task : mc_dpi_task_t)
    (e : dpi_L7_emitter) (n : Nat) : Except fault dpi_L7_emitter :=
  (List.range n).foldlM (dpi_L7_emitter.svc_slot G real_task) e

/-- The function dpi_L7_emitter::svc: route the G slots of the inbound batch,
then push the inbound batch on waiting_tasks.  The value returned on success
is always FF_GO_ON, so only the new state is given. -/
def dpi_L7_emitter.svc (G : Nat) (e : dpi_L7_emitter) (real_task : mc_dpi_task_t) :
    Except fault dpi_L7_emitter :=
  match dpi_L7_emitter.svc_loop G real_task e G with
  | .error f => .error f
  | .ok e1 =>
    if e1.waiting_tasks_size < e1.waiting_tasks.length then
      .ok { e1 with
        waiting_tasks := e1.waiting_tasks.set e1.waiting_tasks_size real_task
        waiting_tasks_size := e1.waiting_tasks_size + 1 }
    else .error .out_of_bounds

/-- Successive calls of dpi_L7_emitter::svc on a sequence of inbound batches. -/
def dpi_L7_emitter.run (G : Nat) (e : dpi_L7_emitter) (tasks : List mc_dpi_task_t) :
    Except fault dpi_L7_emitter :=
  tasks.foldlM (dpi_L7_emitter.svc G) e

/-- The slots of all batches dispatched with victim d, in dispatch order. -/
def dpi_L7_emitter.dispatched (G : Nat) (e : dpi_L7_emitter) (d : Nat) :
    List L3_L4_output_task_struct :=
  ((e.sent.filter (fun p => p.1 = d)).map
    (fun p => slots p.2.L3_L4_output_task_t G)).flatten

/-- The first partially_filled_sizes[d] slots of partially_filled[d]. -/
def dpi_L7_emitter.pending (e : dpi_L7_emitter) (d : Nat) :
    List L3_L4_output_task_struct :=
  slots (e.partially_filled.getD d default).L3_L4_output_task_t
    (e.partially_filled_sizes.getD d 0)

/-- The L3_L4 output slots of a sequence of inbound batches, in arrival
order. -/
def inbound (G : Nat) (tasks : List mc_dpi_task_t) : List L3_L4_output_task_struct :=
  (tasks.map (fun t => slots t.L3_L4_output_task_t G)).flatten

/-- The batcher invariant after k slots of the current inbound batch, hist
being every slot routed so far: array shapes, partial sizes below G, the
balance between spare batches and buffered slots, and per-destination order. -/
structure L7_inv (G W k : Nat) (hist : List L3_L4_output_task_struct)
    (e : dpi_L7_emitter) : Prop where
  len_sizes : e.partially_filled_sizes.length = W
  len_pf : e.partially_filled.length = W
  len_wt : e.waiting_tasks.length = 2 * W
  small : ∀ x ∈ e.partially_filled_sizes, x < G
  count : G * (e.waiting_tasks_size + 1) + k = e.partially_filled_sizes.sum + G + G * W
  order : ∀ d, d < W → dpi_L7_emitter.dispatched G e d ++ dpi_L7_emitter.pending e d =
    hist.filter (fun s => s.destination_worker = d)
  victims : ∀ p ∈ e.sent, p.1 < W
  total : G * e.sent.length + e.partially_filled_sizes.sum = hist.length

/-! ## L7 worker -/

/-- The calls dpi_L7_worker::svc makes into the library and to free, tagged
with the slot index they are made for. -/
inductive L7_event (ρ : Type) where
  | find_or_create_v4 (i : Nat) (hash_result : Nat)
  | find_or_create_v6 (i : Nat) (hash_result : Nat)
  | get_app_protocol (i : Nat)
  | delete_flow_v4 (i : Nat) (flow : ρ)
  | delete_flow_v6 (i : Nat) (flow : ρ)
  | free (i : Nat) (pkt : Nat)

/-- The loop state of dpi_L7_worker::svc: the library state, the batch being
rewritten and the calls made so far. -/
structure L7_loop (σ ρ : Type) where
  state : σ
  real_task : mc_dpi_task_t
  events : List (L7_event ρ)

/-- One iteration (slot i) of the loop of dpi_L7_worker::svc; temp is the
scratch copy of the L3_L4 output slots.  The boolean tells whether the
iteration left the loop through break. -/
def dpi_L7_worker.svc_slot {σ ρ : Type} (K : dpi_constants) (lib : dpi_library σ ρ)
    (worker_id : Nat) (temp : Nat → L3_L4_output_task_struct)
    (s : L7_loop σ ρ) (i : Nat) : L7_loop σ ρ × Bool :=
  let o : L7_output_task_struct :=
    { s.real_task.L7_output_task_t i with user_pointer := (temp i).user_pointer }
  let l3_status := (temp i).status
  let put (o : L7_output_task_struct) (st : σ) (ev : List (L7_event ρ)) : L7_loop σ ρ :=
    { state := st,
      real_task := { s.real_task with
        L7_output_task_t := store s.real_task.L7_output_task_t i o },
      events := s.events ++ ev }
  if l3_status < 0 ∨ l3_status = K.DPI_STATUS_IP_FRAGMENT then
    (put { o with result := { o.result with status := l3_status } } s.state [], false)
  else
    let v4 : Bool := decide ((temp i).pkt_infos.ip_version = K.DPI_IP_VERSION_4)
    let f := if v4 then
        lib.mc_dpi_flow_table_find_or_create_flow_v4 s.state worker_id
          (temp i).hash_result (temp i).pkt_infos
      else
        lib.mc_dpi_flow_table_find_or_create_flow_v6 s.state worker_id
          (temp i).hash_result (temp i).pkt_infos
    let ev1 : List (L7_event ρ) :=
      [if v4 then .find_or_create_v4 i (temp i).hash_result
       else .find_or_create_v6 i (temp i).hash_result]
    match f.1 with
    | none =>
      (put { o with result := { o.result with status := K.DPI_ERROR_MAX_FLOWS } } f.2.2
        (ev1 ++ if l3_status = K.DPI_STATUS_IP_LAST_FRAGMENT then [.free i f.2.1.pkt] else []),
       true)
    | some flow =>
      let c := lib.dpi_stateless_get_app_protocol f.2.2 flow f.2.1
      let terminated : Bool := decide (c.1.status = K.DPI_STATUS_TCP_CONNECTION_TERMINATED)
      let st2 := if terminated then
          (if v4 then lib.mc_dpi_flow_table_delete_flow_v4 c.2.2 worker_id flow
           else lib.mc_dpi_flow_table_delete_flow_v6 c.2.2 worker_id flow)
        else c.2.2
      (put { o with result := c.1 } st2
        (ev1 ++ [.get_app_protocol i] ++
          (if terminated then [if v4 then .delete_flow_v4 i flow else .delete_flow_v6 i flow]
           else []) ++
          (if l3_status = K.DPI_STATUS_IP_LAST_FRAGMENT then [.free i c.2.1.pkt] else [])),
       false)

/-- The loop of dpi_L7_worker::svc from slot i on, with n slots left. -/
def dpi_L7_worker.svc_loop {σ ρ : Type} (K : dpi_constants) (lib : dpi_library σ ρ)
    (worker_id : Nat) (temp : Nat → L3_L4_output_task_struct) :
    Nat → Nat → L7_loop σ ρ → L7_loop σ ρ
  | 0, _, s => s
  | n + 1, i, s =>
    let r := dpi_L7_worker.svc_slot K lib worker_id temp s i
    if r.2 then r.1 else dpi_L7_worker.svc_loop K lib worker_id temp n (i + 1) r.1

/-- The function dpi_L7_worker::svc: copy the L3_L4 output slots aside, rewrite
the batch in place as L7 output slots, return it with the new library state and
the calls made. -/
def dpi_L7_worker.svc {σ ρ : Type} (K : dpi_constants) (lib : dpi_library σ ρ)
    (worker_id : Nat) (state : σ) (task : mc_dpi_task_t) :
    mc_dpi_task_t × σ × List (L7_event ρ) :=
  let temp := memcpy (fun _ => default) task.L3_L4_output_task_t
    K.DPI_MULTIPROCESSOR_DEFAULT_GRAIN_SIZE
  let s := dpi_L7_worker.svc_loop K lib worker_id temp
    K.DPI_MULTIPROCESSOR_DEFAULT_GRAIN_SIZE 0 ⟨state, task, []⟩
  (s.real_task, s.state, s.events)

/-! ## L7 collector -/

/-- What dpi_L7_collector does to the outside: the invocations of the
processing result callback, oldest first, and the batches handed to
dpi_free_task. -/
structure dpi_L7_collector where
  delivered : List mc_dpi_processing_result_t
  freed : List mc_dpi_task_t

/-- The function dpi_L7_collector::svc on the shared task pool: one callback
invocation per slot, then the batch is pushed to the pool when it has room
(DPI_MULTIPROCESSOR_TASKS_POOL_SIZE entries) and freed otherwise.  The value
returned is always FF_GO_ON. -/
def dpi_L7_collector.svc (K : dpi_constants) (c : dpi_L7_collector)
    (tasks_pool : List mc_dpi_task_t) (task : mc_dpi_task_t) :
    dpi_L7_collector × List mc_dpi_task_t :=
  let c1 := (List.range K.DPI_MULTIPROCESSOR_DEFAULT_GRAIN_SIZE).foldl
    (fun (c : dpi_L7_collector) i =>
      { c with delivered := c.delivered ++
          [{ result := (task.L7_output_task_t i).result,
             user_pointer := (task.L7_output_task_t i).user_pointer }] }) c
  if tasks_pool.length < K.DPI_MULTIPROCESSOR_TASKS_POOL_SIZE then
    (c1, tasks_pool ++ [task])
  else
    ({ c1 with freed := c1.freed ++ [task] }, tasks_pool)

/-- The function dpi_L7_collector::svc_end: pop and free every pooled batch. -/
def dpi_L7_collector.svc_end (c : dpi_L7_collector) (tasks_pool : List mc_dpi_task_t) :
    dpi_L7_collector × List mc_dpi_task_t :=
  ({ c with freed := c.freed ++ tasks_pool }, [])

/-! ## Collapsed emitter -/

/-- What a step hands back to the runtime. -/
inductive svc_result where
  | FF_EOS
  | FF_GO_ON
deriving DecidableEq, Repr

/-- The collapsed emitter: its dpi_L7_emitter base object and the two nodes it
owns. -/
structure dpi_collapsed_emitter where
  L3_L4_emitter : dpi_L3_L4_emitter
  L3_L4_worker : dpi_L3_L4_worker
  L7_emitter : dpi_L7_emitter

/-- The function dpi_collapsed_emitter::svc, on the library state shared by
the stages. -/
def dpi_collapsed_emitter.svc {σ ρ : Type} (K : dpi_constants) (lib : dpi_library σ ρ)
    (cb : Nat → mc_dpi_packet_reading_result_t) (fresh : mc_dpi_task_t)
    (pkt_infos0 : dpi_pkt_infos_t) (ce : dpi_collapsed_emitter) (state : σ) :
    Except fault (svc_result × dpi_collapsed_emitter × σ) :=
  match dpi_L3_L4_emitter.svc K cb fresh ce.L3_L4_emitter with
  | (none, em) => .ok (.FF_EOS, { ce with L3_L4_emitter := em }, state)
  | (some r, em) =>
    let t := dpi_L3_L4_worker.svc K lib ce.L3_L4_worker state pkt_infos0 r
    match dpi_L7_emitter.svc K.DPI_MULTIPROCESSOR_DEFAULT_GRAIN_SIZE ce.L7_emitter t.1 with
    | .error f => .error f
    | .ok e => .ok (.FF_GO_ON, { ce with L3_L4_emitter := em, L7_emitter := e }, t.2)

/-- Steps of the collapsed emitter until it returns FF_EOS, at most fuel of
them. -/
def dpi_collapsed_emitter.run {σ ρ : Type} (K : dpi_constants) (lib : dpi_library σ ρ)
    (cb : Nat → mc_dpi_packet_reading_result_t) (fresh : mc_dpi_task_t)
    (pkt_infos0 : dpi_pkt_infos_t) :
    Nat → dpi_collapsed_emitter → σ → Except fault (svc_result × dpi_collapsed_emitter × σ)
  | 0, ce, state => .ok (.FF_GO_ON, ce, state)
  | fuel + 1, ce, state =>
    match dpi_collapsed_emitter.svc K lib cb fresh pkt_infos0 ce state with
    | .error f => .error f
    | .ok (.FF_EOS, ce1, st1) => .ok (.FF_EOS, ce1, st1)
    | .ok (.FF_GO_ON, ce1, st1) =>
      dpi_collapsed_emitter.run K lib cb fresh pkt_infos0 fuel ce1 st1

/-- The collapsed emitter as built: flags clear, nothing read, the L7 emitter
base object as its constructor leaves it. -/
def dpi_collapsed_emitter.start (w : dpi_L3_L4_worker) (alloc : Nat → mc_dpi_task_t)
    (num_workers : Nat) (tasks_pool : List mc_dpi_task_t) : dpi_collapsed_emitter :=
  { L3_L4_emitter := { freeze_flag := 0, terminating := 0, tasks_pool := tasks_pool,
                       reads := 0 }
    L3_L4_worker := w
    L7_emitter := dpi_L7_emitter.constructor alloc num_workers }

/-- What an observer sees of the collapsed emitter after a run: the last
result, the partial sizes, the number of dispatched batches and the
correlation handles held in each partial batch. -/
def dpi_collapsed_emitter.summary {σ : Type} :
    Except fault (svc_result × dpi_collapsed_emitter × σ) →
      Option (svc_result × List Nat × Nat × List (List Nat))
  | .error _ => none
  | .ok (r, ce, _) => some (r, ce.L7_emitter.partially_filled_sizes,
      ce.L7_emitter.sent.length,
      (List.range ce.L7_emitter.partially_filled_sizes.length).map
        (fun d => (dpi_L7_emitter.pending ce.L7_emitter d).map (fun s => s.user_pointer)))

/-! ## The stages run one after the other -/

/-- The state of the whole pipeline when its stages are run sequentially: the
three front nodes, the collector, and the library state shared by the workers.
The task pool is the one held by the L3_L4 emitter. -/
structure dpi_pipeline (σ : Type) where
  L3_L4_emitter : dpi_L3_L4_emitter
  L3_L4_worker : dpi_L3_L4_worker
  L7_emitter : dpi_L7_emitter
  L7_collector : dpi_L7_collector
  state : σ

/-- The back half for one dispatched batch: the L7 worker named by the victim
runs svc on it, then the collector runs svc on the result. -/
def dpi_pipeline.L7_stage {σ ρ : Type} (K : dpi_constants) (lib : dpi_library σ ρ)
    (acc : dpi_L7_collector × List mc_dpi_task_t × σ) (b : Nat × mc_dpi_task_t) :
    dpi_L7_collector × List mc_dpi_task_t × σ :=
  let r := dpi_L7_worker.svc K lib b.1 acc.2.2 b.2
  let c := dpi_L7_collector.svc K acc.1 acc.2.1 r.1
  (c.1, c.2, r.2.1)

/-- One round of the pipeline: the L3_L4 emitter step; on EOS the round ends
the stream (the collector runs svc_end); otherwise the L3_L4 worker step, the
L7 emitter step, and the back half for every batch the L7 emitter dispatched
in this round, in dispatch order.  fresh n is the batch an allocation made
after n reads returns; pkt_infos0 the indeterminate initial value of the
worker's local record. -/
def dpi_pipeline.step {σ ρ : Type} (K : dpi_constants) (lib : dpi_library σ ρ)
    (cb : Nat → mc_dpi_packet_reading_result_t) (fresh : Nat → mc_dpi_task_t)
    (pkt_infos0 : dpi_pkt_infos_t) (p : dpi_pipeline σ) :
    Except fault (svc_result × dpi_pipeline σ) :=
  match dpi_L3_L4_emitter.svc K cb (fresh p.L3_L4_emitter.reads) p.L3_L4_emitter with
  | (none, em) =>
    let c := dpi_L7_collector.svc_end p.L7_collector em.tasks_pool
    .ok (.FF_EOS, { p with L3_L4_emitter := { em with tasks_pool := c.2 },
                           L7_collector := c.1 })
  | (some r, em) =>
    let t := dpi_L3_L4_worker.svc K lib p.L3_L4_worker p.state pkt_infos0 r
    match dpi_L7_emitter.svc K.DPI_MULTIPROCESSOR_DEFAULT_GRAIN_SIZE p.L7_emitter t.1 with
    | .error f => .error f
    | .ok e =>
      let back := (e.sent.drop p.L7_emitter.sent.length).foldl
        (dpi_pipeline.L7_stage K lib) (p.L7_collector, em.tasks_pool, t.2)
      .ok (.FF_GO_ON, { p with L3_L4_emitter := { em with tasks_pool := back.2.1 },
                               L7_emitter := e, L7_collector := back.1,
                               state := back.2.2 })

/-- Rounds of the pipeline until end-of-stream, at most fuel of them.  The
result is FF_EOS when the stream ended within the fuel. -/
def dpi_pipeline.run {σ ρ : Type} (K : dpi_constants) (lib : dpi_library σ ρ)
    (cb : Nat → mc_dpi_packet_reading_result_t) (fresh : Nat → mc_dpi_task_t)
    (pkt_infos0 : dpi_pkt_infos_t) :
    Nat → dpi_pipeline σ → Except fault (svc_result × dpi_pipeline σ)
  | 0, p => .ok (.FF_GO_ON, p)
  | fuel + 1, p =>
    match dpi_pipeline.step K lib cb fresh pkt_infos0 p with
    | .error f => .error f
    | .ok (.FF_EOS, p1) => .ok (.FF_EOS, p1)
    | .ok (.FF_GO_ON, p1) => dpi_pipeline.run K lib cb fresh pkt_infos0 fuel p1

/-- The pipeline as built: freeze_flag and terminating clear, nothing read, the
given pool, the L7 emitter as its constructor leaves it, nothing delivered. -/
def dpi_pipeline.start {σ : Type} (w : dpi_L3_L4_worker) (alloc : Nat → mc_dpi_task_t)
    (num_L7_workers : Nat) (tasks_pool : List mc_dpi_task_t) (state : σ) :
    dpi_pipeline σ :=
  { L3_L4_emitter := { freeze_flag := 0, terminating := 0, tasks_pool := tasks_pool,
                       reads := 0 }
    L3_L4_worker := w
    L7_emitter := dpi_L7_emitter.constructor alloc num_L7_workers
    L7_collector := { delivered := [], freed := [] }
    state := state }

/-- The invariant of the sequential run after j complete rounds: nothing
frozen, G*j packets read, the batcher invariant over the G*j slots routed so
far, and G callback invocations for every dispatched batch. -/
structure pipeline_inv {σ : Type} (K : dpi_constants) (W : Nat) (w : dpi_L3_L4_worker)
    (j : Nat) (p : dpi_pipeline σ) : Prop where
  freeze : p.L3_L4_emitter.freeze_flag = 0
  reads : p.L3_L4_emitter.reads = K.DPI_MULTIPROCESSOR_DEFAULT_GRAIN_SIZE * j
  worker : p.L3_L4_worker = w
  batcher : ∃ hist, L7_inv K.DPI_MULTIPROCESSOR_DEFAULT_GRAIN_SIZE W 0 hist p.L7_emitter ∧
    hist.length = K.DPI_MULTIPROCESSOR_DEFAULT_GRAIN_SIZE * j
  delivered : p.L7_collector.delivered.length =
    K.DPI_MULTIPROCESSOR_DEFAULT_GRAIN_SIZE * p.L7_emitter.sent.length

/-- What an observer sees of a finished run: whether it ended with EOS, the
callback invocations, the partial sizes left in the L7 emitter, the number of
batches it dispatched and the terminating flag. -/
def dpi_pipeline.summary {σ : Type} :
    Except fault (svc_result × dpi_pipeline σ) →
      Option (svc_result × List mc_dpi_processing_result_t × List Nat × Nat × Nat)
  | .error _ => none
  | .ok (r, p) => some (r, p.L7_collector.delivered,
      p.L7_emitter.partially_filled_sizes, p.L7_emitter.sent.length,
      p.L3_L4_emitter.terminating)

/-- A packet source given by a list: the packets of the list in order, null
packets afterwards. -/
def source (l : List mc_dpi_packet_reading_result_t) :
    Nat → mc_dpi_packet_reading_result_t :=
  fun n => l.getD n ⟨0, 0, 0, 0⟩

/-- The value dpi_L7_collector::svc hands back to the runtime (line 510). -/
def dpi_L7_collector.svc_returns (_K : dpi_constants) (_c : dpi_L7_collector)
    (_tasks_pool : List mc_dpi_task_t) (_task : mc_dpi_task_t) : svc_result :=
  .FF_GO_ON

/-! ## The front stages as separate actors (specification side) -/

/-- The three front actors of the pipeline when they are not fused: each owns
its own state. -/
structure front_actors where
  L34Emitter : dpi_L3_L4_emitter
  L34Worker : dpi_L3_L4_worker
  L7Emitter : dpi_L7_emitter

/-- The step of the composition as the specification words it, over separate
actors: r = L34Emitter.step(); if r == EOS return EOS; return
L7Emitter.step(L34Worker.step(r)).  The step of an actor is its svc. -/
def front_actors.step {σ ρ : Type} (K : dpi_constants) (lib : dpi_library σ ρ)
    (cb : Nat → mc_dpi_packet_reading_result_t) (fresh : mc_dpi_task_t)
    (pkt_infos0 : dpi_pkt_infos_t) (a : front_actors) (state : σ) :
    Except fault (svc_result × front_actors × σ) :=
  let r := dpi_L3_L4_emitter.svc K cb fresh a.L34Emitter
  if r.1.isNone then
    .ok (.FF_EOS, { a with L34Emitter := r.2 }, state)
  else
    let parsed := dpi_L3_L4_worker.svc K lib a.L34Worker state pkt_infos0
      (r.1.getD default)
    (dpi_L7_emitter.svc K.DPI_MULTIPROCESSOR_DEFAULT_GRAIN_SIZE a.L7Emitter parsed.1).map
      (fun e => (.FF_GO_ON, { a with L34Emitter := r.2, L7Emitter := e }, parsed.2))

/-- Steps of the separate actors until EOS, at most fuel of them. -/
def front_actors.run {σ ρ : Type} (K : dpi_constants) (lib : dpi_library σ ρ)
    (cb : Nat → mc_dpi_packet_reading_result_t) (fresh : mc_dpi_task_t)
    (pkt_infos0 : dpi_pkt_infos_t) :
    Nat → front_actors → σ → Except fault (svc_result × front_actors × σ)
  | 0, a, state => .ok (.FF_GO_ON, a, state)
  | fuel + 1, a, state =>
    match front_actors.step K lib cb fresh pkt_infos0 a state with
    | .error f => .error f
    | .ok (.FF_EOS, a1, st1) => .ok (.FF_EOS, a1, st1)
    | .ok (.FF_GO_ON, a1, st1) => front_actors.run K lib cb fresh pkt_infos0 fuel a1 st1

/-- The collapsed emitter that holds the state of three separate actors. -/
def front_actors.fuse (a : front_actors) : dpi_collapsed_emitter :=
  { L3_L4_emitter := a.L34Emitter, L3_L4_worker := a.L34Worker, L7_emitter := a.L7Emitter }

/-- The separate actors that hold the state of a collapsed emitter. -/
def dpi_collapsed_emitter.split (ce : dpi_collapsed_emitter) : front_actors :=
  { L34Emitter := ce.L3_L4_emitter, L34Worker := ce.L3_L4_worker, L7Emitter := ce.L7_emitter }

/-- The outcome of a step of the separate actors seen as an outcome of the
collapsed emitter. -/
def fuse_outcome {σ : Type} (r : Except fault (svc_result × front_actors × σ)) :
    Except fault (svc_result × dpi_collapsed_emitter × σ) :=
  r.map (fun x => (x.1, x.2.1.fuse, x.2.2))

/-! ## Reading the run of the L7 worker -/

/-- The slot an event was made for. -/
def L7_event.slot {ρ : Type} : L7_event ρ → Nat
  | .find_or_create_v4 i _ => i
  | .find_or_create_v6 i _ => i
  | .get_app_protocol i => i
  | .delete_flow_v4 i _ => i
  | .delete_flow_v6 i _ => i
  | .free i _ => i

/-- Whether the event is a flow-table find-or-create. -/
def L7_event.is_find_or_create {ρ : Type} : L7_event ρ → Bool
  | .find_or_create_v4 _ _ => true
  | .find_or_create_v6 _ _ => true
  | _ => false

/-- Whether the event is a call of the classifier. -/
def L7_event.is_get_app_protocol {ρ : Type} : L7_event ρ → Bool
  | .get_app_protocol _ => true
  | _ => false

/-- Whether the event is a flow deletion. -/
def L7_event.is_delete {ρ : Type} : L7_event ρ → Bool
  | .delete_flow_v4 _ _ => true
  | .delete_flow_v6 _ _ => true
  | _ => false

/-- Whether the event is a release of a payload. -/
def L7_event.is_free {ρ : Type} : L7_event ρ → Bool
  | .free _ _ => true
  | _ => false

/-- The scratch array temp of dpi_L7_worker::svc after the memcpy of line 399:
the L3_L4 output slots of the batch. -/
def dpi_L7_worker.scratch (K : dpi_constants) (task : mc_dpi_task_t) :
    Nat → L3_L4_output_task_struct :=
  memcpy (fun _ => default) task.L3_L4_output_task_t
    K.DPI_MULTIPROCESSOR_DEFAULT_GRAIN_SIZE

/-- The loop state in which dpi_L7_worker::svc begins iteration i, when it gets
there: none when an earlier iteration left the loop through break. -/
def dpi_L7_worker.reach {σ ρ : Type} (K : dpi_constants) (lib : dpi_library σ ρ)
    (worker_id : Nat) (temp : Nat → L3_L4_output_task_struct) (s0 : L7_loop σ ρ) :
    Nat → Option (L7_loop σ ρ)
  | 0 => some s0
  | i + 1 =>
    match dpi_L7_worker.reach K lib worker_id temp s0 i with
    | none => none
    | some s =>
      if (dpi_L7_worker.svc_slot K lib worker_id temp s i).2 then none
      else some (dpi_L7_worker.svc_slot K lib worker_id temp s i).1

/-- The loop state in which dpi_L7_worker::svc on a batch begins iteration i. -/
def dpi_L7_worker.before {σ ρ : Type} (K : dpi_constants) (lib : dpi_library σ ρ)
    (worker_id : Nat) (state : σ) (task : mc_dpi_task_t) (i : Nat) :
    Option (L7_loop σ ρ) :=
  dpi_L7_worker.reach K lib worker_id (dpi_L7_worker.scratch K task) ⟨state, task, []⟩ i

/-- A slot takes the error and fragment path of lines 410 to 414 when its L3/L4
status is negative or DPI_STATUS_IP_FRAGMENT. -/
def skipped (K : dpi_constants) (o : L3_L4_output_task_struct) : Prop :=
  o.status < 0 ∨ o.status = K.DPI_STATUS_IP_FRAGMENT

instance (K : dpi_constants) (o : L3_L4_output_task_struct) : Decidable (skipped K o) :=
  inferInstanceAs (Decidable (o.status < 0 ∨ o.status = K.DPI_STATUS_IP_FRAGMENT))

/-- The find-or-create call of lines 419 to 429 for slot i, made in loop state
s: the flow row or none, the parsed record as the call leaves it, the library
state. -/
def dpi_L7_worker.lookup {σ ρ : Type} (K : dpi_constants) (lib : dpi_library σ ρ)
    (worker_id : Nat) (temp : Nat → L3_L4_output_task_struct) (s : L7_loop σ ρ)
    (i : Nat) : Option ρ × dpi_pkt_infos_t × σ :=
  if decide ((temp i).pkt_infos.ip_version = K.DPI_IP_VERSION_4) then
    lib.mc_dpi_flow_table_find_or_create_flow_v4 s.state worker_id
      (temp i).hash_result (temp i).pkt_infos
  else
    lib.mc_dpi_flow_table_find_or_create_flow_v6 s.state worker_id
      (temp i).hash_result (temp i).pkt_infos

/-- Modelled from the spec: what the flow-table routines of flow_table.c and the
classifier (not part of the sources) do to the sharded tables.  rows4 st w and
rows6 st w are the numbers of rows of worker w's shard of the IPv4 and IPv6
table in library state st, in4 st w f and in6 st w f say that row f is in that
shard.  Find-or-create yields a row of the calling worker's shard ("creation
allocates a row in this worker's shard"), the classifier keeps it there, and
delete removes exactly that row from the calling worker's shard and touches no
other shard ("delete the flow row from this worker's shard"). -/
structure flow_shards {σ ρ : Type} (lib : dpi_library σ ρ)
    (rows4 rows6 : σ → Nat → Nat) (in4 in6 : σ → Nat → ρ → Prop) : Prop where
  found_v4 : ∀ st w h p f,
    (lib.mc_dpi_flow_table_find_or_create_flow_v4 st w h p).1 = some f →
    in4 (lib.mc_dpi_flow_table_find_or_create_flow_v4 st w h p).2.2 w f
  found_v6 : ∀ st w h p f,
    (lib.mc_dpi_flow_table_find_or_create_flow_v6 st w h p).1 = some f →
    in6 (lib.mc_dpi_flow_table_find_or_create_flow_v6 st w h p).2.2 w f
  classified_v4 : ∀ st w f g p, in4 st w f →
    in4 (lib.dpi_stateless_get_app_protocol st g p).2.2 w f
  classified_v6 : ∀ st w f g p, in6 st w f →
    in6 (lib.dpi_stateless_get_app_protocol st g p).2.2 w f
  delete_v4 : ∀ st w f, in4 st w f →
    rows4 (lib.mc_dpi_flow_table_delete_flow_v4 st w f) w + 1 = rows4 st w ∧
    ∀ w2, w2 ≠ w → rows4 (lib.mc_dpi_flow_table_delete_flow_v4 st w f) w2 = rows4 st w2
  delete_v6 : ∀ st w f, in6 st w f →
    rows6 (lib.mc_dpi_flow_table_delete_flow_v6 st w f) w + 1 = rows6 st w ∧
    ∀ w2, w2 ≠ w → rows6 (lib.mc_dpi_flow_table_delete_flow_v6 st w f) w2 = rows6 st w2

/-- The deletions the step made for slot i. -/
def deletions_for {ρ : Type} (events : List (L7_event ρ)) (i : Nat) : List (L7_event ρ) :=
  events.filter (fun e => e.is_delete && decide (e.slot = i))

/-! ### A concrete configuration used to exercise the statements -/

/-- Constants with grain size 2 and the status codes of the Peafowl API. -/
def K2 : dpi_constants :=
  { DPI_MULTIPROCESSOR_DEFAULT_GRAIN_SIZE := 2
    DPI_MULTIPROCESSOR_TASKS_POOL_SIZE := 4
    DPI_IP_VERSION_4 := 4
    DPI_STATUS_OK := 0
    DPI_STATUS_IP_FRAGMENT := 1
    DPI_STATUS_IP_LAST_FRAGMENT := 2
    DPI_STATUS_TCP_CONNECTION_TERMINATED := 4
    DPI_ERROR_TRANSPORT_PROTOCOL_NOTSUPPORTED := -4
    DPI_ERROR_MAX_FLOWS := -3 }

/-- A toy dissector with 8 flow-table rows.  The packet pointer modulo 8 is the
flow hash and the packet length the transport protocol; a packet whose length is 0 fails to parse with
status -1; every IPv4 parse succeeds with status current_time.  The flow
table has room for no flow when the library state is 0 and finds a row
otherwise. -/
def toy : dpi_library Nat Nat :=
  { mc_dpi_extract_packet_infos := fun st pkt len _ t _ =>
      (if len = 0 then -1 else (t : Int), ⟨4, len, pkt, 0, 0⟩, st)
    dpi_compute_v4_hash_function := fun _ p => p.pkt % 8
    dpi_compute_v6_hash_function := fun _ p => p.pkt % 8
    mc_dpi_flow_table_find_or_create_flow_v4 := fun st _ h p =>
      (if st = 0 then none else some h, p, st)
    mc_dpi_flow_table_find_or_create_flow_v6 := fun st _ h p =>
      (if st = 0 then none else some h, p, st)
    dpi_stateless_get_app_protocol := fun st _ p => (⟨0, 7⟩, p, st)
    mc_dpi_flow_table_delete_flow_v4 := fun st _ _ => st
    mc_dpi_flow_table_delete_flow_v6 := fun st _ _ => st }

/-- A batch whose input slots are given by a list (null packets beyond it). -/
def task_of_inputs (l : List L3_L4_input_task_struct) : mc_dpi_task_t :=
  { (default : mc_dpi_task_t) with L3_L4_input_task_t := fun i => l.getD i default }

/-- A batch whose L3_L4 output slots are given by a list. -/
def task_of_outputs (l : List L3_L4_output_task_struct) : mc_dpi_task_t :=
  { (default : mc_dpi_task_t) with L3_L4_output_task_t := fun i => l.getD i default }

/-- An L3_L4 output slot with status 0 routed to worker d, carrying the
correlation handle u. -/
def out_slot (d u : Nat) : L3_L4_output_task_struct :=
  { status := 0, pkt_infos := default, hash_result := d, destination_worker := d,
    user_pointer := u }

/-- Two inbound batches of grain size 2 whose slots alternate between workers 0
and 1: the second batch completes both partial batches. -/
def two_flows : List mc_dpi_task_t :=
  [task_of_outputs [out_slot 0 1, out_slot 1 2],
   task_of_outputs [out_slot 0 3, out_slot 1 4]]

/-- A toy dissector with a real flow table: the library state is the list of
rows (worker id, flow hash) of a table used for both IP versions.
Find-or-create never fails; the classifier's verdict status is the l7offset
field of the parsed record. -/
def toy_table : dpi_library (List (Nat × Nat)) Nat :=
  { mc_dpi_extract_packet_infos := fun st pkt len _ t _ =>
      (if len = 0 then -1 else (t : Int), ⟨4, len, pkt, 0, 0⟩, st)
    dpi_compute_v4_hash_function := fun _ p => p.pkt % 8
    dpi_compute_v6_hash_function := fun _ p => p.pkt % 8
    mc_dpi_flow_table_find_or_create_flow_v4 := fun st w h p =>
      (some h, p, if (w, h) ∈ st then st else (w, h) :: st)
    mc_dpi_flow_table_find_or_create_flow_v6 := fun st w h p =>
      (some h, p, if (w, h) ∈ st then st else (w, h) :: st)
    dpi_stateless_get_app_protocol := fun st _ p => (⟨(p.l7offset : Int), 7⟩, p, st)
    mc_dpi_flow_table_delete_flow_v4 := fun st w f => st.erase (w, f)
    mc_dpi_flow_table_delete_flow_v6 := fun st w f => st.erase (w, f) }

/-- The number of rows of worker w's shard in the toy table. -/
def toy_rows (st : List (Nat × Nat)) (w : Nat) : Nat :=
  (st.filter (fun r => r.1 = w)).length

/-- A batch of grain size 2 for the toy table: an IPv4 packet of flow 3 whose
classification ends the TCP connection (verdict status 4), then one of flow 5
that does not. -/
def teardown_batch : mc_dpi_task_t :=
  task_of_outputs
    [{ status := 0, pkt_infos := ⟨4, 6, 3, 4, 0⟩, hash_result := 3, destination_worker := 0,
       user_pointer := 1 },
     { status := 0, pkt_infos := ⟨4, 6, 5, 0, 0⟩, hash_result := 5, destination_worker := 0,
       user_pointer := 2 }]

/-- An L3_L4 output slot of a last fragment (status 2) whose reassembled payload
is at address 77, with the correlation handle u. -/
def last_fragment_slot (u : Nat) : L3_L4_output_task_struct :=
  { status := 2, pkt_infos := ⟨4, 17, 77, 0, 0⟩, hash_result := 0, destination_worker := 0,
    user_pointer := u }

/-- The payload addresses the step handed to free, in order. -/
def freed_payloads {ρ : Type} (events : List (L7_event ρ)) : List Nat :=
  events.filterMap (fun e => match e with
    | .free _ pkt => some pkt
    | _ => none)

/-! # Theorems -/

/-! ## Properties of the L3_L4 worker -/

theorem store_same {α : Type} (a : Nat → α) (i : Nat) (v : α) : store a i v i = v := by
  simp [store]

theorem store_other {α : Type} (a : Nat → α) (i j : Nat) (v : α) (h : j ≠ i) :
    store a i v j = a j := by
  simp [store, h]

theorem L34_svc_loop_succ {σ ρ : Type} (K : dpi_constants) (lib : dpi_library σ ρ)
    (w : dpi_L3_L4_worker) (inp : Nat → L3_L4_input_task_struct)
    (s : L3_L4_loop σ) (n : Nat) :
    dpi_L3_L4_worker.svc_loop K lib w inp s (n + 1) =
      dpi_L3_L4_worker.svc_slot K lib w inp
        (dpi_L3_L4_worker.svc_loop K lib w inp s n) n := by
  simp [dpi_L3_L4_worker.svc_loop, List.range_succ, List.foldl_append]

/-- Iteration i writes output slot i only. -/
theorem L34_svc_slot_frame {σ ρ : Type} (K : dpi_constants) (lib : dpi_library σ ρ)
    (w : dpi_L3_L4_worker) (inp : Nat → L3_L4_input_task_struct)
    (s : L3_L4_loop σ) (i j : Nat) (h : j ≠ i) :
    (dpi_L3_L4_worker.svc_slot K lib w inp s i).real_task.L3_L4_output_task_t j =
      s.real_task.L3_L4_output_task_t j := by
  unfold dpi_L3_L4_worker.svc_slot
  simp only []
  split_ifs <;> simp [store, h]

/-- Output slot i is final once iteration i has run. -/
theorem L34_svc_loop_slot {σ ρ : Type} (K : dpi_constants) (lib : dpi_library σ ρ)
    (w : dpi_L3_L4_worker) (inp : Nat → L3_L4_input_task_struct)
    (s : L3_L4_loop σ) (i n : Nat) (h : i < n) :
    (dpi_L3_L4_worker.svc_loop K lib w inp s n).real_task.L3_L4_output_task_t i =
      (dpi_L3_L4_worker.svc_slot K lib w inp
        (dpi_L3_L4_worker.svc_loop K lib w inp s i) i).real_task.L3_L4_output_task_t i := by
  induction n with
  | zero => omega
  | succ n ih =>
    rw [L34_svc_loop_succ]
    rcases Nat.lt_succ_iff_lt_or_eq.mp h with h1 | h1
    · rw [L34_svc_slot_frame _ _ _ _ _ _ _ (by omega), ih h1]
    · subst h1; rfl

/-- Output slot i of dpi_L3_L4_worker::svc in terms of the parse of slot i. -/
theorem L34_svc_slot_out {σ ρ : Type} (K : dpi_constants) (lib : dpi_library σ ρ)
    (w : dpi_L3_L4_worker) (state : σ) (pkt_infos0 : dpi_pkt_infos_t)
    (task : mc_dpi_task_t) (i : Nat)
    (hi : i < K.DPI_MULTIPROCESSOR_DEFAULT_GRAIN_SIZE) :
    (dpi_L3_L4_worker.svc K lib w state pkt_infos0 task).1.L3_L4_output_task_t i =
      (dpi_L3_L4_worker.svc_slot K lib w (dpi_L3_L4_worker.scratch K task)
        (dpi_L3_L4_worker.svc_loop K lib w (dpi_L3_L4_worker.scratch K task)
          ⟨state, pkt_infos0, task⟩ i) i).real_task.L3_L4_output_task_t i := by
  simp only [dpi_L3_L4_worker.svc]
  exact L34_svc_loop_slot K lib w _ _ i _ hi

/-- Output slot i in closed form: status, hash and destination as functions of
the parse of slot i. -/
theorem L34_svc_slot_fields {σ ρ : Type} (K : dpi_constants) (lib : dpi_library σ ρ)
    (w : dpi_L3_L4_worker) (state : σ) (pkt_infos0 : dpi_pkt_infos_t)
    (task : mc_dpi_task_t) (i : Nat)
    (hi : i < K.DPI_MULTIPROCESSOR_DEFAULT_GRAIN_SIZE) :
    let p := dpi_L3_L4_worker.parse K lib w state pkt_infos0 task i
    let o := (dpi_L3_L4_worker.svc K lib w state pkt_infos0 task).1.L3_L4_output_task_t i
    o.status = (if 0 ≤ p.1 ∧ p.2.1.l4prot ≠ IPPROTO_TCP ∧ p.2.1.l4prot ≠ IPPROTO_UDP
        then K.DPI_ERROR_TRANSPORT_PROTOCOL_NOTSUPPORTED else p.1) ∧
    (routed K p → o.hash_result = flow_hash K lib p ∧
      o.destination_worker = hash_to_worker (flow_hash K lib p) (rows_per_worker K w p.2.1)) ∧
    (¬ routed K p → o.hash_result = 0 ∧ o.destination_worker = 0) ∧
    o.user_pointer = (task.L3_L4_input_task_t i).user_pointer := by
  intro p o
  have ho : o = _ := L34_svc_slot_out K lib w state pkt_infos0 task i hi
  have hs : dpi_L3_L4_worker.scratch K task i = task.L3_L4_input_task_t i := by
    simp [dpi_L3_L4_worker.scratch, memcpy, hi]
  have hp : lib.mc_dpi_extract_packet_infos
      (dpi_L3_L4_worker.svc_loop K lib w (dpi_L3_L4_worker.scratch K task)
        ⟨state, pkt_infos0, task⟩ i).state
      (dpi_L3_L4_worker.scratch K task i).pkt (dpi_L3_L4_worker.scratch K task i).length
      (dpi_L3_L4_worker.svc_loop K lib w (dpi_L3_L4_worker.scratch K task)
        ⟨state, pkt_infos0, task⟩ i).pkt_infos
      (dpi_L3_L4_worker.scratch K task i).current_time w.worker_id = p := rfl
  unfold dpi_L3_L4_worker.svc_slot at ho
  simp only [hp] at ho
  unfold routed flow_hash rows_per_worker
  by_cases c1 : 0 ≤ p.1
  · by_cases c2 : p.2.1.l4prot ≠ IPPROTO_TCP ∧ p.2.1.l4prot ≠ IPPROTO_UDP
    · rw [if_pos c1, if_pos c2] at ho
      simp only [store_same, hs] at ho
      rw [ho]
      refine ⟨by rw [if_pos ⟨c1, c2⟩], fun h => ?_, fun _ => ⟨rfl, rfl⟩, rfl⟩
      rcases h.2.1 with h | h
      · exact absurd h c2.1
      · exact absurd h c2.2
    · have c2b : p.2.1.l4prot = IPPROTO_TCP ∨ p.2.1.l4prot = IPPROTO_UDP := by
        by_contra hc
        exact c2 ⟨fun h => hc (Or.inl h), fun h => hc (Or.inr h)⟩
      have c2c : ¬ (0 ≤ p.1 ∧ p.2.1.l4prot ≠ IPPROTO_TCP ∧ p.2.1.l4prot ≠ IPPROTO_UDP) :=
        fun h => c2 h.2
      by_cases c3 : p.1 ≠ K.DPI_STATUS_IP_FRAGMENT
      · by_cases c4 : p.2.1.ip_version = K.DPI_IP_VERSION_4
        · rw [if_pos c1, if_neg c2, if_pos c3, if_pos c4] at ho
          simp only [store_same, hs] at ho
          rw [ho, if_pos c4, if_pos c4]
          exact ⟨by rw [if_neg c2c], fun _ => ⟨rfl, rfl⟩,
            fun h => absurd ⟨c1, c2b, c3⟩ h, rfl⟩
        · rw [if_pos c1, if_neg c2, if_pos c3, if_neg c4] at ho
          simp only [store_same, hs] at ho
          rw [ho, if_neg c4, if_neg c4]
          exact ⟨by rw [if_neg c2c], fun _ => ⟨rfl, rfl⟩,
            fun h => absurd ⟨c1, c2b, c3⟩ h, rfl⟩
      · rw [if_pos c1, if_neg c2, if_neg c3] at ho
        simp only [store_same, hs] at ho
        rw [ho]
        exact ⟨by rw [if_neg c2c], fun h => absurd h.2.2 c3, fun _ => ⟨rfl, rfl⟩, rfl⟩
  · rw [if_neg c1] at ho
    simp only [store_same, hs] at ho
    rw [ho]
    exact ⟨by rw [if_neg (fun h => c1 h.1)], fun h => absurd h.1 c1,
      fun _ => ⟨rfl, rfl⟩, rfl⟩

/-- Claim C1 (flow affinity in dpi_L3_L4_worker::svc).  For every batch and every
slot i below the grain size whose parse status is non-negative, whose
transport protocol is TCP or UDP and whose status is not IP_FRAGMENT, the
output slot carries hash_result = H_v(pkt_infos) (v4 hasher when ip_version is
4, v6 hasher otherwise) and destination_worker = hash_result divided by the
v4 resp. v6 per-worker table size.  Consequently two routed slots (of any two
batches handled by the same worker object) with the same flow hash and the same
IP version receive the same destination worker. -/
theorem C1_flow_affinity {σ ρ : Type} (K : dpi_constants) (lib : dpi_library σ ρ)
    (w : dpi_L3_L4_worker) (state : σ) (pkt_infos0 : dpi_pkt_infos_t)
    (task : mc_dpi_task_t) (i : Nat)
    (hi : i < K.DPI_MULTIPROCESSOR_DEFAULT_GRAIN_SIZE)
    (hr : routed K (dpi_L3_L4_worker.parse K lib w state pkt_infos0 task i)) :
    let p := dpi_L3_L4_worker.parse K lib w state pkt_infos0 task i
    let o := (dpi_L3_L4_worker.svc K lib w state pkt_infos0 task).1.L3_L4_output_task_t i
    o.hash_result = (if p.2.1.ip_version = K.DPI_IP_VERSION_4
        then lib.dpi_compute_v4_hash_function p.2.2 p.2.1
        else lib.dpi_compute_v6_hash_function p.2.2 p.2.1) ∧
    o.destination_worker = (if p.2.1.ip_version = K.DPI_IP_VERSION_4
        then o.hash_result / w.v4_worker_table_size
        else o.hash_result / w.v6_worker_table_size) ∧
    ∀ (state2 : σ) (pkt_infos2 : dpi_pkt_infos_t) (task2 : mc_dpi_task_t) (j : Nat),
      j < K.DPI_MULTIPROCESSOR_DEFAULT_GRAIN_SIZE →
      let q := dpi_L3_L4_worker.parse K lib w state2 pkt_infos2 task2 j
      let o2 := (dpi_L3_L4_worker.svc K lib w state2 pkt_infos2 task2).1.L3_L4_output_task_t j
      routed K q →
      (q.2.1.ip_version = K.DPI_IP_VERSION_4 ↔ p.2.1.ip_version = K.DPI_IP_VERSION_4) →
      o2.hash_result = o.hash_result →
      o2.destination_worker = o.destination_worker := by
  intro p o
  obtain ⟨-, h1, -, -⟩ := L34_svc_slot_fields K lib w state pkt_infos0 task i hi
  obtain ⟨h1a, h1b⟩ := h1 hr
  have e1 : o.hash_result = flow_hash K lib p := h1a
  have e2 : o.destination_worker = hash_to_worker (flow_hash K lib p) (rows_per_worker K w p.2.1) := h1b
  refine ⟨by rw [e1]; rfl, ?_, ?_⟩
  · rw [e2, e1]; unfold rows_per_worker hash_to_worker; split_ifs <;> rfl
  · intro state2 pkt_infos2 task2 j hj q o2 hq hv hh
    obtain ⟨-, h2, -, -⟩ := L34_svc_slot_fields K lib w state2 pkt_infos2 task2 j hj
    obtain ⟨h2a, h2b⟩ := h2 hq
    have e3 : o2.hash_result = flow_hash K lib q := h2a
    have e4 : o2.destination_worker = hash_to_worker (flow_hash K lib q) (rows_per_worker K w q.2.1) := h2b
    rw [e4, e2, ← e3, ← e1, hh]
    unfold rows_per_worker
    by_cases hc : p.2.1.ip_version = K.DPI_IP_VERSION_4
    · rw [if_pos hc, if_pos (hv.mpr hc)]
    · rw [if_neg hc, if_neg (fun h => hc (hv.mp h))]

/-- The batch of scenario S1 for grain size 2: two UDP packets of the flow with
hash 3. -/
theorem toy_S1_routed :
    routed K2 (dpi_L3_L4_worker.parse K2 toy ⟨4, 4, 0⟩ 0 default
      (task_of_inputs [⟨3, 17, 0, 100⟩, ⟨3, 17, 0, 101⟩]) 1) := by
  refine ⟨?_, ?_, ?_⟩ <;> decide

/-- Witness for C1: with flow hash 3 and 4 rows per worker the slot goes to worker
0 (scenario S1). -/
theorem C1_flow_affinity_witness :
    ((dpi_L3_L4_worker.svc K2 toy ⟨4, 4, 0⟩ 0 default
      (task_of_inputs [⟨3, 17, 0, 100⟩, ⟨3, 17, 0, 101⟩])).1.L3_L4_output_task_t 1).hash_result = 3 ∧
    ((dpi_L3_L4_worker.svc K2 toy ⟨4, 4, 0⟩ 0 default
      (task_of_inputs [⟨3, 17, 0, 100⟩, ⟨3, 17, 0, 101⟩])).1.L3_L4_output_task_t 1).destination_worker
      = 0 := by
  have h := C1_flow_affinity K2 toy ⟨4, 4, 0⟩ 0 default
    (task_of_inputs [⟨3, 17, 0, 100⟩, ⟨3, 17, 0, 101⟩]) 1 (by decide) toy_S1_routed
  refine ⟨?_, ?_⟩
  · rw [h.1]; decide
  · rw [h.2.1, h.1]; decide

/-- Claim C2 (invariant F2).  For every rows_per_worker r > 0 the hash-to-worker
mapping h -> h / r used by the L3_L4 worker is monotone non-decreasing in h, and
for every worker id w the hashes mapped to w are exactly those of the
contiguous range [w*r, (w+1)*r). -/
theorem C2_hash_to_worker_monotone_contiguous (r : Nat) (hr : 0 < r) :
    (∀ h1 h2 : Nat, h1 ≤ h2 → hash_to_worker h1 r ≤ hash_to_worker h2 r) ∧
    (∀ w h : Nat, hash_to_worker h r = w ↔ w * r ≤ h ∧ h < (w + 1) * r) := by
  refine ⟨fun h1 h2 h => Nat.div_le_div_right h, fun w h => ?_⟩
  unfold hash_to_worker
  have h1 : w ≤ h / r ↔ w * r ≤ h := Nat.le_div_iff_mul_le hr
  have h2 : h / r < w + 1 ↔ h < (w + 1) * r := Nat.div_lt_iff_lt_mul hr
  constructor
  · intro e
    exact ⟨h1.mp (by omega), h2.mp (by omega)⟩
  · rintro ⟨a, b⟩
    have := h1.mpr a
    have := h2.mpr b
    omega

/-- Witness for C2: with 4 rows per worker, worker 1 owns the hashes 4..7. -/
theorem C2_hash_to_worker_monotone_contiguous_witness :
    hash_to_worker 3 4 ≤ hash_to_worker 7 4 ∧
    (hash_to_worker 7 4 = 1 ↔ 1 * 4 ≤ 7 ∧ 7 < (1 + 1) * 4) :=
  ⟨(C2_hash_to_worker_monotone_contiguous 4 (by decide)).1 3 7 (by decide),
   (C2_hash_to_worker_monotone_contiguous 4 (by decide)).2 1 7⟩

/-- Claim C9 (status classification in dpi_L3_L4_worker::svc).  For every slot i
below the grain size with parse status s returned by the extract routine on
that slot: if s < 0 the output status is s; if s >= 0 and the transport protocol
is neither TCP nor UDP the output status is
DPI_ERROR_TRANSPORT_PROTOCOL_NOTSUPPORTED (also when s is IP_FRAGMENT); otherwise
the output status is s. -/
theorem C9_status_classification {σ ρ : Type} (K : dpi_constants)
    (lib : dpi_library σ ρ) (w : dpi_L3_L4_worker) (state : σ)
    (pkt_infos0 : dpi_pkt_infos_t) (task : mc_dpi_task_t) (i : Nat)
    (hi : i < K.DPI_MULTIPROCESSOR_DEFAULT_GRAIN_SIZE) :
    let p := dpi_L3_L4_worker.parse K lib w state pkt_infos0 task i
    let o := (dpi_L3_L4_worker.svc K lib w state pkt_infos0 task).1.L3_L4_output_task_t i
    (p.1 < 0 → o.status = p.1) ∧
    (0 ≤ p.1 → p.2.1.l4prot ≠ IPPROTO_TCP → p.2.1.l4prot ≠ IPPROTO_UDP →
      o.status = K.DPI_ERROR_TRANSPORT_PROTOCOL_NOTSUPPORTED) ∧
    (0 ≤ p.1 → (p.2.1.l4prot = IPPROTO_TCP ∨ p.2.1.l4prot = IPPROTO_UDP) →
      o.status = p.1) := by
  intro p o
  obtain ⟨h, -⟩ := L34_svc_slot_fields K lib w state pkt_infos0 task i hi
  have e : o.status = _ := h
  refine ⟨fun h1 => ?_, fun h1 h2 h3 => ?_, fun h1 h2 => ?_⟩
  · rw [e, if_neg (fun h => absurd h.1 (not_le.mpr h1))]
  · rw [e, if_pos ⟨h1, h2, h3⟩]
  · rw [e, if_neg (by rintro ⟨-, a, b⟩; rcases h2 with h2 | h2 <;> contradiction)]

/-- Witness for C9: a TCP slot keeps its parse status 0, a slot that fails to parse
keeps -1. -/
theorem C9_status_classification_witness :
    let p := dpi_L3_L4_worker.parse K2 toy ⟨4, 4, 0⟩ 0 default
      (task_of_inputs [⟨3, 6, 0, 100⟩, ⟨3, 0, 0, 101⟩]) 1
    let o := (dpi_L3_L4_worker.svc K2 toy ⟨4, 4, 0⟩ 0 default
      (task_of_inputs [⟨3, 6, 0, 100⟩, ⟨3, 0, 0, 101⟩])).1.L3_L4_output_task_t 1
    (p.1 < 0 → o.status = p.1) ∧
    (0 ≤ p.1 → p.2.1.l4prot ≠ IPPROTO_TCP → p.2.1.l4prot ≠ IPPROTO_UDP →
      o.status = K2.DPI_ERROR_TRANSPORT_PROTOCOL_NOTSUPPORTED) ∧
    (0 ≤ p.1 → (p.2.1.l4prot = IPPROTO_TCP ∨ p.2.1.l4prot = IPPROTO_UDP) →
      o.status = p.1) :=
  C9_status_classification K2 toy ⟨4, 4, 0⟩ 0 default
    (task_of_inputs [⟨3, 6, 0, 100⟩, ⟨3, 0, 0, 101⟩]) 1 (by decide)

/-! ## Properties of the L7 emitter -/

theorem slots_succ {α : Type} (a : Nat → α) (n : Nat) :
    slots a (n + 1) = slots a n ++ [a n] := by
  simp [slots, List.range_succ]

theorem slots_congr {α : Type} (a b : Nat → α) (n : Nat)
    (h : ∀ i, i < n → a i = b i) : slots a n = slots b n := by
  unfold slots
  apply List.map_congr_left
  intro i hi
  exact h i (List.mem_range.mp hi)

theorem slots_flush {α : Type} (dst src : Nat → α) (n : Nat) (v : α) :
    slots (store (memcpy dst src n) n v) (n + 1) = slots src n ++ [v] := by
  rw [slots_succ, store_same]
  congr 1
  apply slots_congr
  intro i hi
  rw [store_other _ _ _ _ (by omega)]
  simp [memcpy, hi]

theorem sum_set_add (l : List Nat) (d v x : Nat) (h : l[d]? = some x) :
    (l.set d v).sum + x = l.sum + v := by
  induction l generalizing d with
  | nil => simp at h
  | cons a t ih =>
    cases d with
    | zero =>
      simp at h
      subst h
      simp
      omega
    | succ d =>
      simp at h
      have := ih d h
      simp
      omega

theorem sum_add_length_le (l : List Nat) (G : Nat) (h : ∀ x ∈ l, x < G) :
    l.sum + l.length ≤ l.length * G := by
  induction l with
  | nil => simp
  | cons a t ih =>
    simp at h ⊢
    have := ih h.2
    rw [Nat.add_mul]
    omega

/-- While a batch is being routed the stack holds at least W spare batches. -/
theorem L7_inv_lower (G W k : Nat) (hist : List L3_L4_output_task_struct)
    (e : dpi_L7_emitter) (inv : L7_inv G W k hist e) (hk : k < G) :
    W ≤ e.waiting_tasks_size := by
  by_contra hc
  have h1 : G * (e.waiting_tasks_size + 1) ≤ G * W := Nat.mul_le_mul_left G (by omega)
  have h2 := inv.count
  omega

/-- The stack never holds 2W batches. -/
theorem L7_inv_upper (G W k : Nat) (hist : List L3_L4_output_task_struct)
    (e : dpi_L7_emitter) (inv : L7_inv G W k hist e) (hW : 1 ≤ W) :
    e.waiting_tasks_size < 2 * W := by
  by_contra hc
  have h1 : G * (2 * W + 1) ≤ G * (e.waiting_tasks_size + 1) :=
    Nat.mul_le_mul_left G (by omega)
  have h2 := inv.count
  have h3 := sum_add_length_le _ G inv.small
  rw [inv.len_sizes] at h3
  have h4 : G * (2 * W + 1) = 2 * (G * W) + G := by ring
  have h5 : W * G = G * W := Nat.mul_comm W G
  omega

theorem dispatched_sent_append (G : Nat) (e : dpi_L7_emitter) (v : Nat)
    (b : mc_dpi_task_t) (d : Nat) :
    ((List.filter (fun p => decide (p.1 = d)) (e.sent ++ [(v, b)])).map
      (fun p => slots p.2.L3_L4_output_task_t G)).flatten =
    dpi_L7_emitter.dispatched G e d ++
      (if v = d then slots b.L3_L4_output_task_t G else []) := by
  unfold dpi_L7_emitter.dispatched
  by_cases h : v = d <;> simp [List.filter_append, List.filter_cons, h]

/-- Routing one slot keeps the batcher invariant and cannot fault. -/
theorem L7_svc_slot_inv (G W k : Nat) (hist : List L3_L4_output_task_struct)
    (e : dpi_L7_emitter) (t : mc_dpi_task_t) (hW : W ≤ 65536) (hk : k < G)
    (hd : (t.L3_L4_output_task_t k).destination_worker < W)
    (inv : L7_inv G W k hist e) :
    ∃ e1, dpi_L7_emitter.svc_slot G t e k = .ok e1 ∧
      L7_inv G W (k + 1) (hist ++ [t.L3_L4_output_task_t k]) e1 := by
  have hmod : (t.L3_L4_output_task_t k).destination_worker % 65536 =
      (t.L3_L4_output_task_t k).destination_worker := Nat.mod_eq_of_lt (by omega)
  obtain ⟨pfs, hsz⟩ : ∃ pfs, e.partially_filled_sizes[
      (t.L3_L4_output_task_t k).destination_worker]? = some pfs :=
    ⟨_, List.getElem?_eq_getElem (by rw [inv.len_sizes]; exact hd)⟩
  obtain ⟨pf, hpf⟩ : ∃ pf, e.partially_filled[
      (t.L3_L4_output_task_t k).destination_worker]? = some pf :=
    ⟨_, List.getElem?_eq_getElem (by rw [inv.len_pf]; exact hd)⟩
  have hsmall : pfs < G := inv.small pfs (List.getElem?_mem hsz)
  have hlow := L7_inv_lower G W k hist e inv hk
  have hup := L7_inv_upper G W k hist e inv (by omega)
  have hcount := inv.count
  have hord := inv.order
  unfold dpi_L7_emitter.svc_slot
  simp only [hmod, hsz, hpf]
  by_cases hflush : pfs + 1 = G
  · obtain ⟨out, hout⟩ : ∃ out, e.waiting_tasks[e.waiting_tasks_size - 1]? = some out :=
      ⟨_, List.getElem?_eq_getElem (by rw [inv.len_wt]; omega)⟩
    rw [if_pos hflush, if_neg (by omega)]
    simp only [hout]
    refine ⟨_, rfl, ?_⟩
    have hsum := sum_set_add e.partially_filled_sizes _ 0 pfs hsz
    constructor
    · simp [inv.len_sizes]
    · exact inv.len_pf
    · exact inv.len_wt
    · intro x hx
      rcases List.mem_or_eq_of_mem_set hx with h | h
      · exact inv.small x h
      · omega
    · have h1 : e.waiting_tasks_size - 1 + 1 = e.waiting_tasks_size := by omega
      simp only [h1]
      have h2 : G * (e.waiting_tasks_size + 1) = G * e.waiting_tasks_size + G := by ring
      omega
    · intro d hdW
      have h0 := hord d hdW
      unfold dpi_L7_emitter.pending at h0 ⊢
      unfold dpi_L7_emitter.dispatched
      simp only []
      rw [dispatched_sent_append, List.filter_append]
      by_cases hdd : (t.L3_L4_output_task_t k).destination_worker = d
      · subst hdd
        rw [if_pos rfl]
        have hp0 : (e.partially_filled_sizes.set
            (t.L3_L4_output_task_t k).destination_worker 0).getD
            (t.L3_L4_output_task_t k).destination_worker 0 = 0 := by
          simp [List.getD_eq_getElem?_getD, List.getElem?_set, inv.len_sizes, hd]
        rw [hp0]
        have hs0 : e.partially_filled_sizes.getD
            (t.L3_L4_output_task_t k).destination_worker 0 = pfs := by
          simp [List.getD_eq_getElem?_getD, hsz]
        have hf0 : e.partially_filled.getD
            (t.L3_L4_output_task_t k).destination_worker default = pf := by
          simp [List.getD_eq_getElem?_getD, hpf]
        rw [hs0, hf0] at h0
        have hout2 : slots (store (memcpy out.L3_L4_output_task_t pf.L3_L4_output_task_t
            (G - 1)) (G - 1) (t.L3_L4_output_task_t k)) G =
            slots pf.L3_L4_output_task_t pfs ++ [t.L3_L4_output_task_t k] := by
          have hpG : pfs = G - 1 := by omega
          have h := slots_flush out.L3_L4_output_task_t pf.L3_L4_output_task_t (G - 1)
            (t.L3_L4_output_task_t k)
          rw [Nat.sub_add_cancel (by omega)] at h
          rw [h, hpG]
        rw [hout2, ← h0]
        simp [slots]
      · rw [if_neg hdd]
        have hp0 : (e.partially_filled_sizes.set
            (t.L3_L4_output_task_t k).destination_worker 0).getD d 0 =
            e.partially_filled_sizes.getD d 0 := by
          simp [List.getD_eq_getElem?_getD, List.getElem?_set, hdd]
        rw [hp0, ← h0]
        simp [hdd]
    · intro p hp
      simp only [List.mem_append, List.mem_singleton] at hp
      rcases hp with hp | hp
      · exact inv.victims p hp
      · rw [hp]; exact hd
    · have h1 := inv.total
      simp only [List.length_append, List.length_singleton]
      have h2 : G * (e.sent.length + 1) = G * e.sent.length + G := by ring
      omega
  · rw [if_neg hflush]
    refine ⟨_, rfl, ?_⟩
    have hsum := sum_set_add e.partially_filled_sizes _ (pfs + 1) pfs hsz
    constructor
    · simp [inv.len_sizes]
    · simp [inv.len_pf]
    · exact inv.len_wt
    · intro x hx
      rcases List.mem_or_eq_of_mem_set hx with h | h
      · exact inv.small x h
      · omega
    · simp only []
      omega
    · intro d hdW
      have h0 := hord d hdW
      unfold dpi_L7_emitter.pending at h0 ⊢
      unfold dpi_L7_emitter.dispatched at h0 ⊢
      simp only []
      rw [List.filter_append]
      by_cases hdd : (t.L3_L4_output_task_t k).destination_worker = d
      · subst hdd
        have hs0 : e.partially_filled_sizes.getD
            (t.L3_L4_output_task_t k).destination_worker 0 = pfs := by
          simp [List.getD_eq_getElem?_getD, hsz]
        have hf0 : e.partially_filled.getD
            (t.L3_L4_output_task_t k).destination_worker default = pf := by
          simp [List.getD_eq_getElem?_getD, hpf]
        rw [hs0, hf0] at h0
        have hs1 : (e.partially_filled_sizes.set
            (t.L3_L4_output_task_t k).destination_worker (pfs + 1)).getD
            (t.L3_L4_output_task_t k).destination_worker 0 = pfs + 1 := by
          simp [List.getD_eq_getElem?_getD, List.getElem?_set, inv.len_sizes, hd]
        rw [hs1]
        have hf1 : ∀ x : mc_dpi_task_t, (e.partially_filled.set
            (t.L3_L4_output_task_t k).destination_worker x).getD
            (t.L3_L4_output_task_t k).destination_worker default = x := by
          intro x
          simp [List.getD_eq_getElem?_getD, List.getElem?_set, inv.len_pf, hd]
        rw [hf1, slots_succ]
        simp only [store_same]
        rw [← List.append_assoc]
        have hc : slots (store pf.L3_L4_output_task_t pfs (t.L3_L4_output_task_t k)) pfs =
            slots pf.L3_L4_output_task_t pfs := by
          apply slots_congr
          intro i hi
          exact store_other _ _ _ _ (by omega)
        rw [hc, h0]
        simp
      · have hs1 : (e.partially_filled_sizes.set
            (t.L3_L4_output_task_t k).destination_worker (pfs + 1)).getD d 0 =
            e.partially_filled_sizes.getD d 0 := by
          simp [List.getD_eq_getElem?_getD, List.getElem?_set, hdd]
        have hf1 : ∀ x : mc_dpi_task_t, (e.partially_filled.set
            (t.L3_L4_output_task_t k).destination_worker x).getD d default =
            e.partially_filled.getD d default := by
          intro x
          simp [List.getD_eq_getElem?_getD, List.getElem?_set, hdd]
        rw [hs1, hf1, h0]
        simp [hdd]
    · exact inv.victims
    · have h1 := inv.total
      simp only [List.length_append, List.length_singleton]
      omega

theorem L7_svc_loop_succ (G : Nat) (t : mc_dpi_task_t) (e : dpi_L7_emitter) (n : Nat) :
    dpi_L7_emitter.svc_loop G t e (n + 1) =
      (dpi_L7_emitter.svc_loop G t e n >>= fun e1 => dpi_L7_emitter.svc_slot G t e1 n) := by
  simp [dpi_L7_emitter.svc_loop, List.range_succ, List.foldlM_append]

/-- Routing the first k slots of a batch keeps the invariant and cannot fault. -/
theorem L7_svc_loop_inv (G W : Nat) (hist : List L3_L4_output_task_struct)
    (e : dpi_L7_emitter) (t : mc_dpi_task_t) (hW : W ≤ 65536)
    (hd : ∀ i, i < G → (t.L3_L4_output_task_t i).destination_worker < W)
    (inv : L7_inv G W 0 hist e) (k : Nat) (hk : k ≤ G) :
    ∃ e1, dpi_L7_emitter.svc_loop G t e k = .ok e1 ∧
      L7_inv G W k (hist ++ slots t.L3_L4_output_task_t k) e1 := by
  induction k with
  | zero =>
    refine ⟨e, rfl, ?_⟩
    simpa [slots] using inv
  | succ k ih =>
    obtain ⟨e1, h1, inv1⟩ := ih (by omega)
    obtain ⟨e2, h2, inv2⟩ := L7_svc_slot_inv G W k _ e1 t hW (by omega) (hd k (by omega)) inv1
    refine ⟨e2, ?_, ?_⟩
    · rw [L7_svc_loop_succ, h1]
      exact h2
    · rw [slots_succ, ← List.append_assoc]
      exact inv2

/-- One call of svc keeps the invariant at batch boundaries and cannot fault. -/
theorem L7_svc_inv (G W : Nat) (hist : List L3_L4_output_task_struct)
    (e : dpi_L7_emitter) (t : mc_dpi_task_t) (hG : 1 ≤ G) (hW : W ≤ 65536)
    (hd : ∀ i, i < G → (t.L3_L4_output_task_t i).destination_worker < W)
    (inv : L7_inv G W 0 hist e) :
    ∃ e1, dpi_L7_emitter.svc G e t = .ok e1 ∧
      L7_inv G W 0 (hist ++ slots t.L3_L4_output_task_t G) e1 := by
  obtain ⟨e1, h1, inv1⟩ := L7_svc_loop_inv G W hist e t hW hd inv G (le_refl G)
  have hW1 : 1 ≤ W := by
    have := hd 0 (by omega)
    omega
  have hup := L7_inv_upper G W G _ e1 inv1 hW1
  unfold dpi_L7_emitter.svc
  rw [h1]
  simp only []
  rw [if_pos (by rw [inv1.len_wt]; exact hup)]
  refine ⟨_, rfl, ?_⟩
  constructor
  · exact inv1.len_sizes
  · exact inv1.len_pf
  · simp [inv1.len_wt]
  · exact inv1.small
  · have h := inv1.count
    simp only []
    have h2 : G * (e1.waiting_tasks_size + 1 + 1) = G * (e1.waiting_tasks_size + 1) + G := by
      ring
    omega
  · exact inv1.order
  · exact inv1.victims
  · exact inv1.total

/-- A run of svc calls keeps the invariant and cannot fault. -/
theorem L7_run_inv (G W : Nat) (hG : 1 ≤ G) (hW : W ≤ 65536) (tasks : List mc_dpi_task_t) :
    ∀ (hist : List L3_L4_output_task_struct) (e : dpi_L7_emitter),
    (∀ t ∈ tasks, ∀ i, i < G → (t.L3_L4_output_task_t i).destination_worker < W) →
    L7_inv G W 0 hist e →
    ∃ e1, dpi_L7_emitter.run G e tasks = .ok e1 ∧
      L7_inv G W 0 (hist ++ inbound G tasks) e1 := by
  induction tasks with
  | nil =>
    intro hist e _ inv
    exact ⟨e, rfl, by simpa [inbound] using inv⟩
  | cons t ts ih =>
    intro hist e hd inv
    obtain ⟨e1, h1, inv1⟩ := L7_svc_inv G W hist e t hG hW
      (hd t (List.mem_cons_self _ _)) inv
    obtain ⟨e2, h2, inv2⟩ := ih _ e1 (fun t2 ht2 => hd t2 (List.mem_cons_of_mem _ ht2)) inv1
    refine ⟨e2, ?_, ?_⟩
    · unfold dpi_L7_emitter.run at h2 ⊢
      rw [List.foldlM_cons, h1]
      exact h2
    · have : inbound G (t :: ts) = slots t.L3_L4_output_task_t G ++ inbound G ts := by
        simp [inbound]
      rw [this, ← List.append_assoc]
      exact inv2

/-- The constructor establishes the invariant. -/
theorem L7_constructor_inv (alloc : Nat → mc_dpi_task_t) (G W : Nat) (hG : 1 ≤ G) :
    L7_inv G W 0 [] (dpi_L7_emitter.constructor alloc W) := by
  constructor
  · simp [dpi_L7_emitter.constructor]
  · simp [dpi_L7_emitter.constructor]
  · simp [dpi_L7_emitter.constructor]; omega
  · intro x hx
    simp [dpi_L7_emitter.constructor] at hx
    omega
  · simp [dpi_L7_emitter.constructor]
    ring
  · intro d hd
    simp [dpi_L7_emitter.constructor, dpi_L7_emitter.dispatched, dpi_L7_emitter.pending,
      List.getD_eq_getElem?_getD, hd, slots]
  · intro p hp
    simp [dpi_L7_emitter.constructor] at hp
  · simp [dpi_L7_emitter.constructor]

/-- Claim C3 (per-destination order and affinity in the batcher).  Starting from
the constructor state, for every finite sequence of inbound batches whose slots
all have destination_worker < W, the run does not fault and, for every worker
d, the slots of all batches dispatched with victim d (in dispatch order, G slots
each) followed by the first partially_filled_sizes[d] slots of
partially_filled[d] are exactly the inbound slots with destination_worker = d in
arrival order; every victim is a worker id below W.  Hence no slot is
duplicated, dropped or sent to another worker.  (W is a u_int16_t.) -/
theorem C3_per_destination_order (alloc : Nat → mc_dpi_task_t) (W G : Nat)
    (hG : 1 ≤ G) (hW : W < 65536) (tasks : List mc_dpi_task_t)
    (hd : ∀ t ∈ tasks, ∀ i, i < G → (t.L3_L4_output_task_t i).destination_worker < W) :
    ∃ e, dpi_L7_emitter.run G (dpi_L7_emitter.constructor alloc W) tasks = .ok e ∧
      (∀ d, d < W →
        dpi_L7_emitter.dispatched G e d ++ dpi_L7_emitter.pending e d =
          (inbound G tasks).filter (fun s => s.destination_worker = d)) ∧
      (∀ p ∈ e.sent, p.1 < W) := by
  obtain ⟨e, h, inv⟩ := L7_run_inv G W hG (by omega) tasks [] _ hd
    (L7_constructor_inv alloc G W hG)
  exact ⟨e, h, by simpa using inv.order, inv.victims⟩

theorem two_flows_dest :
    ∀ t ∈ two_flows, ∀ i, i < 2 → (t.L3_L4_output_task_t i).destination_worker < 2 := by
  intro t ht i hi
  simp only [two_flows, List.mem_cons, List.mem_singleton, List.not_mem_nil, or_false] at ht
  rcases ht with rfl | rfl <;> interval_cases i <;> decide

/-- Witness for C3: two workers, grain size 2, the two interleaved flows of
scenario S2. -/
theorem C3_per_destination_order_witness :
    ∃ e, dpi_L7_emitter.run 2 (dpi_L7_emitter.constructor (fun _ => default) 2) two_flows
        = .ok e ∧
      (∀ d, d < 2 →
        dpi_L7_emitter.dispatched 2 e d ++ dpi_L7_emitter.pending e d =
          (inbound 2 two_flows).filter (fun s => s.destination_worker = d)) ∧
      (∀ p ∈ e.sent, p.1 < 2) :=
  C3_per_destination_order (fun _ => default) 2 2 (by decide) (by decide) two_flows
    two_flows_dest

/-- Claim C4 (invariant B1).  Starting from the constructor state, for every
W >= 1, G >= 1 and every finite sequence of inbound batches with all
destination_worker < W: whenever the emitter is about to route slot k of a
further batch t (after any number of complete steps and the first k slots of
t), waiting_tasks_size is non-zero, in fact at least W, so the assertion before
the pop is never violated, however many partial batches the batch t
completes; and the whole step on t completes without fault.  (W is a
u_int16_t.) -/
theorem C4_waiting_tasks_nonempty (alloc : Nat → mc_dpi_task_t) (W G : Nat)
    (hW1 : 1 ≤ W) (hW : W < 65536) (hG : 1 ≤ G) (tasks : List mc_dpi_task_t)
    (t : mc_dpi_task_t) (k : Nat) (hk : k < G)
    (hd : ∀ t ∈ tasks, ∀ i, i < G → (t.L3_L4_output_task_t i).destination_worker < W)
    (hdt : ∀ i, i < G → (t.L3_L4_output_task_t i).destination_worker < W) :
    ∃ e0 e1 e2, dpi_L7_emitter.run G (dpi_L7_emitter.constructor alloc W) tasks = .ok e0 ∧
      dpi_L7_emitter.svc_loop G t e0 k = .ok e1 ∧
      e1.waiting_tasks_size ≠ 0 ∧ W ≤ e1.waiting_tasks_size ∧
      dpi_L7_emitter.svc_slot G t e1 k ≠ .error .assertion_failed ∧
      dpi_L7_emitter.svc G e0 t = .ok e2 := by
  obtain ⟨e0, h0, inv0⟩ := L7_run_inv G W hG (by omega) tasks [] _ hd
    (L7_constructor_inv alloc G W hG)
  obtain ⟨e1, h1, inv1⟩ := L7_svc_loop_inv G W _ e0 t (by omega) hdt inv0 k (by omega)
  obtain ⟨e3, h3, -⟩ := L7_svc_slot_inv G W k _ e1 t (by omega) hk (hdt k hk) inv1
  obtain ⟨e2, h2, -⟩ := L7_svc_inv G W _ e0 t hG (by omega) hdt inv0
  have hlow := L7_inv_lower G W k _ e1 inv1 hk
  refine ⟨e0, e1, e2, h0, h1, by omega, hlow, ?_, h2⟩
  rw [h3]
  intro h
  cases h

/-- Witness for C4: two workers, grain size 2; the second batch completes the
partial batches of both workers, and the stack is non-empty at its second
flush. -/
theorem C4_waiting_tasks_nonempty_witness :
    ∃ e0 e1 e2,
      dpi_L7_emitter.run 2 (dpi_L7_emitter.constructor (fun _ => default) 2)
        [task_of_outputs [out_slot 0 1, out_slot 1 2]] = .ok e0 ∧
      dpi_L7_emitter.svc_loop 2 (task_of_outputs [out_slot 0 3, out_slot 1 4]) e0 1 = .ok e1 ∧
      e1.waiting_tasks_size ≠ 0 ∧ 2 ≤ e1.waiting_tasks_size ∧
      dpi_L7_emitter.svc_slot 2 (task_of_outputs [out_slot 0 3, out_slot 1 4]) e1 1
        ≠ .error .assertion_failed ∧
      dpi_L7_emitter.svc 2 e0 (task_of_outputs [out_slot 0 3, out_slot 1 4]) = .ok e2 :=
  C4_waiting_tasks_nonempty (fun _ => default) 2 2 (by decide) (by decide) (by decide)
    [task_of_outputs [out_slot 0 1, out_slot 1 2]]
    (task_of_outputs [out_slot 0 3, out_slot 1 4]) 1 (by decide)
    (fun t ht => two_flows_dest t (by
      simp only [List.mem_singleton] at ht
      rw [ht]
      exact List.mem_cons_self _ _))
    (fun i hi => two_flows_dest _ (List.mem_cons_of_mem _ (List.mem_cons_self _ _)) i hi)

/-! ## Properties of the L3_L4 emitter -/

/-- When the next n reads are all non-null the loop fills slots i .. i+n-1 in
read order and returns the batch. -/
theorem L34_emitter_loop_full (cb : Nat → mc_dpi_packet_reading_result_t) :
    ∀ (n i : Nat) (em : dpi_L3_L4_emitter) (r : mc_dpi_task_t),
    (∀ j, j < n → (cb (em.reads + j)).pkt ≠ 0) →
    ∃ r1, dpi_L3_L4_emitter.svc_loop cb n i em r =
        (some r1, { em with reads := em.reads + n }) ∧
      (∀ x, r1.L3_L4_input_task_t x =
        if i ≤ x ∧ x < i + n then input_slot (cb (em.reads + (x - i)))
        else r.L3_L4_input_task_t x) ∧
      r1.L3_L4_output_task_t = r.L3_L4_output_task_t ∧
      r1.L7_output_task_t = r.L7_output_task_t := by
  intro n
  induction n with
  | zero =>
    intro i em r _
    refine ⟨r, rfl, fun x => ?_, rfl, rfl⟩
    rw [if_neg (by omega)]
  | succ n ih =>
    intro i em r h
    have h0 : (cb em.reads).pkt ≠ 0 := by simpa using h 0 (by omega)
    obtain ⟨r1, e1, e2, e3, e4⟩ := ih (i + 1) { em with reads := em.reads + 1 }
      { r with L3_L4_input_task_t := store r.L3_L4_input_task_t i (input_slot (cb em.reads)) }
      (fun j hj => by
        have := h (j + 1) (by omega)
        simpa [Nat.add_assoc, Nat.add_comm 1 j] using this)
    refine ⟨r1, ?_, fun x => ?_, e3, e4⟩
    · rw [dpi_L3_L4_emitter.svc_loop]
      simp only [if_neg h0]
      rw [e1]
      simp [Nat.add_assoc, Nat.add_comm 1 n]
    · rw [e2 x]
      by_cases c1 : x = i
      · subst c1
        rw [if_neg (by omega), if_pos (by omega)]
        simp [store]
      · by_cases c2 : i + 1 ≤ x ∧ x < i + 1 + n
        · rw [if_pos c2, if_pos (by omega)]
          simp only []
          congr 2
          omega
        · rw [if_neg c2, if_neg (by omega)]
          simp [store, c1]

/-- When read number j of the step is the first to return a null packet the
loop stops there: terminating is set and j + 1 reads have been made. -/
theorem L34_emitter_loop_null (cb : Nat → mc_dpi_packet_reading_result_t) :
    ∀ (n i : Nat) (em : dpi_L3_L4_emitter) (r : mc_dpi_task_t) (j : Nat),
    j < n → (∀ x, x < j → (cb (em.reads + x)).pkt ≠ 0) → (cb (em.reads + j)).pkt = 0 →
    dpi_L3_L4_emitter.svc_loop cb n i em r =
      (none, { em with reads := em.reads + j + 1, terminating := 1 }) := by
  intro n
  induction n with
  | zero => intro i em r j hj; omega
  | succ n ih =>
    intro i em r j hj hnn hnull
    rw [dpi_L3_L4_emitter.svc_loop]
    cases j with
    | zero =>
      have h0 : (cb em.reads).pkt = 0 := by simpa using hnull
      simp only [if_pos h0]
    | succ j =>
      have h0 : (cb em.reads).pkt ≠ 0 := by simpa using hnn 0 (by omega)
      simp only [if_neg h0]
      rw [ih (i + 1) _ _ j (by omega)
        (fun x hx => by
          have := hnn (x + 1) (by omega)
          simpa [Nat.add_assoc, Nat.add_comm 1 x] using this)
        (by simpa [Nat.add_assoc, Nat.add_comm 1 j] using hnull)]
      simp [Nat.add_assoc, Nat.add_comm 1 j]

/-- With freeze_flag clear and G non-null reads ahead the step returns a batch,
having popped the pool and made G reads. -/
theorem L34_emitter_svc_some (K : dpi_constants)
    (cb : Nat → mc_dpi_packet_reading_result_t) (fresh : mc_dpi_task_t)
    (em : dpi_L3_L4_emitter) (hf : em.freeze_flag = 0)
    (hp : ∀ j, j < K.DPI_MULTIPROCESSOR_DEFAULT_GRAIN_SIZE → (cb (em.reads + j)).pkt ≠ 0) :
    ∃ r, dpi_L3_L4_emitter.svc K cb fresh em =
      (some r, { em with tasks_pool := em.tasks_pool.tail,
                         reads := em.reads + K.DPI_MULTIPROCESSOR_DEFAULT_GRAIN_SIZE }) := by
  unfold dpi_L3_L4_emitter.svc
  rw [if_neg (by simp [hf])]
  cases hpool : em.tasks_pool with
  | nil =>
    obtain ⟨r, e1, -⟩ := L34_emitter_loop_full cb
      K.DPI_MULTIPROCESSOR_DEFAULT_GRAIN_SIZE 0 em fresh hp
    refine ⟨r, ?_⟩
    simp only []
    rw [e1, ← hpool]
    simp [hpool]
  | cons b rest =>
    obtain ⟨r, e1, -⟩ := L34_emitter_loop_full cb
      K.DPI_MULTIPROCESSOR_DEFAULT_GRAIN_SIZE 0 { em with tasks_pool := rest } b hp
    refine ⟨r, ?_⟩
    simp only []
    rw [e1]
    simp

/-- With freeze_flag clear, when read number j of the step is the first to
return null the step returns EOS after j + 1 reads with terminating set. -/
theorem L34_emitter_svc_null (K : dpi_constants)
    (cb : Nat → mc_dpi_packet_reading_result_t) (fresh : mc_dpi_task_t)
    (em : dpi_L3_L4_emitter) (hf : em.freeze_flag = 0) (j : Nat)
    (hj : j < K.DPI_MULTIPROCESSOR_DEFAULT_GRAIN_SIZE)
    (hnn : ∀ x, x < j → (cb (em.reads + x)).pkt ≠ 0) (hz : (cb (em.reads + j)).pkt = 0) :
    dpi_L3_L4_emitter.svc K cb fresh em =
      (none, { em with tasks_pool := em.tasks_pool.tail, reads := em.reads + j + 1,
                       terminating := 1 }) := by
  unfold dpi_L3_L4_emitter.svc
  rw [if_neg (by simp [hf])]
  cases hpool : em.tasks_pool with
  | nil =>
    simp only []
    rw [L34_emitter_loop_null cb _ 0 em fresh j hj hnn hz, ← hpool]
    simp [hpool]
  | cons b rest =>
    simp only []
    rw [L34_emitter_loop_null cb _ 0 { em with tasks_pool := rest } b j hj hnn hz]
    simp

/-- The step returns EOS when freeze_flag is set or one of the G reads ahead is
null. -/
theorem L34_emitter_svc_none (K : dpi_constants)
    (cb : Nat → mc_dpi_packet_reading_result_t) (fresh : mc_dpi_task_t)
    (em : dpi_L3_L4_emitter)
    (h : em.freeze_flag ≠ 0 ∨
      ∃ j, j < K.DPI_MULTIPROCESSOR_DEFAULT_GRAIN_SIZE ∧ (cb (em.reads + j)).pkt = 0) :
    ∃ em1, dpi_L3_L4_emitter.svc K cb fresh em = (none, em1) := by
  by_cases hf : em.freeze_flag = 0
  · rcases h with h | h
    · exact absurd hf h
    · classical
      have hspec := Nat.find_spec h
      exact ⟨_, L34_emitter_svc_null K cb fresh em hf (Nat.find h) hspec.1
        (fun x hx hz => Nat.find_min h hx ⟨by omega, hz⟩) hspec.2⟩
  · refine ⟨em, ?_⟩
    unfold dpi_L3_L4_emitter.svc
    rw [if_pos hf]

/-- Claim C7 (dpi_L3_L4_emitter::svc fill).  When freeze_flag is 0 at entry and the
next G reads of the callback return non-null packets p_0 .. p_{G-1}, the step
invokes the callback exactly G times and returns one batch, whose slot i holds
exactly {pkt, length, current_time, user_pointer} of p_i for every i < G; the
batch is the oldest pool entry (removed from the pool) when the pool is
non-empty and the freshly allocated one otherwise, the rest of its memory being
untouched; terminating, freeze_flag and the rest of the pool are unchanged. -/
theorem C7_emitter_fill (K : dpi_constants) (cb : Nat → mc_dpi_packet_reading_result_t)
    (fresh : mc_dpi_task_t) (em : dpi_L3_L4_emitter) (hf : em.freeze_flag = 0)
    (hp : ∀ j, j < K.DPI_MULTIPROCESSOR_DEFAULT_GRAIN_SIZE → (cb (em.reads + j)).pkt ≠ 0) :
    ∃ r, dpi_L3_L4_emitter.svc K cb fresh em =
        (some r, { freeze_flag := em.freeze_flag, terminating := em.terminating,
                   tasks_pool := em.tasks_pool.tail,
                   reads := em.reads + K.DPI_MULTIPROCESSOR_DEFAULT_GRAIN_SIZE }) ∧
      (∀ i, i < K.DPI_MULTIPROCESSOR_DEFAULT_GRAIN_SIZE →
        r.L3_L4_input_task_t i =
          { pkt := (cb (em.reads + i)).pkt, length := (cb (em.reads + i)).length,
            current_time := (cb (em.reads + i)).current_time,
            user_pointer := (cb (em.reads + i)).user_pointer }) ∧
      (∀ i, K.DPI_MULTIPROCESSOR_DEFAULT_GRAIN_SIZE ≤ i →
        r.L3_L4_input_task_t i = (em.tasks_pool.headD fresh).L3_L4_input_task_t i) ∧
      r.L3_L4_output_task_t = (em.tasks_pool.headD fresh).L3_L4_output_task_t ∧
      r.L7_output_task_t = (em.tasks_pool.headD fresh).L7_output_task_t := by
  unfold dpi_L3_L4_emitter.svc
  rw [if_neg (by simp [hf])]
  cases hpool : em.tasks_pool with
  | nil =>
    obtain ⟨r, e1, e2, e3, e4⟩ := L34_emitter_loop_full cb
      K.DPI_MULTIPROCESSOR_DEFAULT_GRAIN_SIZE 0 em fresh hp
    refine ⟨r, ?_, fun i hi => ?_, fun i hi => ?_, e3, e4⟩
    · simp only []
      rw [e1, ← hpool]
      simp [hpool]
    · rw [e2 i, if_pos (by omega)]
      simp [input_slot]
    · rw [e2 i, if_neg (by omega)]
      rfl
  | cons b rest =>
    obtain ⟨r, e1, e2, e3, e4⟩ := L34_emitter_loop_full cb
      K.DPI_MULTIPROCESSOR_DEFAULT_GRAIN_SIZE 0 { em with tasks_pool := rest } b hp
    refine ⟨r, ?_, fun i hi => ?_, fun i hi => ?_, e3, e4⟩
    · simp only []
      rw [e1]
      simp
    · rw [e2 i, if_pos (by omega)]
      simp [input_slot]
    · rw [e2 i, if_neg (by omega)]
      rfl

/-- The callback of the concrete examples: three packets, then null. -/
theorem three_packets_nonnull :
    ∀ j, j < K2.DPI_MULTIPROCESSOR_DEFAULT_GRAIN_SIZE →
      ((fun n => ([⟨7, 17, 0, 100⟩, ⟨7, 17, 0, 101⟩, ⟨9, 17, 0, 102⟩] :
        List mc_dpi_packet_reading_result_t).getD n default) (0 + j)).pkt ≠ 0 := by
  intro j hj
  have hj2 : j < 2 := hj
  interval_cases j <;> decide

/-- Witness for C7: grain size 2, an empty pool, a source of three packets. -/
theorem C7_emitter_fill_witness :
    ∃ r, dpi_L3_L4_emitter.svc K2
        (fun n => ([⟨7, 17, 0, 100⟩, ⟨7, 17, 0, 101⟩, ⟨9, 17, 0, 102⟩] :
          List mc_dpi_packet_reading_result_t).getD n default)
        default ⟨0, 0, [], 0⟩ =
        (some r, { freeze_flag := 0, terminating := 0, tasks_pool := [], reads := 0 + 2 }) ∧
      (∀ i, i < 2 →
        r.L3_L4_input_task_t i =
          { pkt := (([⟨7, 17, 0, 100⟩, ⟨7, 17, 0, 101⟩, ⟨9, 17, 0, 102⟩] :
              List mc_dpi_packet_reading_result_t).getD (0 + i) default).pkt,
            length := (([⟨7, 17, 0, 100⟩, ⟨7, 17, 0, 101⟩, ⟨9, 17, 0, 102⟩] :
              List mc_dpi_packet_reading_result_t).getD (0 + i) default).length,
            current_time := (([⟨7, 17, 0, 100⟩, ⟨7, 17, 0, 101⟩, ⟨9, 17, 0, 102⟩] :
              List mc_dpi_packet_reading_result_t).getD (0 + i) default).current_time,
            user_pointer := (([⟨7, 17, 0, 100⟩, ⟨7, 17, 0, 101⟩, ⟨9, 17, 0, 102⟩] :
              List mc_dpi_packet_reading_result_t).getD (0 + i) default).user_pointer }) ∧
      (∀ i, 2 ≤ i →
        r.L3_L4_input_task_t i = (default : mc_dpi_task_t).L3_L4_input_task_t i) ∧
      r.L3_L4_output_task_t = (default : mc_dpi_task_t).L3_L4_output_task_t ∧
      r.L7_output_task_t = (default : mc_dpi_task_t).L7_output_task_t :=
  C7_emitter_fill K2 _ default ⟨0, 0, [], 0⟩ rfl three_packets_nonnull

/-- Claim C8 (dpi_L3_L4_emitter::svc end-of-stream).  The step returns EOS if and
only if freeze_flag is non-zero at entry or one of the (at most G) reads it
would make returns a null packet.  When freeze_flag is set at entry the state
is returned unchanged: the callback is not invoked, no batch is taken from the
pool and terminating is not modified.  When freeze_flag is 0 and read number j
(j < G) is the first to return null, terminating is set to 1, exactly j + 1
reads have been made (none after the null one) and the step returns EOS. -/
theorem C8_emitter_eos (K : dpi_constants) (cb : Nat → mc_dpi_packet_reading_result_t)
    (fresh : mc_dpi_task_t) (em : dpi_L3_L4_emitter) :
    ((dpi_L3_L4_emitter.svc K cb fresh em).1 = none ↔
      (em.freeze_flag ≠ 0 ∨
        ∃ j, j < K.DPI_MULTIPROCESSOR_DEFAULT_GRAIN_SIZE ∧ (cb (em.reads + j)).pkt = 0)) ∧
    (em.freeze_flag ≠ 0 → dpi_L3_L4_emitter.svc K cb fresh em = (none, em)) ∧
    (em.freeze_flag = 0 → ∀ j, j < K.DPI_MULTIPROCESSOR_DEFAULT_GRAIN_SIZE →
      (∀ x, x < j → (cb (em.reads + x)).pkt ≠ 0) → (cb (em.reads + j)).pkt = 0 →
      (dpi_L3_L4_emitter.svc K cb fresh em).1 = none ∧
      (dpi_L3_L4_emitter.svc K cb fresh em).2.terminating = 1 ∧
      (dpi_L3_L4_emitter.svc K cb fresh em).2.reads = em.reads + j + 1) := by
  have hfreeze : em.freeze_flag ≠ 0 → dpi_L3_L4_emitter.svc K cb fresh em = (none, em) := by
    intro h
    unfold dpi_L3_L4_emitter.svc
    rw [if_pos h]
  have hnull : em.freeze_flag = 0 → ∀ j, j < K.DPI_MULTIPROCESSOR_DEFAULT_GRAIN_SIZE →
      (∀ x, x < j → (cb (em.reads + x)).pkt ≠ 0) → (cb (em.reads + j)).pkt = 0 →
      (dpi_L3_L4_emitter.svc K cb fresh em).1 = none ∧
      (dpi_L3_L4_emitter.svc K cb fresh em).2.terminating = 1 ∧
      (dpi_L3_L4_emitter.svc K cb fresh em).2.reads = em.reads + j + 1 := by
    intro hf j hj hnn hz
    rw [L34_emitter_svc_null K cb fresh em hf j hj hnn hz]
    exact ⟨rfl, rfl, rfl⟩
  refine ⟨⟨fun h => ?_, fun h => ?_⟩, hfreeze, hnull⟩
  · by_cases hf : em.freeze_flag = 0
    · right
      by_contra hc
      have hp : ∀ j, j < K.DPI_MULTIPROCESSOR_DEFAULT_GRAIN_SIZE →
          (cb (em.reads + j)).pkt ≠ 0 := fun j hj hz => hc ⟨j, hj, hz⟩
      obtain ⟨r, e⟩ := L34_emitter_svc_some K cb fresh em hf hp
      rw [e] at h
      cases h
    · exact Or.inl hf
  · obtain ⟨em1, e⟩ := L34_emitter_svc_none K cb fresh em h
    rw [e]

/-- Witness for C8: grain size 2, the source returns one packet and then null; the
step returns EOS after two reads with terminating set. -/
theorem C8_emitter_eos_witness :
    (dpi_L3_L4_emitter.svc K2
      (fun n => ([⟨7, 17, 0, 100⟩] : List mc_dpi_packet_reading_result_t).getD n default)
      default ⟨0, 0, [], 0⟩).1 = none ∧
    (dpi_L3_L4_emitter.svc K2
      (fun n => ([⟨7, 17, 0, 100⟩] : List mc_dpi_packet_reading_result_t).getD n default)
      default ⟨0, 0, [], 0⟩).2.terminating = 1 ∧
    (dpi_L3_L4_emitter.svc K2
      (fun n => ([⟨7, 17, 0, 100⟩] : List mc_dpi_packet_reading_result_t).getD n default)
      default ⟨0, 0, [], 0⟩).2.reads = 0 + 1 + 1 :=
  (C8_emitter_eos K2
    (fun n => ([⟨7, 17, 0, 100⟩] : List mc_dpi_packet_reading_result_t).getD n default)
    default ⟨0, 0, [], 0⟩).2.2 rfl 1 (by decide)
    (fun x hx => by interval_cases x; decide) (by decide)

/-! ## Properties of the pipeline run sequentially -/

/-- Routing a slot only ever appends to the record of dispatched batches. -/
theorem L7_svc_slot_sent (G : Nat) (t : mc_dpi_task_t) (e e1 : dpi_L7_emitter) (i : Nat)
    (h : dpi_L7_emitter.svc_slot G t e i = .ok e1) : e.sent.length ≤ e1.sent.length := by
  unfold dpi_L7_emitter.svc_slot at h
  simp only [] at h
  split at h
  · split at h
    · split at h
      · cases h
      · split at h
        · injection h with h
          subst h
          simp
        · cases h
    · injection h with h
      subst h
      simp
  · cases h

theorem L7_svc_loop_sent (G : Nat) (t : mc_dpi_task_t) (n : Nat) :
    ∀ (e e1 : dpi_L7_emitter), dpi_L7_emitter.svc_loop G t e n = .ok e1 →
      e.sent.length ≤ e1.sent.length := by
  induction n with
  | zero =>
    intro e e1 h
    simp [dpi_L7_emitter.svc_loop] at h
    cases h
    exact le_refl _
  | succ n ih =>
    intro e e1 h
    rw [L7_svc_loop_succ] at h
    cases h2 : dpi_L7_emitter.svc_loop G t e n with
    | error f => rw [h2] at h; cases h
    | ok e2 =>
      rw [h2] at h
      exact le_trans (ih e e2 h2) (L7_svc_slot_sent G t e2 e1 n h)

theorem L7_svc_sent (G : Nat) (t : mc_dpi_task_t) (e e1 : dpi_L7_emitter)
    (h : dpi_L7_emitter.svc G e t = .ok e1) : e.sent.length ≤ e1.sent.length := by
  unfold dpi_L7_emitter.svc at h
  cases h2 : dpi_L7_emitter.svc_loop G t e G with
  | error f => rw [h2] at h; cases h
  | ok e2 =>
    rw [h2] at h
    simp only [] at h
    split at h
    · injection h with h
      subst h
      exact L7_svc_loop_sent G t G e e2 h2
    · cases h

/-- The collector invokes the callback once per slot of the batch. -/
theorem L7_collector_svc_delivered (K : dpi_constants) (c : dpi_L7_collector)
    (tasks_pool : List mc_dpi_task_t) (task : mc_dpi_task_t) :
    (dpi_L7_collector.svc K c tasks_pool task).1.delivered =
      c.delivered ++ (slots task.L7_output_task_t
        K.DPI_MULTIPROCESSOR_DEFAULT_GRAIN_SIZE).map
          (fun o => { result := o.result, user_pointer := o.user_pointer }) := by
  have key : ∀ n, ((List.range n).foldl
      (fun (c : dpi_L7_collector) i =>
        { c with delivered := c.delivered ++
            [{ result := (task.L7_output_task_t i).result,
               user_pointer := (task.L7_output_task_t i).user_pointer }] }) c).delivered =
      c.delivered ++ (slots task.L7_output_task_t n).map
        (fun o => { result := o.result, user_pointer := o.user_pointer }) := by
    intro n
    induction n with
    | zero => simp [slots]
    | succ n ih =>
      rw [List.range_succ, List.foldl_append, slots_succ]
      simp [ih]
  unfold dpi_L7_collector.svc
  simp only []
  split <;> exact key _

/-- The back half delivers G results for every batch it is given. -/
theorem L7_stage_delivered {σ ρ : Type} (K : dpi_constants) (lib : dpi_library σ ρ)
    (l : List (Nat × mc_dpi_task_t)) :
    ∀ acc : dpi_L7_collector × List mc_dpi_task_t × σ,
    (l.foldl (dpi_pipeline.L7_stage K lib) acc).1.delivered.length =
      acc.1.delivered.length + K.DPI_MULTIPROCESSOR_DEFAULT_GRAIN_SIZE * l.length := by
  induction l with
  | nil => intro acc; simp
  | cons b bs ih =>
    intro acc
    rw [List.foldl_cons, ih]
    unfold dpi_pipeline.L7_stage
    simp only []
    rw [L7_collector_svc_delivered]
    simp [slots, Nat.mul_add]
    omega

/-- Every slot the L3_L4 worker writes names a worker below W when the hashers
stay within W per-worker tables. -/
theorem L34_svc_dest_lt {σ ρ : Type} (K : dpi_constants) (lib : dpi_library σ ρ)
    (w : dpi_L3_L4_worker) (state : σ) (pkt_infos0 : dpi_pkt_infos_t)
    (task : mc_dpi_task_t) (W : Nat) (hW1 : 1 ≤ W)
    (hroute : ∀ st infos,
      lib.dpi_compute_v4_hash_function st infos / w.v4_worker_table_size < W ∧
      lib.dpi_compute_v6_hash_function st infos / w.v6_worker_table_size < W)
    (i : Nat) (hi : i < K.DPI_MULTIPROCESSOR_DEFAULT_GRAIN_SIZE) :
    ((dpi_L3_L4_worker.svc K lib w state pkt_infos0 task).1.L3_L4_output_task_t
      i).destination_worker < W := by
  obtain ⟨-, h1, h2, -⟩ := L34_svc_slot_fields K lib w state pkt_infos0 task i hi
  by_cases hr : routed K (dpi_L3_L4_worker.parse K lib w state pkt_infos0 task i)
  · rw [(h1 hr).2]
    unfold hash_to_worker flow_hash rows_per_worker
    split_ifs
    · exact (hroute _ _).1
    · exact (hroute _ _).2
  · rw [(h2 hr).2]
    omega

/-- A round whose G reads are all non-null completes and keeps the invariant. -/
theorem pipeline_step_go {σ ρ : Type} (K : dpi_constants) (lib : dpi_library σ ρ)
    (cb : Nat → mc_dpi_packet_reading_result_t) (fresh : Nat → mc_dpi_task_t)
    (pkt_infos0 : dpi_pkt_infos_t) (W : Nat) (w : dpi_L3_L4_worker)
    (hG : 1 ≤ K.DPI_MULTIPROCESSOR_DEFAULT_GRAIN_SIZE) (hW1 : 1 ≤ W) (hW : W ≤ 65536)
    (hroute : ∀ st infos,
      lib.dpi_compute_v4_hash_function st infos / w.v4_worker_table_size < W ∧
      lib.dpi_compute_v6_hash_function st infos / w.v6_worker_table_size < W)
    (j : Nat) (p : dpi_pipeline σ) (inv : pipeline_inv K W w j p)
    (hnn : ∀ x, x < K.DPI_MULTIPROCESSOR_DEFAULT_GRAIN_SIZE →
      (cb (K.DPI_MULTIPROCESSOR_DEFAULT_GRAIN_SIZE * j + x)).pkt ≠ 0) :
    ∃ p1, dpi_pipeline.step K lib cb fresh pkt_infos0 p = .ok (.FF_GO_ON, p1) ∧
      pipeline_inv K W w (j + 1) p1 := by
  obtain ⟨r, hr⟩ := L34_emitter_svc_some K cb (fresh p.L3_L4_emitter.reads) p.L3_L4_emitter
    inv.freeze (by rw [inv.reads]; exact hnn)
  obtain ⟨hist, hinv, hlen⟩ := inv.batcher
  obtain ⟨e1, he1, inv1⟩ := L7_svc_inv K.DPI_MULTIPROCESSOR_DEFAULT_GRAIN_SIZE W hist
    p.L7_emitter (dpi_L3_L4_worker.svc K lib p.L3_L4_worker p.state pkt_infos0 r).1 hG hW
    (fun i hi => by
      rw [inv.worker]
      exact L34_svc_dest_lt K lib w p.state pkt_infos0 r W hW1 hroute i hi) hinv
  have hmono := L7_svc_sent _ _ _ _ he1
  unfold dpi_pipeline.step
  rw [hr]
  simp only []
  rw [he1]
  simp only []
  refine ⟨_, rfl, ?_⟩
  constructor
  · exact inv.freeze
  · simp only []
    rw [inv.reads]
    ring
  · exact inv.worker
  · refine ⟨_, inv1, ?_⟩
    simp only [List.length_append, slots, List.length_map, List.length_range, hlen]
    ring
  · simp only []
    rw [L7_stage_delivered, List.length_drop, inv.delivered, ← Nat.mul_add]
    congr 1
    omega

/-- A round whose first read returns null ends the stream: nothing is
dispatched or delivered by it. -/
theorem pipeline_step_eos {σ ρ : Type} (K : dpi_constants) (lib : dpi_library σ ρ)
    (cb : Nat → mc_dpi_packet_reading_result_t) (fresh : Nat → mc_dpi_task_t)
    (pkt_infos0 : dpi_pkt_infos_t) (W : Nat) (w : dpi_L3_L4_worker)
    (hG : 1 ≤ K.DPI_MULTIPROCESSOR_DEFAULT_GRAIN_SIZE)
    (j : Nat) (p : dpi_pipeline σ) (inv : pipeline_inv K W w j p)
    (hz : (cb (K.DPI_MULTIPROCESSOR_DEFAULT_GRAIN_SIZE * j)).pkt = 0) :
    ∃ p1, dpi_pipeline.step K lib cb fresh pkt_infos0 p = .ok (.FF_EOS, p1) ∧
      p1.L7_emitter = p.L7_emitter ∧
      p1.L7_collector.delivered = p.L7_collector.delivered ∧
      p1.L3_L4_emitter.terminating = 1 := by
  have h := L34_emitter_svc_null K cb (fresh p.L3_L4_emitter.reads) p.L3_L4_emitter
    inv.freeze 0 (by omega) (fun x hx => by omega) (by rw [inv.reads]; exact hz)
  unfold dpi_pipeline.step
  rw [h]
  exact ⟨_, rfl, rfl, rfl, rfl⟩

/-- The sequential run on a source of G*(j+r) further-unread packets followed
by null reaches EOS within r + 1 rounds; what it delivered plus what the
batcher still holds is everything that was read. -/
theorem pipeline_run_inv {σ ρ : Type} (K : dpi_constants) (lib : dpi_library σ ρ)
    (cb : Nat → mc_dpi_packet_reading_result_t) (fresh : Nat → mc_dpi_task_t)
    (pkt_infos0 : dpi_pkt_infos_t) (W : Nat) (w : dpi_L3_L4_worker)
    (hG : 1 ≤ K.DPI_MULTIPROCESSOR_DEFAULT_GRAIN_SIZE) (hW1 : 1 ≤ W) (hW : W ≤ 65536)
    (hroute : ∀ st infos,
      lib.dpi_compute_v4_hash_function st infos / w.v4_worker_table_size < W ∧
      lib.dpi_compute_v6_hash_function st infos / w.v6_worker_table_size < W)
    (r : Nat) :
    ∀ (j : Nat) (p : dpi_pipeline σ), pipeline_inv K W w j p →
    (∀ x, x < K.DPI_MULTIPROCESSOR_DEFAULT_GRAIN_SIZE * (j + r) → (cb x).pkt ≠ 0) →
    (cb (K.DPI_MULTIPROCESSOR_DEFAULT_GRAIN_SIZE * (j + r))).pkt = 0 →
    ∀ extra : Nat, ∃ p1,
      dpi_pipeline.run K lib cb fresh pkt_infos0 (r + 1 + extra) p = .ok (.FF_EOS, p1) ∧
      p1.L7_collector.delivered.length =
        K.DPI_MULTIPROCESSOR_DEFAULT_GRAIN_SIZE * p1.L7_emitter.sent.length ∧
      p1.L7_collector.delivered.length + p1.L7_emitter.partially_filled_sizes.sum =
        K.DPI_MULTIPROCESSOR_DEFAULT_GRAIN_SIZE * (j + r) ∧
      p1.L3_L4_emitter.terminating = 1 := by
  induction r with
  | zero =>
    intro j p inv _ hz extra
    obtain ⟨p1, h1, h2, h3, h4⟩ := pipeline_step_eos K lib cb fresh pkt_infos0 W w hG j p inv
      (by simpa using hz)
    obtain ⟨hist, hinv, hlen⟩ := inv.batcher
    refine ⟨p1, ?_, ?_, ?_, h4⟩
    · have : 0 + 1 + extra = extra + 1 := by omega
      rw [this, dpi_pipeline.run, h1]
    · rw [h3, h2]; exact inv.delivered
    · rw [h3, h2, inv.delivered, hinv.total, hlen]; rfl
  | succ r ih =>
    intro j p inv hnn hz extra
    obtain ⟨p1, h1, inv1⟩ := pipeline_step_go K lib cb fresh pkt_infos0 W w hG hW1 hW hroute
      j p inv (fun x hx => hnn _ (by
        have : K.DPI_MULTIPROCESSOR_DEFAULT_GRAIN_SIZE * (j + (r + 1)) =
          K.DPI_MULTIPROCESSOR_DEFAULT_GRAIN_SIZE * j +
            K.DPI_MULTIPROCESSOR_DEFAULT_GRAIN_SIZE * (r + 1) := by ring
        have : K.DPI_MULTIPROCESSOR_DEFAULT_GRAIN_SIZE * (r + 1) =
          K.DPI_MULTIPROCESSOR_DEFAULT_GRAIN_SIZE * r +
            K.DPI_MULTIPROCESSOR_DEFAULT_GRAIN_SIZE := by ring
        omega))
    have e : j + (r + 1) = j + 1 + r := by omega
    obtain ⟨p2, h2, h3, h4, h5⟩ := ih (j + 1) p1 inv1 (by rw [← e]; exact hnn)
      (by rw [← e]; exact hz) extra
    refine ⟨p2, ?_, h3, by rw [e]; exact h4, h5⟩
    have : r + 1 + 1 + extra = (r + 1 + extra) + 1 := by omega
    rw [this, dpi_pipeline.run, h1]
    exact h2

/-- The pipeline as built satisfies the invariant. -/
theorem pipeline_start_inv {σ : Type} (K : dpi_constants) (W : Nat) (w : dpi_L3_L4_worker)
    (alloc : Nat → mc_dpi_task_t) (tasks_pool : List mc_dpi_task_t) (state : σ)
    (hG : 1 ≤ K.DPI_MULTIPROCESSOR_DEFAULT_GRAIN_SIZE) :
    pipeline_inv K W w 0 (dpi_pipeline.start w alloc W tasks_pool state) := by
  constructor
  · rfl
  · rfl
  · rfl
  · exact ⟨[], L7_constructor_inv alloc _ W hG, rfl⟩
  · simp [dpi_pipeline.start, dpi_L7_emitter.constructor]

/-- Claim C5 as the code has it (no lost packets, amended).  For every source that
returns n = G*m non-null packets and then a null packet, with the hashers
staying within W per-worker tables (1 <= W, W a u_int16_t, G >= 1), running the
stages sequentially from the pipeline as built reaches end-of-stream within
m + 1 rounds, whatever fuel is given beyond that; the processing-result callback
has then been invoked exactly G times per batch the L7 emitter dispatched, and
that number plus the number of slots still held in the L7 emitter's partial
batches is n: a packet is either delivered or still buffered in a partial
batch, which nothing drains at end-of-stream. -/
theorem C5_delivered_or_buffered {σ ρ : Type} (K : dpi_constants) (lib : dpi_library σ ρ)
    (cb : Nat → mc_dpi_packet_reading_result_t) (fresh : Nat → mc_dpi_task_t)
    (pkt_infos0 : dpi_pkt_infos_t) (W : Nat) (w : dpi_L3_L4_worker)
    (alloc : Nat → mc_dpi_task_t) (tasks_pool : List mc_dpi_task_t) (state : σ)
    (m extra : Nat)
    (hG : 1 ≤ K.DPI_MULTIPROCESSOR_DEFAULT_GRAIN_SIZE) (hW1 : 1 ≤ W) (hW : W < 65536)
    (hroute : ∀ st infos,
      lib.dpi_compute_v4_hash_function st infos / w.v4_worker_table_size < W ∧
      lib.dpi_compute_v6_hash_function st infos / w.v6_worker_table_size < W)
    (hnn : ∀ x, x < K.DPI_MULTIPROCESSOR_DEFAULT_GRAIN_SIZE * m → (cb x).pkt ≠ 0)
    (hz : (cb (K.DPI_MULTIPROCESSOR_DEFAULT_GRAIN_SIZE * m)).pkt = 0) :
    ∃ p, dpi_pipeline.run K lib cb fresh pkt_infos0 (m + 1 + extra)
        (dpi_pipeline.start w alloc W tasks_pool state) = .ok (.FF_EOS, p) ∧
      p.L7_collector.delivered.length =
        K.DPI_MULTIPROCESSOR_DEFAULT_GRAIN_SIZE * p.L7_emitter.sent.length ∧
      p.L7_collector.delivered.length + p.L7_emitter.partially_filled_sizes.sum =
        K.DPI_MULTIPROCESSOR_DEFAULT_GRAIN_SIZE * m ∧
      p.L3_L4_emitter.terminating = 1 := by
  have h := pipeline_run_inv K lib cb fresh pkt_infos0 W w hG hW1 (by omega) hroute m 0
    (dpi_pipeline.start w alloc W tasks_pool state)
    (pipeline_start_inv K W w alloc tasks_pool state hG)
    (by simpa using hnn) (by simpa using hz) extra
  simpa using h

theorem toy_route :
    ∀ (st : Nat) (infos : dpi_pkt_infos_t),
      toy.dpi_compute_v4_hash_function st infos /
        (⟨4, 4, 0⟩ : dpi_L3_L4_worker).v4_worker_table_size < 2 ∧
      toy.dpi_compute_v6_hash_function st infos /
        (⟨4, 4, 0⟩ : dpi_L3_L4_worker).v6_worker_table_size < 2 := by
  intro st infos
  simp only [toy]
  omega

/-- Witness for the amended C5: grain size 2, two workers, four packets of two
interleaved flows (scenario S2), then null. -/
theorem C5_delivered_or_buffered_witness :
    ∃ p, dpi_pipeline.run K2 toy
        (source [⟨3, 17, 0, 100⟩, ⟨7, 17, 0, 101⟩, ⟨3, 17, 0, 102⟩, ⟨7, 17, 0, 103⟩])
        (fun _ => default) default (2 + 1 + 0)
        (dpi_pipeline.start ⟨4, 4, 0⟩ (fun _ => default) 2 [] (1 : Nat)) = .ok (.FF_EOS, p) ∧
      p.L7_collector.delivered.length =
        K2.DPI_MULTIPROCESSOR_DEFAULT_GRAIN_SIZE * p.L7_emitter.sent.length ∧
      p.L7_collector.delivered.length + p.L7_emitter.partially_filled_sizes.sum =
        K2.DPI_MULTIPROCESSOR_DEFAULT_GRAIN_SIZE * 2 ∧
      p.L3_L4_emitter.terminating = 1 :=
  C5_delivered_or_buffered K2 toy _ (fun _ => default) default 2 ⟨4, 4, 0⟩ (fun _ => default)
    [] (1 : Nat) 2 0 (by decide) (by decide) (by decide) toy_route
    (fun x hx => by
      have hx4 : x < 4 := hx
      interval_cases x <;> decide)
    (by decide)

/-- Counterexample to C5 as stated.  Grain size 2, two workers; the source returns
two non-null packets (one complete batch), of flows routed to workers 0 and 1,
and then null.  The sequential run ends with EOS having invoked the
processing-result callback for none of the two packets: each sits in a partial
batch of the L7 emitter (sizes 1 and 1), and no batch was dispatched. -/
theorem C5_partial_batches_not_delivered :
    (source [⟨3, 17, 0, 100⟩, ⟨7, 17, 0, 101⟩] 0).pkt ≠ 0 ∧
    (source [⟨3, 17, 0, 100⟩, ⟨7, 17, 0, 101⟩] 1).pkt ≠ 0 ∧
    (source [⟨3, 17, 0, 100⟩, ⟨7, 17, 0, 101⟩] 2).pkt = 0 ∧
    dpi_pipeline.summary (dpi_pipeline.run K2 toy
      (source [⟨3, 17, 0, 100⟩, ⟨7, 17, 0, 101⟩]) (fun _ => default) default 5
      (dpi_pipeline.start ⟨4, 4, 0⟩ (fun _ => default) 2 [] (1 : Nat))) =
      some (.FF_EOS, [], [1, 1], 0, 1) := by
  decide

/-- Claim C6 as the code has it (end-of-stream at the collapsed emitter, amended).
When the L3_L4 emitter's step meets end-of-stream (freeze_flag set, or a null
packet among the G reads ahead), dpi_collapsed_emitter::svc returns FF_EOS
without entering dpi_L7_emitter::svc: the dispatched batches, partially_filled,
partially_filled_sizes and waiting_tasks are exactly as before, so a worker
with partially_filled_sizes[w] > 0 keeps its partial batch undispatched and
nothing is padded; the library state is untouched. -/
theorem C6_eos_leaves_partials {σ ρ : Type} (K : dpi_constants) (lib : dpi_library σ ρ)
    (cb : Nat → mc_dpi_packet_reading_result_t) (fresh : mc_dpi_task_t)
    (pkt_infos0 : dpi_pkt_infos_t) (ce : dpi_collapsed_emitter) (state : σ)
    (h : ce.L3_L4_emitter.freeze_flag ≠ 0 ∨
      ∃ j, j < K.DPI_MULTIPROCESSOR_DEFAULT_GRAIN_SIZE ∧
        (cb (ce.L3_L4_emitter.reads + j)).pkt = 0) :
    ∃ ce1, dpi_collapsed_emitter.svc K lib cb fresh pkt_infos0 ce state =
        .ok (.FF_EOS, ce1, state) ∧
      ce1.L7_emitter = ce.L7_emitter ∧
      ce1.L7_emitter.sent = ce.L7_emitter.sent ∧
      ce1.L7_emitter.partially_filled_sizes = ce.L7_emitter.partially_filled_sizes ∧
      ce1.L3_L4_worker = ce.L3_L4_worker := by
  obtain ⟨em1, e⟩ := L34_emitter_svc_none K cb fresh ce.L3_L4_emitter h
  unfold dpi_collapsed_emitter.svc
  rw [e]
  exact ⟨_, rfl, rfl, rfl, rfl, rfl⟩

/-- Witness for the amended C6: a collapsed emitter whose freeze_flag is set. -/
theorem C6_eos_leaves_partials_witness :
    ∃ ce1, dpi_collapsed_emitter.svc K2 toy (source []) default default
        { dpi_collapsed_emitter.start ⟨4, 4, 0⟩ (fun _ => default) 2 [] with
          L3_L4_emitter := ⟨1, 0, [], 0⟩ } (1 : Nat) = .ok (.FF_EOS, ce1, 1) ∧
      ce1.L7_emitter = (dpi_L7_emitter.constructor (fun _ => default) 2) ∧
      ce1.L7_emitter.sent = (dpi_L7_emitter.constructor (fun _ => default) 2).sent ∧
      ce1.L7_emitter.partially_filled_sizes =
        (dpi_L7_emitter.constructor (fun _ => default) 2).partially_filled_sizes ∧
      ce1.L3_L4_worker = ⟨4, 4, 0⟩ :=
  C6_eos_leaves_partials K2 toy (source []) default default
    { dpi_collapsed_emitter.start ⟨4, 4, 0⟩ (fun _ => default) 2 [] with
      L3_L4_emitter := ⟨1, 0, [], 0⟩ } (1 : Nat) (Or.inl (by decide))

/-- Counterexample to C6 as stated.  Grain size 2, two workers; the collapsed
emitter routes one batch whose slots go to workers 0 and 1 and then meets
end-of-stream.  Its last step returns FF_EOS while both workers have a partial
batch of size 1 (holding the packets with handles 100 and 101) and no batch
has ever been dispatched. -/
theorem C6_partial_batches_not_drained :
    dpi_collapsed_emitter.summary (dpi_collapsed_emitter.run K2 toy
      (source [⟨3, 17, 0, 100⟩, ⟨7, 17, 0, 101⟩]) default default 5
      (dpi_collapsed_emitter.start ⟨4, 4, 0⟩ (fun _ => default) 2 []) (1 : Nat)) =
      some (.FF_EOS, [1, 1], 0, [[100], [101]]) := by
  decide

/-! ## Properties of the L7 worker -/

/-- Evaluation for claim C10 at the failing input.  Grain size 2, a worker whose
flow table has no room (find-or-create yields no row), a batch whose two slots
have status 0 and the handles 1 and 2, in batch memory whose L7 output reading
holds the handle 99 everywhere.  Slot 0 gets DPI_ERROR_MAX_FLOWS with handle 1
and the loop breaks; output slot 1 is never written: it still reads 99, not
the handle 2 of input slot 1, and the collector passes 99 to the callback. -/
theorem C10_user_pointer_lost_after_max_flows :
    (((dpi_L7_worker.svc K2 toy 0 (0 : Nat)
        { task_of_outputs [out_slot 0 1, out_slot 0 2] with
          L7_output_task_t := fun _ => ⟨⟨0, 0⟩, 99⟩ }).1.L7_output_task_t 0).result.status
      = K2.DPI_ERROR_MAX_FLOWS) ∧
    (((dpi_L7_worker.svc K2 toy 0 (0 : Nat)
        { task_of_outputs [out_slot 0 1, out_slot 0 2] with
          L7_output_task_t := fun _ => ⟨⟨0, 0⟩, 99⟩ }).1.L7_output_task_t 0).user_pointer = 1) ∧
    (((dpi_L7_worker.svc K2 toy 0 (0 : Nat)
        { task_of_outputs [out_slot 0 1, out_slot 0 2] with
          L7_output_task_t := fun _ => ⟨⟨0, 0⟩, 99⟩ }).1.L7_output_task_t 1).user_pointer = 99) ∧
    ((task_of_outputs [out_slot 0 1, out_slot 0 2]).L3_L4_output_task_t 1).user_pointer = 2 ∧
    ((dpi_L7_collector.svc K2 ⟨[], []⟩ []
        (dpi_L7_worker.svc K2 toy 0 (0 : Nat)
          { task_of_outputs [out_slot 0 1, out_slot 0 2] with
            L7_output_task_t := fun _ => ⟨⟨0, 0⟩, 99⟩ }).1).1.delivered.map
        (fun r => r.user_pointer)) = [1, 99] := by
  decide

/-! ## Further properties of the batcher and of the L3_L4 worker -/

/-- A slot that completes a partial batch flushes it: the size of the
destination goes back to 0 and one batch is dispatched with that victim. -/
theorem L7_svc_slot_flush (G W k : Nat) (hist : List L3_L4_output_task_struct)
    (e : dpi_L7_emitter) (t : mc_dpi_task_t) (hW : W ≤ 65536) (hk : k < G)
    (hd : (t.L3_L4_output_task_t k).destination_worker < W)
    (inv : L7_inv G W k hist e)
    (hfull : e.partially_filled_sizes[(t.L3_L4_output_task_t k).destination_worker]? =
      some (G - 1)) :
    ∃ e1 b, dpi_L7_emitter.svc_slot G t e k = .ok e1 ∧
      e1.partially_filled_sizes[(t.L3_L4_output_task_t k).destination_worker]? = some 0 ∧
      e1.sent = e.sent ++ [((t.L3_L4_output_task_t k).destination_worker, b)] := by
  have hmod : (t.L3_L4_output_task_t k).destination_worker % 65536 =
      (t.L3_L4_output_task_t k).destination_worker := Nat.mod_eq_of_lt (by omega)
  obtain ⟨pf, hpf⟩ : ∃ pf, e.partially_filled[
      (t.L3_L4_output_task_t k).destination_worker]? = some pf :=
    ⟨_, List.getElem?_eq_getElem (by rw [inv.len_pf]; exact hd)⟩
  have hlow := L7_inv_lower G W k hist e inv hk
  have hup := L7_inv_upper G W k hist e inv (by omega)
  obtain ⟨out, hout⟩ : ∃ out, e.waiting_tasks[e.waiting_tasks_size - 1]? = some out :=
    ⟨_, List.getElem?_eq_getElem (by rw [inv.len_wt]; omega)⟩
  unfold dpi_L7_emitter.svc_slot
  simp only [hmod, hfull, hpf]
  rw [if_pos (by omega), if_neg (by omega)]
  simp only [hout]
  refine ⟨_, _, rfl, ?_, rfl⟩
  simp [List.getElem?_set, inv.len_sizes, hd]

/-- Claim C18 (partial-size invariant of the batcher).  In every state reached from
the constructor by svc steps on batches with all destination_worker < W, and
then by the first k slots (k <= G) of a further such batch, the array of partial
sizes has W entries and partially_filled_sizes[w] < G for every worker w: the
bound holds after every slot, not only at step boundaries.  And when the next
slot finds its destination's partial at G - 1 slots, routing it flushes: the
size of that destination is reset to 0 and one batch is dispatched to it.
(G >= 1; W is a u_int16_t.) -/
theorem C18_partial_sizes_below_G (alloc : Nat → mc_dpi_task_t) (W G : Nat)
    (hG : 1 ≤ G) (hW : W < 65536) (tasks : List mc_dpi_task_t) (t : mc_dpi_task_t)
    (k : Nat) (hk : k ≤ G)
    (hd : ∀ t ∈ tasks, ∀ i, i < G → (t.L3_L4_output_task_t i).destination_worker < W)
    (hdt : ∀ i, i < G → (t.L3_L4_output_task_t i).destination_worker < W) :
    ∃ e0 e1, dpi_L7_emitter.run G (dpi_L7_emitter.constructor alloc W) tasks = .ok e0 ∧
      dpi_L7_emitter.svc_loop G t e0 k = .ok e1 ∧
      e1.partially_filled_sizes.length = W ∧
      (∀ w, w < W → ∃ x, e1.partially_filled_sizes[w]? = some x ∧ x < G) ∧
      (k < G →
        e1.partially_filled_sizes[(t.L3_L4_output_task_t k).destination_worker]? =
          some (G - 1) →
        ∃ e2 b, dpi_L7_emitter.svc_slot G t e1 k = .ok e2 ∧
          e2.partially_filled_sizes[(t.L3_L4_output_task_t k).destination_worker]? =
            some 0 ∧
          e2.sent = e1.sent ++ [((t.L3_L4_output_task_t k).destination_worker, b)]) := by
  obtain ⟨e0, h0, inv0⟩ := L7_run_inv G W hG (by omega) tasks [] _ hd
    (L7_constructor_inv alloc G W hG)
  obtain ⟨e1, h1, inv1⟩ := L7_svc_loop_inv G W _ e0 t (by omega) hdt inv0 k hk
  refine ⟨e0, e1, h0, h1, inv1.len_sizes, fun w hw => ?_, fun hk2 hfull => ?_⟩
  · have hlt : w < e1.partially_filled_sizes.length := by rw [inv1.len_sizes]; exact hw
    exact ⟨_, List.getElem?_eq_getElem hlt,
      inv1.small _ (List.getElem?_mem (List.getElem?_eq_getElem hlt))⟩
  · exact L7_svc_slot_flush G W k _ e1 t (by omega) hk2 (hdt k hk2) inv1 hfull

/-- Witness for C18: two workers, grain size 2; after one batch [0, 1] and the
first slot of a second batch [0, 1], the second slot finds worker 1 at G - 1. -/
theorem C18_partial_sizes_below_G_witness :
    ∃ e0 e1,
      dpi_L7_emitter.run 2 (dpi_L7_emitter.constructor (fun _ => default) 2)
        [task_of_outputs [out_slot 0 1, out_slot 1 2]] = .ok e0 ∧
      dpi_L7_emitter.svc_loop 2 (task_of_outputs [out_slot 0 3, out_slot 1 4]) e0 1 = .ok e1 ∧
      e1.partially_filled_sizes.length = 2 ∧
      (∀ w, w < 2 → ∃ x, e1.partially_filled_sizes[w]? = some x ∧ x < 2) ∧
      (1 < 2 →
        e1.partially_filled_sizes[((task_of_outputs [out_slot 0 3, out_slot 1 4]
          ).L3_L4_output_task_t 1).destination_worker]? = some (2 - 1) →
        ∃ e2 b, dpi_L7_emitter.svc_slot 2 (task_of_outputs [out_slot 0 3, out_slot 1 4]) e1 1
            = .ok e2 ∧
          e2.partially_filled_sizes[((task_of_outputs [out_slot 0 3, out_slot 1 4]
            ).L3_L4_output_task_t 1).destination_worker]? = some 0 ∧
          e2.sent = e1.sent ++ [(((task_of_outputs [out_slot 0 3, out_slot 1 4]
            ).L3_L4_output_task_t 1).destination_worker, b)]) :=
  C18_partial_sizes_below_G (fun _ => default) 2 2 (by decide) (by decide)
    [task_of_outputs [out_slot 0 1, out_slot 1 2]]
    (task_of_outputs [out_slot 0 3, out_slot 1 4]) 1 (by decide)
    (fun t ht => two_flows_dest t (by
      simp only [List.mem_singleton] at ht
      rw [ht]
      exact List.mem_cons_self _ _))
    (fun i hi => two_flows_dest _ (List.mem_cons_of_mem _ (List.mem_cons_self _ _)) i hi)

/-- Claim C19 (unrouted slots get a consistent destination).  For every batch,
whatever its memory held before, and every slot i below the grain size: when the
output status of slot i is negative (parse error or transport protocol not
supported) or DPI_STATUS_IP_FRAGMENT, its output hash_result is 0 and its
destination_worker is 0, so the L7 emitter, which reads destination_worker into
a u_int16_t, routes it to worker 0. -/
theorem C19_unrouted_slots_to_worker_0 {σ ρ : Type} (K : dpi_constants)
    (lib : dpi_library σ ρ) (w : dpi_L3_L4_worker) (state : σ)
    (pkt_infos0 : dpi_pkt_infos_t) (task : mc_dpi_task_t) (i : Nat)
    (hi : i < K.DPI_MULTIPROCESSOR_DEFAULT_GRAIN_SIZE)
    (hs : ((dpi_L3_L4_worker.svc K lib w state pkt_infos0 task).1.L3_L4_output_task_t
        i).status < 0 ∨
      ((dpi_L3_L4_worker.svc K lib w state pkt_infos0 task).1.L3_L4_output_task_t
        i).status = K.DPI_STATUS_IP_FRAGMENT) :
    ((dpi_L3_L4_worker.svc K lib w state pkt_infos0 task).1.L3_L4_output_task_t
      i).hash_result = 0 ∧
    ((dpi_L3_L4_worker.svc K lib w state pkt_infos0 task).1.L3_L4_output_task_t
      i).destination_worker = 0 ∧
    ((dpi_L3_L4_worker.svc K lib w state pkt_infos0 task).1.L3_L4_output_task_t
      i).destination_worker % 65536 = 0 := by
  obtain ⟨h1, -, h3, -⟩ := L34_svc_slot_fields K lib w state pkt_infos0 task i hi
  have hnr : ¬ routed K (dpi_L3_L4_worker.parse K lib w state pkt_infos0 task i) := by
    intro hr
    have hneg : ¬ (0 ≤ (dpi_L3_L4_worker.parse K lib w state pkt_infos0 task i).1 ∧
        (dpi_L3_L4_worker.parse K lib w state pkt_infos0 task i).2.1.l4prot ≠ IPPROTO_TCP ∧
        (dpi_L3_L4_worker.parse K lib w state pkt_infos0 task i).2.1.l4prot ≠ IPPROTO_UDP) := by
      rintro ⟨-, a, b⟩
      rcases hr.2.1 with c | c
      · exact a c
      · exact b c
    rw [if_neg hneg] at h1
    rcases hs with hs | hs
    · rw [h1] at hs
      exact absurd hr.1 (not_le.mpr hs)
    · rw [h1] at hs
      exact hr.2.2 hs
  obtain ⟨a, b⟩ := h3 hnr
  exact ⟨a, b, by rw [b]⟩

/-- Witness for C19: the second slot fails to parse (status -1) in batch memory
whose output reading held other values before. -/
theorem C19_unrouted_slots_to_worker_0_witness :
    ((dpi_L3_L4_worker.svc K2 toy ⟨4, 4, 0⟩ 0 default
      { task_of_inputs [⟨3, 6, 0, 100⟩, ⟨3, 0, 0, 101⟩] with
        L3_L4_output_task_t := fun _ => out_slot 5 9 }).1.L3_L4_output_task_t 1).hash_result
      = 0 ∧
    ((dpi_L3_L4_worker.svc K2 toy ⟨4, 4, 0⟩ 0 default
      { task_of_inputs [⟨3, 6, 0, 100⟩, ⟨3, 0, 0, 101⟩] with
        L3_L4_output_task_t := fun _ => out_slot 5 9 }).1.L3_L4_output_task_t
      1).destination_worker = 0 ∧
    ((dpi_L3_L4_worker.svc K2 toy ⟨4, 4, 0⟩ 0 default
      { task_of_inputs [⟨3, 6, 0, 100⟩, ⟨3, 0, 0, 101⟩] with
        L3_L4_output_task_t := fun _ => out_slot 5 9 }).1.L3_L4_output_task_t
      1).destination_worker % 65536 = 0 :=
  C19_unrouted_slots_to_worker_0 K2 toy ⟨4, 4, 0⟩ 0 default
    { task_of_inputs [⟨3, 6, 0, 100⟩, ⟨3, 0, 0, 101⟩] with
      L3_L4_output_task_t := fun _ => out_slot 5 9 } 1 (by decide) (Or.inl (by decide))

/-- Claim C20 (batch conservation in the batcher).  At every step boundary reached
from the constructor on batches with all destination_worker < W (W >= 1, G >= 1,
W a u_int16_t): G * (waiting_tasks_size - W) is the sum over all workers of
partially_filled_sizes[w]; consequently W <= waiting_tasks_size <= 2W - 1; and
in a further step on such a batch, after its G slots have been routed, the
index waiting_tasks_size at which the inbound batch is stored is inside the
2W-entry array the constructor allocated. -/
theorem C20_batch_conservation (alloc : Nat → mc_dpi_task_t) (W G : Nat)
    (hW1 : 1 ≤ W) (hW : W < 65536) (hG : 1 ≤ G) (tasks : List mc_dpi_task_t)
    (hd : ∀ t ∈ tasks, ∀ i, i < G → (t.L3_L4_output_task_t i).destination_worker < W) :
    ∃ e0, dpi_L7_emitter.run G (dpi_L7_emitter.constructor alloc W) tasks = .ok e0 ∧
      G * (e0.waiting_tasks_size - W) = e0.partially_filled_sizes.sum ∧
      W ≤ e0.waiting_tasks_size ∧ e0.waiting_tasks_size ≤ 2 * W - 1 ∧
      e0.waiting_tasks.length = 2 * W ∧
      ∀ t : mc_dpi_task_t,
        (∀ i, i < G → (t.L3_L4_output_task_t i).destination_worker < W) →
        ∃ e1, dpi_L7_emitter.svc_loop G t e0 G = .ok e1 ∧
          e1.waiting_tasks_size < e1.waiting_tasks.length ∧
          e1.waiting_tasks.length = 2 * W := by
  obtain ⟨e0, h0, inv0⟩ := L7_run_inv G W hG (by omega) tasks [] _ hd
    (L7_constructor_inv alloc G W hG)
  have hlow := L7_inv_lower G W 0 _ e0 inv0 (by omega)
  have hup := L7_inv_upper G W 0 _ e0 inv0 hW1
  refine ⟨e0, h0, ?_, hlow, by omega, inv0.len_wt, fun t hdt => ?_⟩
  · have hc := inv0.count
    have h1 : G * (e0.waiting_tasks_size + 1) = G * e0.waiting_tasks_size + G := by ring
    have h2 : G * (e0.waiting_tasks_size - W) = G * e0.waiting_tasks_size - G * W :=
      Nat.mul_sub G _ _
    omega
  · obtain ⟨e1, h1, inv1⟩ := L7_svc_loop_inv G W _ e0 t (by omega) hdt inv0 G (le_refl G)
    have hup1 := L7_inv_upper G W G _ e1 inv1 hW1
    exact ⟨e1, h1, by rw [inv1.len_wt]; exact hup1, inv1.len_wt⟩

/-- Witness for C20: two workers, grain size 2, after the two batches of
two_flows. -/
theorem C20_batch_conservation_witness :
    ∃ e0, dpi_L7_emitter.run 2 (dpi_L7_emitter.constructor (fun _ => default) 2) two_flows
        = .ok e0 ∧
      2 * (e0.waiting_tasks_size - 2) = e0.partially_filled_sizes.sum ∧
      2 ≤ e0.waiting_tasks_size ∧ e0.waiting_tasks_size ≤ 2 * 2 - 1 ∧
      e0.waiting_tasks.length = 2 * 2 ∧
      ∀ t : mc_dpi_task_t,
        (∀ i, i < 2 → (t.L3_L4_output_task_t i).destination_worker < 2) →
        ∃ e1, dpi_L7_emitter.svc_loop 2 t e0 2 = .ok e1 ∧
          e1.waiting_tasks_size < e1.waiting_tasks.length ∧
          e1.waiting_tasks.length = 2 * 2 :=
  C20_batch_conservation (fun _ => default) 2 2 (by decide) (by decide) (by decide)
    two_flows two_flows_dest

/-! ## Properties of the L7 collector -/

/-- Claim C15 (dpi_L7_collector::svc delivery).  For every inbound L7-output batch
the processing-result callback is invoked exactly G times by the step, in slot
order 0 .. G-1, the i-th invocation receiving exactly the result and the
user_pointer stored in slot i; earlier invocations are untouched; and the step
returns FF_GO_ON. -/
theorem C15_collector_delivery (K : dpi_constants) (c : dpi_L7_collector)
    (tasks_pool : List mc_dpi_task_t) (task : mc_dpi_task_t) :
    ∃ calls : List mc_dpi_processing_result_t,
      (dpi_L7_collector.svc K c tasks_pool task).1.delivered = c.delivered ++ calls ∧
      calls.length = K.DPI_MULTIPROCESSOR_DEFAULT_GRAIN_SIZE ∧
      (∀ i, i < K.DPI_MULTIPROCESSOR_DEFAULT_GRAIN_SIZE →
        calls[i]? = some { result := (task.L7_output_task_t i).result,
                           user_pointer := (task.L7_output_task_t i).user_pointer }) ∧
      dpi_L7_collector.svc_returns K c tasks_pool task = .FF_GO_ON := by
  refine ⟨_, L7_collector_svc_delivered K c tasks_pool task, ?_, fun i hi => ?_, rfl⟩
  · simp [slots]
  · simp [slots, List.getElem?_map, List.getElem?_range hi]

/-- Claim C16 (task recycling in dpi_L7_collector).  After delivering a batch, the
batch is appended to the task pool exactly when the pool has room (fewer than
DPI_MULTIPROCESSOR_TASKS_POOL_SIZE entries), and then nothing is freed;
otherwise it is handed to dpi_free_task exactly once and the pool is unchanged:
never both, never neither.  So a pool within its capacity stays within it.
After svc_end the pool is empty and every batch it held has been handed to
dpi_free_task exactly once, in pool order. -/
theorem C16_task_recycling (K : dpi_constants) (c : dpi_L7_collector)
    (tasks_pool : List mc_dpi_task_t) (task : mc_dpi_task_t) :
    (tasks_pool.length < K.DPI_MULTIPROCESSOR_TASKS_POOL_SIZE →
      (dpi_L7_collector.svc K c tasks_pool task).2 = tasks_pool ++ [task] ∧
      (dpi_L7_collector.svc K c tasks_pool task).1.freed = c.freed) ∧
    (¬ tasks_pool.length < K.DPI_MULTIPROCESSOR_TASKS_POOL_SIZE →
      (dpi_L7_collector.svc K c tasks_pool task).2 = tasks_pool ∧
      (dpi_L7_collector.svc K c tasks_pool task).1.freed = c.freed ++ [task]) ∧
    (tasks_pool.length ≤ K.DPI_MULTIPROCESSOR_TASKS_POOL_SIZE →
      (dpi_L7_collector.svc K c tasks_pool task).2.length ≤
        K.DPI_MULTIPROCESSOR_TASKS_POOL_SIZE) ∧
    (dpi_L7_collector.svc_end c tasks_pool).2 = [] ∧
    (dpi_L7_collector.svc_end c tasks_pool).1.freed = c.freed ++ tasks_pool ∧
    (dpi_L7_collector.svc_end c tasks_pool).1.delivered = c.delivered := by
  have hfreed : ∀ n, ((List.range n).foldl
      (fun (c : dpi_L7_collector) i =>
        { c with delivered := c.delivered ++
            [{ result := (task.L7_output_task_t i).result,
               user_pointer := (task.L7_output_task_t i).user_pointer }] }) c).freed =
      c.freed := by
    intro n
    induction n with
    | zero => rfl
    | succ n ih => rw [List.range_succ, List.foldl_append]; simpa using ih
  refine ⟨fun h => ?_, fun h => ?_, fun h => ?_, rfl, rfl, rfl⟩
  · unfold dpi_L7_collector.svc
    rw [if_pos h]
    exact ⟨rfl, hfreed _⟩
  · unfold dpi_L7_collector.svc
    rw [if_neg h]
    exact ⟨rfl, by simp only []; rw [hfreed]⟩
  · unfold dpi_L7_collector.svc
    simp only []
    split
    · simp only [List.length_append, List.length_singleton]
      omega
    · exact h

/-! ## The collapsed emitter against the separate actors -/

theorem fuse_split (ce : dpi_collapsed_emitter) : ce.split.fuse = ce := rfl

theorem split_fuse (a : front_actors) : a.fuse.split = a := rfl

/-- One step: the fused node does what the composition of the three actors
does. -/
theorem collapsed_svc_eq_step {σ ρ : Type} (K : dpi_constants) (lib : dpi_library σ ρ)
    (cb : Nat → mc_dpi_packet_reading_result_t) (fresh : mc_dpi_task_t)
    (pkt_infos0 : dpi_pkt_infos_t) (a : front_actors) (state : σ) :
    dpi_collapsed_emitter.svc K lib cb fresh pkt_infos0 a.fuse state =
      fuse_outcome (front_actors.step K lib cb fresh pkt_infos0 a state) := by
  unfold dpi_collapsed_emitter.svc front_actors.step fuse_outcome
  simp only [front_actors.fuse]
  rcases hsvc : dpi_L3_L4_emitter.svc K cb fresh a.L34Emitter with ⟨r, em⟩
  cases r with
  | none => simp [Except.map]
  | some b =>
    simp only [Option.isNone_some, Option.getD_some]
    cases hL7 : dpi_L7_emitter.svc K.DPI_MULTIPROCESSOR_DEFAULT_GRAIN_SIZE a.L7Emitter
        (dpi_L3_L4_worker.svc K lib a.L34Worker state pkt_infos0 b).1 with
    | error f => simp [Except.map]
    | ok e => simp [Except.map]

/-- Any number of steps: the fused node and the separate actors stay in
step. -/
theorem collapsed_run_eq_run {σ ρ : Type} (K : dpi_constants) (lib : dpi_library σ ρ)
    (cb : Nat → mc_dpi_packet_reading_result_t) (fresh : mc_dpi_task_t)
    (pkt_infos0 : dpi_pkt_infos_t) (fuel : Nat) :
    ∀ (a : front_actors) (state : σ),
    dpi_collapsed_emitter.run K lib cb fresh pkt_infos0 fuel a.fuse state =
      fuse_outcome (front_actors.run K lib cb fresh pkt_infos0 fuel a state) := by
  induction fuel with
  | zero => intro a state; rfl
  | succ fuel ih =>
    intro a state
    rw [dpi_collapsed_emitter.run, front_actors.run, collapsed_svc_eq_step]
    cases hstep : front_actors.step K lib cb fresh pkt_infos0 a state with
    | error f => rfl
    | ok x =>
      obtain ⟨r, a1, st1⟩ := x
      cases r with
      | FF_EOS => rfl
      | FF_GO_ON =>
        simp only [fuse_outcome, Except.map]
        exact ih a1 st1

/-- Claim C17 (collapsed emitter equivalence).  For every state of the three front
stages, every library state and every packet source, dpi_collapsed_emitter::svc
yields the same fault or the same result (FF_EOS or FF_GO_ON) and the same final
state (partial batches, sizes, waiting_tasks, dispatched batches, flags, pool,
read count, library state) as the composition over separate actors:
r = L34Emitter.step(); EOS if r is EOS; otherwise L7Emitter.step(L34Worker.step(r)).
The same holds for any number of consecutive steps, so fusing the three stages
does not change the sequence of batches dispatched to the L7 workers. -/
theorem C17_collapsed_equivalence {σ ρ : Type} (K : dpi_constants) (lib : dpi_library σ ρ)
    (cb : Nat → mc_dpi_packet_reading_result_t) (fresh : mc_dpi_task_t)
    (pkt_infos0 : dpi_pkt_infos_t) (ce : dpi_collapsed_emitter) (state : σ) :
    dpi_collapsed_emitter.svc K lib cb fresh pkt_infos0 ce state =
      fuse_outcome (front_actors.step K lib cb fresh pkt_infos0 ce.split state) ∧
    (∀ fuel : Nat,
      dpi_collapsed_emitter.run K lib cb fresh pkt_infos0 fuel ce state =
        fuse_outcome (front_actors.run K lib cb fresh pkt_infos0 fuel ce.split state)) ∧
    (∀ (fuel : Nat) (r : svc_result) (ce1 : dpi_collapsed_emitter) (st1 : σ),
      dpi_collapsed_emitter.run K lib cb fresh pkt_infos0 fuel ce state = .ok (r, ce1, st1) →
      ∃ a1, front_actors.run K lib cb fresh pkt_infos0 fuel ce.split state = .ok (r, a1, st1) ∧
        a1.L7Emitter.sent = ce1.L7_emitter.sent ∧
        a1.L7Emitter = ce1.L7_emitter ∧ a1.L34Emitter = ce1.L3_L4_emitter) := by
  have h1 := collapsed_svc_eq_step K lib cb fresh pkt_infos0 ce.split state
  have h2 := fun fuel => collapsed_run_eq_run K lib cb fresh pkt_infos0 fuel ce.split state
  rw [fuse_split] at h1
  simp only [fuse_split] at h2
  refine ⟨h1, h2, fun fuel r ce1 st1 hrun => ?_⟩
  rw [h2 fuel] at hrun
  cases hsep : front_actors.run K lib cb fresh pkt_infos0 fuel ce.split state with
  | error f =>
    rw [hsep] at hrun
    simp [fuse_outcome, Except.map] at hrun
  | ok x =>
    obtain ⟨r2, a1, st2⟩ := x
    rw [hsep] at hrun
    simp only [fuse_outcome, Except.map, Except.ok.injEq, Prod.mk.injEq] at hrun
    obtain ⟨hr, hce, hst⟩ := hrun
    subst hr hce hst
    exact ⟨a1, rfl, rfl, rfl, rfl⟩

/-! ## Properties of the L7 worker: the three paths of an iteration -/

/-- The error and fragment path: the status is propagated, nothing is called,
the loop goes on. -/
theorem L7w_slot_skipped {σ ρ : Type} (K : dpi_constants) (lib : dpi_library σ ρ)
    (worker_id : Nat) (temp : Nat → L3_L4_output_task_struct) (s : L7_loop σ ρ) (i : Nat)
    (h : skipped K (temp i)) :
    dpi_L7_worker.svc_slot K lib worker_id temp s i =
      ({ state := s.state,
         real_task := { s.real_task with
           L7_output_task_t := store s.real_task.L7_output_task_t i
             { result := { (s.real_task.L7_output_task_t i).result with
                 status := (temp i).status },
               user_pointer := (temp i).user_pointer } },
         events := s.events }, false) := by
  unfold dpi_L7_worker.svc_slot
  unfold skipped at h
  simp only []
  rw [if_pos h]
  simp

/-- The max_flows path: find-or-create yields no row; the status is
DPI_ERROR_MAX_FLOWS, the payload of a last fragment is released, the loop is
left. -/
theorem L7w_slot_max_flows {σ ρ : Type} (K : dpi_constants) (lib : dpi_library σ ρ)
    (worker_id : Nat) (temp : Nat → L3_L4_output_task_struct) (s : L7_loop σ ρ) (i : Nat)
    (h : ¬ skipped K (temp i))
    (hnone : (dpi_L7_worker.lookup K lib worker_id temp s i).1 = none) :
    dpi_L7_worker.svc_slot K lib worker_id temp s i =
      ({ state := (dpi_L7_worker.lookup K lib worker_id temp s i).2.2,
         real_task := { s.real_task with
           L7_output_task_t := store s.real_task.L7_output_task_t i
             { result := { (s.real_task.L7_output_task_t i).result with
                 status := K.DPI_ERROR_MAX_FLOWS },
               user_pointer := (temp i).user_pointer } },
         events := s.events ++
           ([if decide ((temp i).pkt_infos.ip_version = K.DPI_IP_VERSION_4)
             then L7_event.find_or_create_v4 i (temp i).hash_result
             else L7_event.find_or_create_v6 i (temp i).hash_result] ++
            if (temp i).status = K.DPI_STATUS_IP_LAST_FRAGMENT
            then [L7_event.free i (dpi_L7_worker.lookup K lib worker_id temp s i).2.1.pkt]
            else []) }, true) := by
  unfold dpi_L7_worker.lookup at hnone ⊢
  unfold dpi_L7_worker.svc_slot
  unfold skipped at h
  simp only []
  rw [if_neg h]
  simp only [hnone]

/-- The normal path: a row is found or created, the classifier runs, the row is
deleted when the verdict is TCP_CONNECTION_TERMINATED, the payload of a last
fragment is released, the loop goes on. -/
theorem L7w_slot_classified {σ ρ : Type} (K : dpi_constants) (lib : dpi_library σ ρ)
    (worker_id : Nat) (temp : Nat → L3_L4_output_task_struct) (s : L7_loop σ ρ) (i : Nat)
    (flow : ρ) (h : ¬ skipped K (temp i))
    (hsome : (dpi_L7_worker.lookup K lib worker_id temp s i).1 = some flow) :
    dpi_L7_worker.svc_slot K lib worker_id temp s i =
      ({ state :=
           if decide ((lib.dpi_stateless_get_app_protocol
               (dpi_L7_worker.lookup K lib worker_id temp s i).2.2 flow
               (dpi_L7_worker.lookup K lib worker_id temp s i).2.1).1.status =
               K.DPI_STATUS_TCP_CONNECTION_TERMINATED) then
             (if decide ((temp i).pkt_infos.ip_version = K.DPI_IP_VERSION_4) then
               lib.mc_dpi_flow_table_delete_flow_v4
                 (lib.dpi_stateless_get_app_protocol
                   (dpi_L7_worker.lookup K lib worker_id temp s i).2.2 flow
                   (dpi_L7_worker.lookup K lib worker_id temp s i).2.1).2.2 worker_id flow
              else
               lib.mc_dpi_flow_table_delete_flow_v6
                 (lib.dpi_stateless_get_app_protocol
                   (dpi_L7_worker.lookup K lib worker_id temp s i).2.2 flow
                   (dpi_L7_worker.lookup K lib worker_id temp s i).2.1).2.2 worker_id flow)
           else
             (lib.dpi_stateless_get_app_protocol
               (dpi_L7_worker.lookup K lib worker_id temp s i).2.2 flow
               (dpi_L7_worker.lookup K lib worker_id temp s i).2.1).2.2,
         real_task := { s.real_task with
           L7_output_task_t := store s.real_task.L7_output_task_t i
             { result := (lib.dpi_stateless_get_app_protocol
                 (dpi_L7_worker.lookup K lib worker_id temp s i).2.2 flow
                 (dpi_L7_worker.lookup K lib worker_id temp s i).2.1).1,
               user_pointer := (temp i).user_pointer } },
         events := s.events ++
           ([if decide ((temp i).pkt_infos.ip_version = K.DPI_IP_VERSION_4)
             then L7_event.find_or_create_v4 i (temp i).hash_result
             else L7_event.find_or_create_v6 i (temp i).hash_result] ++
            [L7_event.get_app_protocol i] ++
            (if decide ((lib.dpi_stateless_get_app_protocol
                (dpi_L7_worker.lookup K lib worker_id temp s i).2.2 flow
                (dpi_L7_worker.lookup K lib worker_id temp s i).2.1).1.status =
                K.DPI_STATUS_TCP_CONNECTION_TERMINATED)
             then [if decide ((temp i).pkt_infos.ip_version = K.DPI_IP_VERSION_4)
                   then L7_event.delete_flow_v4 i flow else L7_event.delete_flow_v6 i flow]
             else []) ++
            (if (temp i).status = K.DPI_STATUS_IP_LAST_FRAGMENT
             then [L7_event.free i (lib.dpi_stateless_get_app_protocol
                (dpi_L7_worker.lookup K lib worker_id temp s i).2.2 flow
                (dpi_L7_worker.lookup K lib worker_id temp s i).2.1).2.1.pkt]
             else [])) }, false) := by
  unfold dpi_L7_worker.lookup at hsome ⊢
  unfold dpi_L7_worker.svc_slot
  unfold skipped at h
  simp only []
  rw [if_neg h]
  simp only [hsome]

/-! ## Properties of the L7 worker: the loop -/

/-- An iteration writes output slot i only. -/
theorem L7w_slot_frame {σ ρ : Type} (K : dpi_constants) (lib : dpi_library σ ρ)
    (worker_id : Nat) (temp : Nat → L3_L4_output_task_struct) (s : L7_loop σ ρ) (i j : Nat)
    (hj : j ≠ i) :
    (dpi_L7_worker.svc_slot K lib worker_id temp s i).1.real_task.L7_output_task_t j =
      s.real_task.L7_output_task_t j := by
  by_cases h : skipped K (temp i)
  · rw [L7w_slot_skipped K lib worker_id temp s i h]
    exact store_other _ _ _ _ hj
  · cases hl : (dpi_L7_worker.lookup K lib worker_id temp s i).1 with
    | none =>
      rw [L7w_slot_max_flows K lib worker_id temp s i h hl]
      exact store_other _ _ _ _ hj
    | some flow =>
      rw [L7w_slot_classified K lib worker_id temp s i flow h hl]
      exact store_other _ _ _ _ hj

/-- An iteration only appends events, all of them for slot i, none of them when
the slot takes the error and fragment path. -/
theorem L7w_slot_events {σ ρ : Type} (K : dpi_constants) (lib : dpi_library σ ρ)
    (worker_id : Nat) (temp : Nat → L3_L4_output_task_struct) (s : L7_loop σ ρ) (i : Nat) :
    ∃ ev, (dpi_L7_worker.svc_slot K lib worker_id temp s i).1.events = s.events ++ ev ∧
      (∀ e ∈ ev, e.slot = i) ∧ (skipped K (temp i) → ev = []) := by
  by_cases h : skipped K (temp i)
  · rw [L7w_slot_skipped K lib worker_id temp s i h]
    exact ⟨[], by simp, by simp, fun _ => rfl⟩
  · cases hl : (dpi_L7_worker.lookup K lib worker_id temp s i).1 with
    | none =>
      rw [L7w_slot_max_flows K lib worker_id temp s i h hl]
      refine ⟨_, rfl, ?_, fun h2 => absurd h2 h⟩
      intro e he
      simp only [List.mem_append, List.mem_singleton] at he
      rcases he with he | he
      · subst he; split <;> rfl
      · split at he
        · simp only [List.mem_singleton] at he; subst he; rfl
        · simp at he
    | some flow =>
      rw [L7w_slot_classified K lib worker_id temp s i flow h hl]
      refine ⟨_, rfl, ?_, fun h2 => absurd h2 h⟩
      intro e he
      simp only [List.mem_append, List.mem_singleton] at he
      rcases he with ((he | he) | he) | he
      · subst he; split <;> rfl
      · subst he; rfl
      · split at he
        · simp only [List.mem_singleton] at he; subst he; split <;> rfl
        · simp at he
      · split at he
        · simp only [List.mem_singleton] at he; subst he; rfl
        · simp at he

/-- The loop from slot i on leaves the output slots below i alone and only
appends events for slots from i on that do not take the error and fragment
path. -/
theorem L7w_loop_frame {σ ρ : Type} (K : dpi_constants) (lib : dpi_library σ ρ)
    (worker_id : Nat) (temp : Nat → L3_L4_output_task_struct) (n : Nat) :
    ∀ (i : Nat) (s : L7_loop σ ρ),
    (∀ j, j < i →
      (dpi_L7_worker.svc_loop K lib worker_id temp n i s).real_task.L7_output_task_t j =
        s.real_task.L7_output_task_t j) ∧
    ∃ rest, (dpi_L7_worker.svc_loop K lib worker_id temp n i s).events = s.events ++ rest ∧
      ∀ e ∈ rest, i ≤ e.slot ∧ ¬ skipped K (temp e.slot) := by
  induction n with
  | zero =>
    intro i s
    exact ⟨fun j _ => rfl, [], by simp [dpi_L7_worker.svc_loop], by simp⟩
  | succ n ih =>
    intro i s
    obtain ⟨ev, hev, hslot, hskip⟩ := L7w_slot_events K lib worker_id temp s i
    have hev2 : ∀ e ∈ ev, i ≤ e.slot ∧ ¬ skipped K (temp e.slot) := by
      intro e he
      refine ⟨by rw [hslot e he], fun hs => ?_⟩
      rw [hslot e he] at hs
      rw [hskip hs] at he
      simp at he
    rw [dpi_L7_worker.svc_loop]
    split
    · exact ⟨fun j hj => L7w_slot_frame K lib worker_id temp s i j (by omega),
        ev, hev, hev2⟩
    · obtain ⟨h1, rest, h2, h3⟩ := ih (i + 1)
        (dpi_L7_worker.svc_slot K lib worker_id temp s i).1
      refine ⟨fun j hj => ?_, ev ++ rest, ?_, ?_⟩
      · rw [h1 j (by omega)]
        exact L7w_slot_frame K lib worker_id temp s i j (by omega)
      · rw [h2, hev, List.append_assoc]
      · intro e he
        rcases List.mem_append.mp he with he | he
        · exact hev2 e he
        · exact ⟨by have := (h3 e he).1; omega, (h3 e he).2⟩

/-- When the loop reaches slot i, the rest of the run is the loop from there. -/
theorem L7w_loop_of_reach {σ ρ : Type} (K : dpi_constants) (lib : dpi_library σ ρ)
    (worker_id : Nat) (temp : Nat → L3_L4_output_task_struct) (s0 : L7_loop σ ρ) (i : Nat) :
    ∀ (s : L7_loop σ ρ) (n : Nat),
    dpi_L7_worker.reach K lib worker_id temp s0 i = some s →
    dpi_L7_worker.svc_loop K lib worker_id temp (i + n) 0 s0 =
      dpi_L7_worker.svc_loop K lib worker_id temp n i s := by
  induction i with
  | zero =>
    intro s n h
    simp only [dpi_L7_worker.reach, Option.some.injEq] at h
    subst h
    simp
  | succ i ih =>
    intro s n h
    rw [dpi_L7_worker.reach] at h
    cases hr : dpi_L7_worker.reach K lib worker_id temp s0 i with
    | none => rw [hr] at h; simp at h
    | some s1 =>
      rw [hr] at h
      simp only [] at h
      split at h
      · simp at h
      · rename_i hb
        simp only [Option.some.injEq] at h
        have e : i + 1 + n = i + (n + 1) := by omega
        rw [e, ih s1 (n + 1) hr, dpi_L7_worker.svc_loop]
        rw [if_neg hb, h]

/-- When the loop reaches slot i, every event so far is for a slot below i. -/
theorem L7w_reach_events {σ ρ : Type} (K : dpi_constants) (lib : dpi_library σ ρ)
    (worker_id : Nat) (temp : Nat → L3_L4_output_task_struct) (s0 : L7_loop σ ρ)
    (h0 : s0.events = []) (i : Nat) :
    ∀ (s : L7_loop σ ρ), dpi_L7_worker.reach K lib worker_id temp s0 i = some s →
      ∀ e ∈ s.events, e.slot < i := by
  induction i with
  | zero =>
    intro s h
    simp only [dpi_L7_worker.reach, Option.some.injEq] at h
    subst h
    rw [h0]
    simp
  | succ i ih =>
    intro s h
    rw [dpi_L7_worker.reach] at h
    cases hr : dpi_L7_worker.reach K lib worker_id temp s0 i with
    | none => rw [hr] at h; simp at h
    | some s1 =>
      rw [hr] at h
      simp only [] at h
      split at h
      · simp at h
      · simp only [Option.some.injEq] at h
        subst h
        obtain ⟨ev, hev, hslot, -⟩ := L7w_slot_events K lib worker_id temp s1 i
        rw [hev]
        intro e he
        rcases List.mem_append.mp he with he | he
        · have := ih s1 hr e he
          omega
        · rw [hslot e he]
          omega

theorem L7w_scratch_lt (K : dpi_constants) (task : mc_dpi_task_t) (i : Nat)
    (hi : i < K.DPI_MULTIPROCESSOR_DEFAULT_GRAIN_SIZE) :
    dpi_L7_worker.scratch K task i = task.L3_L4_output_task_t i := by
  simp [dpi_L7_worker.scratch, memcpy, hi]

/-- When the run reaches slot i of the batch, its outcome is the outcome of
iteration i if that one breaks, and of the loop from slot i + 1 otherwise. -/
theorem L7w_svc_of_before {σ ρ : Type} (K : dpi_constants) (lib : dpi_library σ ρ)
    (worker_id : Nat) (state : σ) (task : mc_dpi_task_t) (i : Nat) (s : L7_loop σ ρ)
    (hi : i < K.DPI_MULTIPROCESSOR_DEFAULT_GRAIN_SIZE)
    (hreach : dpi_L7_worker.before K lib worker_id state task i = some s) :
    dpi_L7_worker.svc_loop K lib worker_id (dpi_L7_worker.scratch K task)
        K.DPI_MULTIPROCESSOR_DEFAULT_GRAIN_SIZE 0 ⟨state, task, []⟩ =
      if (dpi_L7_worker.svc_slot K lib worker_id (dpi_L7_worker.scratch K task) s i).2 then
        (dpi_L7_worker.svc_slot K lib worker_id (dpi_L7_worker.scratch K task) s i).1
      else
        dpi_L7_worker.svc_loop K lib worker_id (dpi_L7_worker.scratch K task)
          (K.DPI_MULTIPROCESSOR_DEFAULT_GRAIN_SIZE - i - 1) (i + 1)
          (dpi_L7_worker.svc_slot K lib worker_id (dpi_L7_worker.scratch K task) s i).1 := by
  have e : K.DPI_MULTIPROCESSOR_DEFAULT_GRAIN_SIZE =
      i + ((K.DPI_MULTIPROCESSOR_DEFAULT_GRAIN_SIZE - i - 1) + 1) := by omega
  conv_lhs => rw [e]
  rw [L7w_loop_of_reach K lib worker_id _ _ i s _ hreach, dpi_L7_worker.svc_loop]

/-- Claim C12 (table exhaustion in dpi_L7_worker::svc).  When the run reaches slot i
of the batch, the slot is not on the error and fragment path, and
find-or-create returns no flow row for it: output slot i has status
DPI_ERROR_MAX_FLOWS, the classifier is not invoked for slot i, and the batch is
truncated, every call the step makes (flow lookup, classification, flow
deletion, payload free) being for a slot at or below i; the step ends in the
library state the failed find-or-create left. -/
theorem C12_table_exhaustion {σ ρ : Type} (K : dpi_constants) (lib : dpi_library σ ρ)
    (worker_id : Nat) (state : σ) (task : mc_dpi_task_t) (i : Nat) (s : L7_loop σ ρ)
    (hi : i < K.DPI_MULTIPROCESSOR_DEFAULT_GRAIN_SIZE)
    (hreach : dpi_L7_worker.before K lib worker_id state task i = some s)
    (hok : ¬ skipped K (task.L3_L4_output_task_t i))
    (hnone : (dpi_L7_worker.lookup K lib worker_id (dpi_L7_worker.scratch K task) s i).1
      = none) :
    ((dpi_L7_worker.svc K lib worker_id state task).1.L7_output_task_t i).result.status =
      K.DPI_ERROR_MAX_FLOWS ∧
    (∀ e ∈ (dpi_L7_worker.svc K lib worker_id state task).2.2,
      e.slot = i → e.is_get_app_protocol = false) ∧
    (∀ e ∈ (dpi_L7_worker.svc K lib worker_id state task).2.2, e.slot ≤ i) ∧
    (dpi_L7_worker.svc K lib worker_id state task).2.1 =
      (dpi_L7_worker.lookup K lib worker_id (dpi_L7_worker.scratch K task) s i).2.2 := by
  have hok2 : ¬ skipped K (dpi_L7_worker.scratch K task i) := by
    rw [L7w_scratch_lt K task i hi]; exact hok
  have hfin := L7w_svc_of_before K lib worker_id state task i s hi hreach
  have hslot := L7w_slot_max_flows K lib worker_id (dpi_L7_worker.scratch K task) s i
    hok2 hnone
  rw [hslot] at hfin
  simp only [if_true] at hfin
  have hbefore := L7w_reach_events K lib worker_id (dpi_L7_worker.scratch K task)
    ⟨state, task, []⟩ rfl i s hreach
  have hsvc : dpi_L7_worker.svc K lib worker_id state task =
      ((dpi_L7_worker.svc_loop K lib worker_id (dpi_L7_worker.scratch K task)
          K.DPI_MULTIPROCESSOR_DEFAULT_GRAIN_SIZE 0 ⟨state, task, []⟩).real_task,
       (dpi_L7_worker.svc_loop K lib worker_id (dpi_L7_worker.scratch K task)
          K.DPI_MULTIPROCESSOR_DEFAULT_GRAIN_SIZE 0 ⟨state, task, []⟩).state,
       (dpi_L7_worker.svc_loop K lib worker_id (dpi_L7_worker.scratch K task)
          K.DPI_MULTIPROCESSOR_DEFAULT_GRAIN_SIZE 0 ⟨state, task, []⟩).events) := rfl
  rw [hsvc, hfin]
  refine ⟨by simp [store], fun e he hs => ?_, fun e he => ?_, rfl⟩
  · simp only [List.mem_append, List.mem_singleton] at he
    rcases he with he | he | he
    · have := hbefore e he
      omega
    · subst he; split <;> rfl
    · split at he
      · simp only [List.mem_singleton] at he; subst he; rfl
      · simp at he
  · simp only [List.mem_append, List.mem_singleton] at he
    rcases he with he | he | he
    · have := hbefore e he
      omega
    · subst he; split <;> exact le_refl _
    · split at he
      · simp only [List.mem_singleton] at he; subst he; exact le_refl _
      · simp at he

/-- Witness for C12: grain size 2, a worker whose table has no room (library state
0), a batch of two slots with status 0; slot 0 is where find-or-create fails. -/
theorem C12_table_exhaustion_witness :
    ((dpi_L7_worker.svc K2 toy 0 (0 : Nat)
        (task_of_outputs [out_slot 0 1, out_slot 0 2])).1.L7_output_task_t 0).result.status =
      K2.DPI_ERROR_MAX_FLOWS ∧
    (∀ e ∈ (dpi_L7_worker.svc K2 toy 0 (0 : Nat)
        (task_of_outputs [out_slot 0 1, out_slot 0 2])).2.2,
      e.slot = 0 → e.is_get_app_protocol = false) ∧
    (∀ e ∈ (dpi_L7_worker.svc K2 toy 0 (0 : Nat)
        (task_of_outputs [out_slot 0 1, out_slot 0 2])).2.2, e.slot ≤ 0) ∧
    (dpi_L7_worker.svc K2 toy 0 (0 : Nat)
        (task_of_outputs [out_slot 0 1, out_slot 0 2])).2.1 =
      (dpi_L7_worker.lookup K2 toy 0
        (dpi_L7_worker.scratch K2 (task_of_outputs [out_slot 0 1, out_slot 0 2]))
        ⟨0, task_of_outputs [out_slot 0 1, out_slot 0 2], []⟩ 0).2.2 :=
  C12_table_exhaustion K2 toy 0 (0 : Nat) (task_of_outputs [out_slot 0 1, out_slot 0 2]) 0
    ⟨0, task_of_outputs [out_slot 0 1, out_slot 0 2], []⟩ (by decide) rfl (by decide)
    (by decide)

/-- A stretch of slots that all take the error and fragment path leaves the
library state and the record of calls as they were. -/
theorem L7w_loop_all_skipped {σ ρ : Type} (K : dpi_constants) (lib : dpi_library σ ρ)
    (worker_id : Nat) (temp : Nat → L3_L4_output_task_struct) (n : Nat) :
    ∀ (i : Nat) (s : L7_loop σ ρ),
    (∀ j, i ≤ j → j < i + n → skipped K (temp j)) →
    (dpi_L7_worker.svc_loop K lib worker_id temp n i s).state = s.state ∧
    (dpi_L7_worker.svc_loop K lib worker_id temp n i s).events = s.events := by
  induction n with
  | zero => intro i s _; exact ⟨rfl, rfl⟩
  | succ n ih =>
    intro i s h
    rw [dpi_L7_worker.svc_loop, L7w_slot_skipped K lib worker_id temp s i
      (h i (le_refl i) (by omega))]
    simp only [Bool.false_eq_true, if_false]
    exact ih (i + 1) _ (fun j h1 h2 => h j (by omega) (by omega))

/-- What dpi_L7_worker::svc does on an error or fragment slot it visits (lines
403-414).  For every slot i below the grain size whose L3/L4 status is negative
or IP_FRAGMENT: when the run reaches the slot, its output result status is that
status and its user_pointer is carried; whether it is reached or not, the step
makes no flow-table find-or-create, no classifier call, no flow deletion and no
payload free for it; and a batch whose G slots are all such slots leaves the
library state (both flow tables) unchanged and makes no call at all. -/
theorem L7w_error_and_fragment_reached {σ ρ : Type} (K : dpi_constants)
    (lib : dpi_library σ ρ) (worker_id : Nat) (state : σ) (task : mc_dpi_task_t) (i : Nat)
    (hi : i < K.DPI_MULTIPROCESSOR_DEFAULT_GRAIN_SIZE)
    (hskip : skipped K (task.L3_L4_output_task_t i)) :
    ((∃ s, dpi_L7_worker.before K lib worker_id state task i = some s) →
      ((dpi_L7_worker.svc K lib worker_id state task).1.L7_output_task_t i).result.status =
        (task.L3_L4_output_task_t i).status ∧
      ((dpi_L7_worker.svc K lib worker_id state task).1.L7_output_task_t i).user_pointer =
        (task.L3_L4_output_task_t i).user_pointer) ∧
    (∀ e ∈ (dpi_L7_worker.svc K lib worker_id state task).2.2, e.slot ≠ i) ∧
    ((∀ j, j < K.DPI_MULTIPROCESSOR_DEFAULT_GRAIN_SIZE →
        skipped K (task.L3_L4_output_task_t j)) →
      (dpi_L7_worker.svc K lib worker_id state task).2.1 = state ∧
      (dpi_L7_worker.svc K lib worker_id state task).2.2 = []) := by
  have hskip2 : skipped K (dpi_L7_worker.scratch K task i) := by
    rw [L7w_scratch_lt K task i hi]; exact hskip
  have hsvc : dpi_L7_worker.svc K lib worker_id state task =
      ((dpi_L7_worker.svc_loop K lib worker_id (dpi_L7_worker.scratch K task)
          K.DPI_MULTIPROCESSOR_DEFAULT_GRAIN_SIZE 0 ⟨state, task, []⟩).real_task,
       (dpi_L7_worker.svc_loop K lib worker_id (dpi_L7_worker.scratch K task)
          K.DPI_MULTIPROCESSOR_DEFAULT_GRAIN_SIZE 0 ⟨state, task, []⟩).state,
       (dpi_L7_worker.svc_loop K lib worker_id (dpi_L7_worker.scratch K task)
          K.DPI_MULTIPROCESSOR_DEFAULT_GRAIN_SIZE 0 ⟨state, task, []⟩).events) := rfl
  refine ⟨?_, ?_, ?_⟩
  · rintro ⟨s, hreach⟩
    have hfin := L7w_svc_of_before K lib worker_id state task i s hi hreach
    rw [L7w_slot_skipped K lib worker_id (dpi_L7_worker.scratch K task) s i hskip2] at hfin
    simp only [Bool.false_eq_true, if_false] at hfin
    rw [hsvc, hfin]
    simp only []
    rw [(L7w_loop_frame K lib worker_id (dpi_L7_worker.scratch K task) _ (i + 1) _).1 i
      (by omega)]
    simp only [store_same]
    rw [L7w_scratch_lt K task i hi]
    exact ⟨rfl, rfl⟩
  · intro e he hs
    obtain ⟨-, rest, h2, h3⟩ := L7w_loop_frame K lib worker_id (dpi_L7_worker.scratch K task)
      K.DPI_MULTIPROCESSOR_DEFAULT_GRAIN_SIZE 0 ⟨state, task, []⟩
    rw [hsvc] at he
    simp only [] at he
    rw [h2] at he
    simp only [List.nil_append] at he
    have := (h3 e he).2
    rw [hs] at this
    exact this hskip2
  · intro hall
    obtain ⟨h1, h2⟩ := L7w_loop_all_skipped K lib worker_id (dpi_L7_worker.scratch K task)
      K.DPI_MULTIPROCESSOR_DEFAULT_GRAIN_SIZE 0 ⟨state, task, []⟩
      (fun j _ hj => by
        rw [L7w_scratch_lt K task j (by omega)]
        exact hall j (by omega))
    rw [hsvc]
    exact ⟨h1, h2⟩

/-- The visited-slot behaviour on a batch of grain size 2 whose first slot failed to
parse (status -1) and whose second is a fragment (status 1). -/
theorem L7w_error_and_fragment_reached_example :
    ((∃ s, dpi_L7_worker.before K2 toy 0 (1 : Nat)
        (task_of_outputs [{ out_slot 0 1 with status := -1 },
          { out_slot 0 2 with status := 1 }]) 0 = some s) →
      ((dpi_L7_worker.svc K2 toy 0 (1 : Nat)
        (task_of_outputs [{ out_slot 0 1 with status := -1 },
          { out_slot 0 2 with status := 1 }])).1.L7_output_task_t 0).result.status =
        ((task_of_outputs [{ out_slot 0 1 with status := -1 },
          { out_slot 0 2 with status := 1 }]).L3_L4_output_task_t 0).status ∧
      ((dpi_L7_worker.svc K2 toy 0 (1 : Nat)
        (task_of_outputs [{ out_slot 0 1 with status := -1 },
          { out_slot 0 2 with status := 1 }])).1.L7_output_task_t 0).user_pointer =
        ((task_of_outputs [{ out_slot 0 1 with status := -1 },
          { out_slot 0 2 with status := 1 }]).L3_L4_output_task_t 0).user_pointer) ∧
    (∀ e ∈ (dpi_L7_worker.svc K2 toy 0 (1 : Nat)
        (task_of_outputs [{ out_slot 0 1 with status := -1 },
          { out_slot 0 2 with status := 1 }])).2.2, e.slot ≠ 0) ∧
    ((∀ j, j < K2.DPI_MULTIPROCESSOR_DEFAULT_GRAIN_SIZE →
        skipped K2 ((task_of_outputs [{ out_slot 0 1 with status := -1 },
          { out_slot 0 2 with status := 1 }]).L3_L4_output_task_t j)) →
      (dpi_L7_worker.svc K2 toy 0 (1 : Nat)
        (task_of_outputs [{ out_slot 0 1 with status := -1 },
          { out_slot 0 2 with status := 1 }])).2.1 = 1 ∧
      (dpi_L7_worker.svc K2 toy 0 (1 : Nat)
        (task_of_outputs [{ out_slot 0 1 with status := -1 },
          { out_slot 0 2 with status := 1 }])).2.2 = []) :=
  L7w_error_and_fragment_reached K2 toy 0 (1 : Nat)
    (task_of_outputs [{ out_slot 0 1 with status := -1 }, { out_slot 0 2 with status := 1 }])
    0 (by decide) (by decide)

/-- Claim C11 (error and fragment slots in dpi_L7_worker::svc): a defect of the
code.  Grain size 2, a worker whose flow table has no room (library state 0);
slot 0 has status 0 and gets DPI_ERROR_MAX_FLOWS, which ends the loop with the
break of line 439; slot 1 has the negative L3/L4 status -1 and is never
visited (the run does not reach it), so its output result status is not -1:
the output slot still reads what the batch memory held (55).  The step makes
no call for slot 1.  The same batch on a worker whose table has room (library
state 1) visits slot 1 and writes -1 there, as the code does on every slot it
visits. -/
theorem C11_status_not_propagated_after_max_flows :
    skipped K2 ((task_of_outputs [out_slot 0 1, { out_slot 0 2 with status := -1 }]
      ).L3_L4_output_task_t 1) ∧
    ((dpi_L7_worker.svc K2 toy 0 (0 : Nat)
        { task_of_outputs [out_slot 0 1, { out_slot 0 2 with status := -1 }] with
          L7_output_task_t := fun _ => ⟨⟨55, 0⟩, 99⟩ }).1.L7_output_task_t 0).result.status
      = K2.DPI_ERROR_MAX_FLOWS ∧
    ((dpi_L7_worker.svc K2 toy 0 (0 : Nat)
        { task_of_outputs [out_slot 0 1, { out_slot 0 2 with status := -1 }] with
          L7_output_task_t := fun _ => ⟨⟨55, 0⟩, 99⟩ }).1.L7_output_task_t 1).result.status
      = 55 ∧
    ((dpi_L7_worker.svc K2 toy 0 (0 : Nat)
        { task_of_outputs [out_slot 0 1, { out_slot 0 2 with status := -1 }] with
          L7_output_task_t := fun _ => ⟨⟨55, 0⟩, 99⟩ }).1.L7_output_task_t 1).result.status
      ≠ ((task_of_outputs [out_slot 0 1, { out_slot 0 2 with status := -1 }]
        ).L3_L4_output_task_t 1).status ∧
    dpi_L7_worker.before K2 toy 0 (0 : Nat)
        { task_of_outputs [out_slot 0 1, { out_slot 0 2 with status := -1 }] with
          L7_output_task_t := fun _ => ⟨⟨55, 0⟩, 99⟩ } 1 = none ∧
    (∀ e ∈ (dpi_L7_worker.svc K2 toy 0 (0 : Nat)
        { task_of_outputs [out_slot 0 1, { out_slot 0 2 with status := -1 }] with
          L7_output_task_t := fun _ => ⟨⟨55, 0⟩, 99⟩ }).2.2, e.slot ≠ 1) ∧
    ((dpi_L7_worker.svc K2 toy 0 (1 : Nat)
        { task_of_outputs [out_slot 0 1, { out_slot 0 2 with status := -1 }] with
          L7_output_task_t := fun _ => ⟨⟨55, 0⟩, 99⟩ }).1.L7_output_task_t 1).result.status
      = -1 := by
  refine ⟨by decide, by decide, by decide, by decide, rfl, by decide, by decide⟩

/-! ## Properties of the L7 worker: flow teardown -/

theorem deletions_for_append {ρ : Type} (a b : List (L7_event ρ)) (i : Nat) :
    deletions_for (a ++ b) i = deletions_for a i ++ deletions_for b i := by
  simp [deletions_for, List.filter_append]

theorem deletions_for_other {ρ : Type} (a : List (L7_event ρ)) (i : Nat)
    (h : ∀ e ∈ a, e.slot ≠ i) : deletions_for a i = [] := by
  unfold deletions_for
  rw [List.filter_eq_nil_iff]
  intro e he
  simp [h e he]

/-- On the normal path the loop goes on to slot i + 1 in the state the
iteration left. -/
theorem L7w_before_succ {σ ρ : Type} (K : dpi_constants) (lib : dpi_library σ ρ)
    (worker_id : Nat) (state : σ) (task : mc_dpi_task_t) (i : Nat) (s : L7_loop σ ρ)
    (hreach : dpi_L7_worker.before K lib worker_id state task i = some s)
    (hgo : (dpi_L7_worker.svc_slot K lib worker_id (dpi_L7_worker.scratch K task) s i).2
      = false) :
    dpi_L7_worker.before K lib worker_id state task (i + 1) =
      some (dpi_L7_worker.svc_slot K lib worker_id (dpi_L7_worker.scratch K task) s i).1 := by
  unfold dpi_L7_worker.before at hreach ⊢
  rw [dpi_L7_worker.reach, hreach]
  simp only [hgo, Bool.false_eq_true, if_false]

/-- The deletions among the events of one iteration on the normal path. -/
theorem deletions_for_classified {ρ : Type} (i h : Nat) (flow : ρ) (pkt : Nat)
    (v4 terminated last : Prop) [Decidable v4] [Decidable terminated] [Decidable last] :
    deletions_for
      ([if decide v4 then L7_event.find_or_create_v4 i h
        else L7_event.find_or_create_v6 i h] ++
       [L7_event.get_app_protocol i] ++
       (if decide terminated
        then [if decide v4 then L7_event.delete_flow_v4 i flow
              else L7_event.delete_flow_v6 i flow]
        else []) ++
       (if last then [L7_event.free i pkt] else [])) i =
    if terminated then
      [if v4 then L7_event.delete_flow_v4 i flow else L7_event.delete_flow_v6 i flow]
    else [] := by
  by_cases a : v4 <;> by_cases b : terminated <;> by_cases c : last <;>
    simp [deletions_for, a, b, c, L7_event.is_delete, L7_event.slot]

/-- Claim C13 (flow teardown in dpi_L7_worker::svc).  For every processed slot i
(reached by the loop, not on the error and fragment path, its flow row found
or created): the step deletes that row exactly once when the classifier result
status is DPI_STATUS_TCP_CONNECTION_TERMINATED, from the v4 table when
ip_version is 4 and from the v6 table otherwise, with this worker's id and on
the library state that holds the registered cleanup callback, and makes no
deletion for the slot otherwise; the loop goes on in the state the deletion (or
else the classifier) left.  Under the specification's account of the flow
table, a terminating packet therefore lowers the row count of this worker's
shard by 1 and leaves the row counts of all other workers' shards as they
were. -/
theorem C13_flow_teardown {σ ρ : Type} (K : dpi_constants) (lib : dpi_library σ ρ)
    (worker_id : Nat) (state : σ) (task : mc_dpi_task_t) (i : Nat) (s : L7_loop σ ρ)
    (flow : ρ) (hi : i < K.DPI_MULTIPROCESSOR_DEFAULT_GRAIN_SIZE)
    (hreach : dpi_L7_worker.before K lib worker_id state task i = some s)
    (hok : ¬ skipped K (task.L3_L4_output_task_t i))
    (hsome : (dpi_L7_worker.lookup K lib worker_id (dpi_L7_worker.scratch K task) s i).1
      = some flow) :
    let f := dpi_L7_worker.lookup K lib worker_id (dpi_L7_worker.scratch K task) s i
    let c := lib.dpi_stateless_get_app_protocol f.2.2 flow f.2.1
    let after_slot : σ :=
      if c.1.status = K.DPI_STATUS_TCP_CONNECTION_TERMINATED then
        (if (task.L3_L4_output_task_t i).pkt_infos.ip_version = K.DPI_IP_VERSION_4 then
          lib.mc_dpi_flow_table_delete_flow_v4 c.2.2 worker_id flow
         else lib.mc_dpi_flow_table_delete_flow_v6 c.2.2 worker_id flow)
      else c.2.2
    (deletions_for (dpi_L7_worker.svc K lib worker_id state task).2.2 i =
      if c.1.status = K.DPI_STATUS_TCP_CONNECTION_TERMINATED then
        [if (task.L3_L4_output_task_t i).pkt_infos.ip_version = K.DPI_IP_VERSION_4
         then L7_event.delete_flow_v4 i flow else L7_event.delete_flow_v6 i flow]
      else []) ∧
    (∃ s1, dpi_L7_worker.before K lib worker_id state task (i + 1) = some s1 ∧
      s1.state = after_slot) ∧
    (∀ (rows4 rows6 : σ → Nat → Nat) (in4 in6 : σ → Nat → ρ → Prop),
      flow_shards lib rows4 rows6 in4 in6 →
      c.1.status = K.DPI_STATUS_TCP_CONNECTION_TERMINATED →
      ((task.L3_L4_output_task_t i).pkt_infos.ip_version = K.DPI_IP_VERSION_4 →
        rows4 after_slot worker_id + 1 = rows4 c.2.2 worker_id ∧
        ∀ w2, w2 ≠ worker_id → rows4 after_slot w2 = rows4 c.2.2 w2) ∧
      ((task.L3_L4_output_task_t i).pkt_infos.ip_version ≠ K.DPI_IP_VERSION_4 →
        rows6 after_slot worker_id + 1 = rows6 c.2.2 worker_id ∧
        ∀ w2, w2 ≠ worker_id → rows6 after_slot w2 = rows6 c.2.2 w2)) := by
  intro f c after_slot
  have hsc := L7w_scratch_lt K task i hi
  have hok2 : ¬ skipped K (dpi_L7_worker.scratch K task i) := by rw [hsc]; exact hok
  have hslot := L7w_slot_classified K lib worker_id (dpi_L7_worker.scratch K task) s i flow
    hok2 hsome
  have hgo : (dpi_L7_worker.svc_slot K lib worker_id (dpi_L7_worker.scratch K task) s i).2
      = false := by rw [hslot]
  have hnext := L7w_before_succ K lib worker_id state task i s hreach hgo
  have hfin := L7w_svc_of_before K lib worker_id state task i s hi hreach
  rw [if_neg (by rw [hgo]; simp)] at hfin
  obtain ⟨-, rest, hrest, hrest2⟩ := L7w_loop_frame K lib worker_id
    (dpi_L7_worker.scratch K task) (K.DPI_MULTIPROCESSOR_DEFAULT_GRAIN_SIZE - i - 1) (i + 1)
    (dpi_L7_worker.svc_slot K lib worker_id (dpi_L7_worker.scratch K task) s i).1
  have hbefore := L7w_reach_events K lib worker_id (dpi_L7_worker.scratch K task)
    ⟨state, task, []⟩ rfl i s hreach
  have hev : (dpi_L7_worker.svc K lib worker_id state task).2.2 =
      (dpi_L7_worker.svc_slot K lib worker_id (dpi_L7_worker.scratch K task) s i).1.events
        ++ rest := by
    rw [← hrest, ← hfin]
    rfl
  refine ⟨?_, ⟨_, hnext, ?_⟩, ?_⟩
  · rw [hev, hslot]
    simp only []
    rw [deletions_for_append, deletions_for_append,
      deletions_for_other s.events i (fun e he => by have := hbefore e he; omega),
      deletions_for_other rest i (fun e he => by have := (hrest2 e he).1; omega),
      deletions_for_classified, hsc]
    simp
  · rw [hslot]
    simp only [hsc, decide_eq_true_eq]
  · intro rows4 rows6 in4 in6 hspec hterm
    have hterm2 : c.1.status = K.DPI_STATUS_TCP_CONNECTION_TERMINATED := hterm
    refine ⟨fun hv4 => ?_, fun hv6 => ?_⟩
    · have hin : in4 c.2.2 worker_id flow := by
        apply hspec.classified_v4
        have hf := hspec.found_v4 s.state worker_id
          (dpi_L7_worker.scratch K task i).hash_result
          (dpi_L7_worker.scratch K task i).pkt_infos flow
        have hl : f = lib.mc_dpi_flow_table_find_or_create_flow_v4 s.state worker_id
            (dpi_L7_worker.scratch K task i).hash_result
            (dpi_L7_worker.scratch K task i).pkt_infos := by
          show dpi_L7_worker.lookup K lib worker_id (dpi_L7_worker.scratch K task) s i = _
          unfold dpi_L7_worker.lookup
          rw [hsc]
          simp [hv4]
        rw [hl]
        apply hf
        rw [← hl]
        exact hsome
      have hd := hspec.delete_v4 c.2.2 worker_id flow hin
      have ha : after_slot = lib.mc_dpi_flow_table_delete_flow_v4 c.2.2 worker_id flow := by
        show (if c.1.status = K.DPI_STATUS_TCP_CONNECTION_TERMINATED then _ else _) = _
        rw [if_pos hterm2, if_pos hv4]
      rw [ha]
      exact hd
    · have hin : in6 c.2.2 worker_id flow := by
        apply hspec.classified_v6
        have hf := hspec.found_v6 s.state worker_id
          (dpi_L7_worker.scratch K task i).hash_result
          (dpi_L7_worker.scratch K task i).pkt_infos flow
        have hl : f = lib.mc_dpi_flow_table_find_or_create_flow_v6 s.state worker_id
            (dpi_L7_worker.scratch K task i).hash_result
            (dpi_L7_worker.scratch K task i).pkt_infos := by
          show dpi_L7_worker.lookup K lib worker_id (dpi_L7_worker.scratch K task) s i = _
          unfold dpi_L7_worker.lookup
          rw [hsc]
          simp [hv6]
        rw [hl]
        apply hf
        rw [← hl]
        exact hsome
      have hd := hspec.delete_v6 c.2.2 worker_id flow hin
      have ha : after_slot = lib.mc_dpi_flow_table_delete_flow_v6 c.2.2 worker_id flow := by
        show (if c.1.status = K.DPI_STATUS_TCP_CONNECTION_TERMINATED then _ else _) = _
        rw [if_pos hterm2, if_neg hv6]
      rw [ha]
      exact hd

theorem toy_rows_erase_own (st : List (Nat × Nat)) (w f : Nat) (h : (w, f) ∈ st) :
    toy_rows (st.erase (w, f)) w + 1 = toy_rows st w := by
  induction st with
  | nil => simp at h
  | cons a t ih =>
    by_cases ha : a = (w, f)
    · subst ha
      simp [toy_rows]
    · have ht : (w, f) ∈ t := by
        rcases List.mem_cons.mp h with h1 | h1
        · exact absurd h1.symm ha
        · exact h1
      have := ih ht
      rw [List.erase_cons_tail (by simpa using ha)]
      unfold toy_rows at this ⊢
      by_cases hw : a.1 = w
      · simp only [List.filter_cons, hw, decide_True, if_true, List.length_cons]
        omega
      · simp only [List.filter_cons, hw, decide_False]
        exact this

theorem toy_rows_erase_other (st : List (Nat × Nat)) (w f w2 : Nat) (h : w2 ≠ w) :
    toy_rows (st.erase (w, f)) w2 = toy_rows st w2 := by
  induction st with
  | nil => rfl
  | cons a t ih =>
    by_cases ha : a = (w, f)
    · subst ha
      simp [toy_rows, h.symm]
    · rw [List.erase_cons_tail (by simpa using ha)]
      unfold toy_rows at ih ⊢
      by_cases hw : a.1 = w2
      · simp only [List.filter_cons, hw, decide_True, if_true, List.length_cons, ih]
      · simp only [List.filter_cons, hw, decide_False]
        exact ih

/-- The toy table behaves as the specification says a flow table does. -/
theorem toy_table_shards :
    flow_shards toy_table toy_rows toy_rows
      (fun st w f => (w, f) ∈ st) (fun st w f => (w, f) ∈ st) := by
  constructor
  · intro st w h p f hf
    simp only [toy_table, Option.some.injEq] at hf ⊢
    subst hf
    split
    · assumption
    · exact List.mem_cons_self _ _
  · intro st w h p f hf
    simp only [toy_table, Option.some.injEq] at hf ⊢
    subst hf
    split
    · assumption
    · exact List.mem_cons_self _ _
  · intro st w f g p h
    exact h
  · intro st w f g p h
    exact h
  · intro st w f h
    exact ⟨toy_rows_erase_own st w f h, fun w2 h2 => toy_rows_erase_other st w f w2 h2⟩
  · intro st w f h
    exact ⟨toy_rows_erase_own st w f h, fun w2 h2 => toy_rows_erase_other st w f w2 h2⟩

/-- Witness for C13: worker 0 on the toy table, grain size 2; slot 0 is a packet of
flow 3 whose classification ends the connection.  The step deletes row 3 of
the v4 table once for slot 0, and the shard of worker 0 loses one row. -/
theorem C13_flow_teardown_witness :
    deletions_for (dpi_L7_worker.svc K2 toy_table 0 [] teardown_batch).2.2 0 =
      [L7_event.delete_flow_v4 0 3] ∧
    toy_rows (toy_table.mc_dpi_flow_table_delete_flow_v4 [(0, 3)] 0 3) 0 + 1 =
      toy_rows [(0, 3)] 0 := by
  have h := C13_flow_teardown K2 toy_table 0 [] teardown_batch 0
    ⟨[], teardown_batch, []⟩ 3 (by decide) rfl (by decide) rfl
  have h3 := (h.2.2 toy_rows toy_rows _ _ toy_table_shards (by decide)).1 (by decide)
  exact ⟨h.1, h3.1⟩

/-! ## Properties of the L7 worker: release of reassembled payloads -/

/-- Evaluation for claim C14 at the failing input.  Grain size 2, a worker whose
flow table has no room.  In the batch [status 0, last fragment with payload 77]
slot 0 gets DPI_ERROR_MAX_FLOWS and the loop breaks: the only call is the
find-or-create of slot 0, and the payload 77 of slot 1 is not freed by the
step.  The same last fragment in slot 0 is freed once on the max_flows path,
and once after classification when the table has room. -/
theorem C14_last_fragment_not_freed_after_max_flows :
    ((task_of_outputs [out_slot 0 1, last_fragment_slot 2]).L3_L4_output_task_t 1).status =
      K2.DPI_STATUS_IP_LAST_FRAGMENT ∧
    freed_payloads (dpi_L7_worker.svc K2 toy 0 (0 : Nat)
      (task_of_outputs [out_slot 0 1, last_fragment_slot 2])).2.2 = [] ∧
    (dpi_L7_worker.svc K2 toy 0 (0 : Nat)
      (task_of_outputs [out_slot 0 1, last_fragment_slot 2])).2.2.map L7_event.slot = [0] ∧
    dpi_L7_worker.before K2 toy 0 (0 : Nat)
      (task_of_outputs [out_slot 0 1, last_fragment_slot 2]) 1 = none ∧
    freed_payloads (dpi_L7_worker.svc K2 toy 0 (0 : Nat)
      (task_of_outputs [last_fragment_slot 2, out_slot 0 1])).2.2 = [77] ∧
    freed_payloads (dpi_L7_worker.svc K2 toy 0 (1 : Nat)
      (task_of_outputs [out_slot 0 1, last_fragment_slot 2])).2.2 = [77] := by
  refine ⟨by decide, by decide, by decide, rfl, by decide, by decide⟩

/-! ## Shard index in range -/

/-- A hash below the total number of rows, divided by the per-worker table size
total_rows / W, is a worker id below W. -/
theorem hash_div_lt (hash total_rows W : Nat) (hd : W ∣ total_rows)
    (hh : hash < total_rows) : hash / (total_rows / W) < W := by
  have hmul : total_rows / W * W = total_rows := Nat.div_mul_cancel hd
  have hpos : 0 < total_rows / W := by
    rcases Nat.eq_zero_or_pos (total_rows / W) with h0 | h0
    · rw [h0, Nat.zero_mul] at hmul
      omega
    · exact h0
  rw [Nat.div_lt_iff_lt_mul hpos, Nat.mul_comm, hmul]
  exact hh

/-- Claim C21 (shard index in range).  Let the per-worker table sizes of the
L3_L4 worker be v4_rows / W and v6_rows / W with both totals divisible by W,
W >= 1 (W a u_int16_t), and let the hashers return values below the total
number of rows of their table.  Then every destination_worker written by
dpi_L3_L4_worker::svc is below W and is not changed by the narrowing to 16 bits
in dpi_L7_emitter::svc, so the index it makes into partially_filled_sizes and
partially_filled is inside those W-entry arrays; and dpi_L7_emitter::svc, run
from the constructor state on any sequence of batches produced by the L3_L4
worker, never makes an access outside its arrays (it completes without
fault), the two arrays keeping their W entries.  (G >= 1.) -/
theorem C21_shard_index_in_range {σ ρ : Type} (K : dpi_constants) (lib : dpi_library σ ρ)
    (w : dpi_L3_L4_worker) (W v4_rows v6_rows : Nat)
    (hW1 : 1 ≤ W) (hW : W < 65536) (hG : 1 ≤ K.DPI_MULTIPROCESSOR_DEFAULT_GRAIN_SIZE)
    (h4 : w.v4_worker_table_size = v4_rows / W) (hd4 : W ∣ v4_rows)
    (h6 : w.v6_worker_table_size = v6_rows / W) (hd6 : W ∣ v6_rows)
    (hhash : ∀ st infos, lib.dpi_compute_v4_hash_function st infos < v4_rows ∧
      lib.dpi_compute_v6_hash_function st infos < v6_rows) :
    (∀ (state : σ) (pkt_infos0 : dpi_pkt_infos_t) (task : mc_dpi_task_t) (i : Nat),
      i < K.DPI_MULTIPROCESSOR_DEFAULT_GRAIN_SIZE →
      ((dpi_L3_L4_worker.svc K lib w state pkt_infos0 task).1.L3_L4_output_task_t
        i).destination_worker < W ∧
      ((dpi_L3_L4_worker.svc K lib w state pkt_infos0 task).1.L3_L4_output_task_t
        i).destination_worker % 65536 =
        ((dpi_L3_L4_worker.svc K lib w state pkt_infos0 task).1.L3_L4_output_task_t
          i).destination_worker ∧
      ∀ e : dpi_L7_emitter, e.partially_filled_sizes.length = W →
        e.partially_filled.length = W →
        (∃ pfs, e.partially_filled_sizes[
          ((dpi_L3_L4_worker.svc K lib w state pkt_infos0 task).1.L3_L4_output_task_t
            i).destination_worker % 65536]? = some pfs) ∧
        (∃ pf, e.partially_filled[
          ((dpi_L3_L4_worker.svc K lib w state pkt_infos0 task).1.L3_L4_output_task_t
            i).destination_worker % 65536]? = some pf)) ∧
    (∀ (alloc : Nat → mc_dpi_task_t) (tasks : List mc_dpi_task_t),
      (∀ t ∈ tasks, ∃ (state : σ) (pkt_infos0 : dpi_pkt_infos_t) (task : mc_dpi_task_t),
        t = (dpi_L3_L4_worker.svc K lib w state pkt_infos0 task).1) →
      ∃ e, dpi_L7_emitter.run K.DPI_MULTIPROCESSOR_DEFAULT_GRAIN_SIZE
          (dpi_L7_emitter.constructor alloc W) tasks = .ok e ∧
        e.partially_filled_sizes.length = W ∧ e.partially_filled.length = W) := by
  have hroute : ∀ st infos,
      lib.dpi_compute_v4_hash_function st infos / w.v4_worker_table_size < W ∧
      lib.dpi_compute_v6_hash_function st infos / w.v6_worker_table_size < W := by
    intro st infos
    rw [h4, h6]
    exact ⟨hash_div_lt _ _ _ hd4 (hhash st infos).1, hash_div_lt _ _ _ hd6 (hhash st infos).2⟩
  have hlt : ∀ (state : σ) (pkt_infos0 : dpi_pkt_infos_t) (task : mc_dpi_task_t) (i : Nat),
      i < K.DPI_MULTIPROCESSOR_DEFAULT_GRAIN_SIZE →
      ((dpi_L3_L4_worker.svc K lib w state pkt_infos0 task).1.L3_L4_output_task_t
        i).destination_worker < W :=
    fun state pkt_infos0 task i hi =>
      L34_svc_dest_lt K lib w state pkt_infos0 task W hW1 hroute i hi
  refine ⟨fun state pkt_infos0 task i hi => ?_, fun alloc tasks hprod => ?_⟩
  · have h := hlt state pkt_infos0 task i hi
    have hmod := Nat.mod_eq_of_lt (lt_trans h hW)
    refine ⟨h, hmod, fun e hs hp => ?_⟩
    rw [hmod]
    exact ⟨⟨_, List.getElem?_eq_getElem (by rw [hs]; exact h)⟩,
      ⟨_, List.getElem?_eq_getElem (by rw [hp]; exact h)⟩⟩
  · obtain ⟨e, he, inv⟩ := L7_run_inv K.DPI_MULTIPROCESSOR_DEFAULT_GRAIN_SIZE W hG
      (by omega) tasks [] _
      (fun t ht i hi => by
        obtain ⟨state, pkt_infos0, task, rfl⟩ := hprod t ht
        exact hlt state pkt_infos0 task i hi)
      (L7_constructor_inv alloc _ W hG)
    exact ⟨e, he, inv.len_sizes, inv.len_pf⟩

/-- Witness for C21: the toy dissector (8 rows per table), two workers, 4 rows
per worker, grain size 2. -/
theorem C21_shard_index_in_range_witness :
    (∀ (state : Nat) (pkt_infos0 : dpi_pkt_infos_t) (task : mc_dpi_task_t) (i : Nat),
      i < K2.DPI_MULTIPROCESSOR_DEFAULT_GRAIN_SIZE →
      ((dpi_L3_L4_worker.svc K2 toy ⟨4, 4, 0⟩ state pkt_infos0 task).1.L3_L4_output_task_t
        i).destination_worker < 2 ∧
      ((dpi_L3_L4_worker.svc K2 toy ⟨4, 4, 0⟩ state pkt_infos0 task).1.L3_L4_output_task_t
        i).destination_worker % 65536 =
        ((dpi_L3_L4_worker.svc K2 toy ⟨4, 4, 0⟩ state pkt_infos0 task).1.L3_L4_output_task_t
          i).destination_worker ∧
      ∀ e : dpi_L7_emitter, e.partially_filled_sizes.length = 2 →
        e.partially_filled.length = 2 →
        (∃ pfs, e.partially_filled_sizes[
          ((dpi_L3_L4_worker.svc K2 toy ⟨4, 4, 0⟩ state pkt_infos0
            task).1.L3_L4_output_task_t i).destination_worker % 65536]? = some pfs) ∧
        (∃ pf, e.partially_filled[
          ((dpi_L3_L4_worker.svc K2 toy ⟨4, 4, 0⟩ state pkt_infos0
            task).1.L3_L4_output_task_t i).destination_worker % 65536]? = some pf)) ∧
    (∀ (alloc : Nat → mc_dpi_task_t) (tasks : List mc_dpi_task_t),
      (∀ t ∈ tasks, ∃ (state : Nat) (pkt_infos0 : dpi_pkt_infos_t) (task : mc_dpi_task_t),
        t = (dpi_L3_L4_worker.svc K2 toy ⟨4, 4, 0⟩ state pkt_infos0 task).1) →
      ∃ e, dpi_L7_emitter.run K2.DPI_MULTIPROCESSOR_DEFAULT_GRAIN_SIZE
          (dpi_L7_emitter.constructor alloc 2) tasks = .ok e ∧
        e.partially_filled_sizes.length = 2 ∧ e.partially_filled.length = 2) :=
  C21_shard_index_in_range K2 toy ⟨4, 4, 0⟩ 2 8 8 (by decide) (by decide) (by decide)
    (by decide) (by decide) (by decide) (by decide)
    (fun st infos => by
      simp only [toy]
      omega)

end dpi
